import Mathlib

/-!
Traffic sensor simulator (`src/simulator/src/App.js`).

A shallow embedding of the generation engine of the simulator: the event
generators, the fault injector `introduceFaults`, the tick `generateData`, and
the buffer / dispatcher made of the two dispatch effects and `sendBatchData`.

Modelling conventions.

* A JavaScript value is a `JSValue`.  Finite numbers are rationals (`num`),
  `NaN` is `nan`; the rounding of IEEE doubles, the infinities and the sign of
  zero are not modelled.
* A plain object is a `Packet`: its own enumerable properties in insertion
  order.  Reading an absent property gives `undefined`.
* `Math.random()`, the clock and the number/date formatting of the platform
  are read from a `World`; a function that draws random numbers or reads the
  clock is a `Sim` computation, which threads a `Cursor` counting the draws
  and the clock readings made so far.
* An `async` function is split at its `await`: the part that runs up to the
  request, and the continuation that runs when the request settles.
* The component is a transition system: a React state variable and the value
  an effect or a callback reads from its render closure are identified, and an
  effect is a step that may be taken in any state and does nothing when its
  guard fails.  The handlers are modelled as the functions they are; a step of
  a run that calls `stopSimulation` is a click on the Stop button and carries
  the condition under which that button is enabled.
* The property read `SENSOR_TYPE_CONFIG[type]` goes through the prototype
  chain: it finds the entries of the table and, for the names listed in
  `objectPrototypeNames`, a value inherited from `Object.prototype`.
* A function whose body can throw returns an `Option`, `none` standing for the
  exception.
-/

namespace App

/-! ## JavaScript values -/

/-- JavaScript values as they occur in sensors and packets. -/
inductive JSValue where
  | num (q : ℚ)
  | nan
  | str (s : String)
  | bool (b : Bool)
  | null
  | undefined
  | arr (items : List JSValue)
  | obj (fields : List (String × JSValue))

namespace JSValue

mutual
/-- Structural comparison of two values. -/
def same : JSValue → JSValue → Bool
  | num p, num q => decide (p = q)
  | nan, nan => true
  | str s, str t => decide (s = t)
  | bool s, bool t => decide (s = t)
  | null, null => true
  | undefined, undefined => true
  | arr xs, arr ys => sameItems xs ys
  | obj xs, obj ys => sameFields xs ys
  | _, _ => false
/-- Structural comparison of two arrays. -/
def sameItems : List JSValue → List JSValue → Bool
  | [], [] => true
  | x :: xs, y :: ys => same x y && sameItems xs ys
  | _, _ => false
/-- Structural comparison of two property lists. -/
def sameFields : List (String × JSValue) → List (String × JSValue) → Bool
  | [], [] => true
  | (k, x) :: xs, (l, y) :: ys => decide (k = l) && same x y && sameFields xs ys
  | _, _ => false
end

instance : Inhabited JSValue := ⟨undefined⟩

/-- The test `typeof v === 'number'` (true of `NaN` as well). -/
def isNumber : JSValue → Bool
  | num _ => true
  | nan => true
  | _ => false

/-- A number that may be `NaN` (`none`) as a value. -/
def ofNum : Option ℚ → JSValue
  | some q => num q
  | none => nan

/-- An optional string as a value (`none` is `undefined`). -/
def ofStr : Option String → JSValue
  | some s => str s
  | none => undefined

/-- The numeric conversion applied to an operand of `*`; `none` is `NaN`.
Strings, arrays and objects are taken to `NaN`: the operand of the products
in this program is a property that passed the `typeof` test. -/
def toNumber : JSValue → Option ℚ
  | num q => some q
  | bool true => some 1
  | bool false => some 0
  | null => some 0
  | _ => none

/-- The product `v * m` of JavaScript, `NaN` propagating. -/
def mul (v : JSValue) (m : Option ℚ) : JSValue :=
  ofNum (do let a ← toNumber v; let b ← m; pure (a * b))

/-- The comparison `v < c` against a numeric constant, on numbers (false on
`NaN` and on `undefined`). -/
def ltConst (v : JSValue) (c : ℚ) : Bool :=
  match toNumber v with
  | some q => decide (q < c)
  | none => false

end JSValue

/-! ## Objects -/

/-- A plain object: its properties in insertion order. -/
abbrev Packet := List (String × JSValue)

namespace Packet

/-- Property read `p[k]`; `undefined` when the property is absent. -/
def get (p : Packet) (k : String) : JSValue :=
  (p.lookup k).getD JSValue.undefined

/-- Property write `p[k] = v`: an existing property keeps its place, a new one
is added last. -/
def set : Packet → String → JSValue → Packet
  | [], k, v => [(k, v)]
  | (k', v') :: rest, k, v =>
      if k' = k then (k, v) :: rest else (k', v') :: set rest k v

/-- The property names, `Object.keys(p)`. -/
def keys (p : Packet) : List String := p.map Prod.fst

/-- The object spread `{ ...a, ...b }`. -/
def merge (a b : Packet) : Packet :=
  b.foldl (fun acc kv => acc.set kv.1 kv.2) a

end Packet

/-! ## The platform: random numbers, clock, formatting -/

/-- What the program reads from its platform. `random n` is the result of the
call number `n` of `Math.random()`, `clock n` the clock reading number `n`
(`Date.now()`, `new Date()`), in milliseconds. -/
structure World where
  random : Nat → ℚ
  clock : Nat → Int
  toISOString : Int → String
  formatFraction : ℚ → String
  toFixedString : ℚ → Nat → String

/-- How many random numbers were drawn and how many times the clock was read. -/
structure Cursor where
  draws : Nat := 0
  reads : Nat := 0
deriving DecidableEq

/-- A computation that draws random numbers and reads the clock. -/
def Sim (α : Type) : Type := World → Cursor → α × Cursor

instance : Monad Sim where
  pure a := fun _ c => (a, c)
  bind x f := fun w c => f (x w c).1 w (x w c).2

/-- Every draw of `Math.random()` lies in `[0, 1)`. -/
def World.UnitDraws (w : World) : Prop := ∀ n, 0 ≤ w.random n ∧ w.random n < 1

/-- One call `Math.random()`. -/
def mathRandom : Sim ℚ := fun w c =>
  (w.random c.draws, { c with draws := c.draws + 1 })

/-- One clock reading, `Date.now()`. -/
def dateNow : Sim Int := fun w c =>
  (w.clock c.reads, { c with reads := c.reads + 1 })

/-- The call `new Date().toISOString()`. -/
def newDateISO : Sim String := fun w c =>
  (w.toISOString (w.clock c.reads), { c with reads := c.reads + 1 })

/-- The call `new Date(t).toISOString()` on a given time value. -/
def dateToISOString (t : Int) : Sim String := fun w c => (w.toISOString t, c)

/-- The number denoted by `x.toFixed(decimals)`: `x` rounded to `decimals`
decimals, a tie going away from zero. -/
def toFixed (x : ℚ) (decimals : Nat) : ℚ :=
  if 0 ≤ x then (⌊x * 10 ^ decimals + 1 / 2⌋ : ℚ) / 10 ^ decimals
  else -((⌊-x * 10 ^ decimals + 1 / 2⌋ : ℚ) / 10 ^ decimals)

/-- The helper `getRandomFloat(min, max, decimals)` followed, as at every call
site, by `parseFloat`: the decimal string is represented by the number it
denotes. -/
def getRandomFloat (min max : Option ℚ) (decimals : Nat := 2) : Sim (Option ℚ) := do
  let u ← mathRandom
  pure (do
    let a ← min
    let b ← max
    pure (toFixed (u * (b - a) + a) decimals))

/-- The helper `getRandomInt(min, max)`. -/
def getRandomInt (min max : Option ℚ) : Sim (Option ℚ) := do
  let u ← mathRandom
  pure (do
    let a ← min
    let b ← max
    pure ((⌊u * (b - a + 1)⌋ : ℚ) + a))

/-- Array read `arr[i]` at a numeric index; `none` is `undefined`. -/
def index {α : Type} (arr : List α) (i : Int) : Option α :=
  if 0 ≤ i then arr[i.toNat]? else none

/-- The helper `getRandomElement(arr)`; `none` is `undefined`. -/
def getRandomElement {α : Type} (arr : List α) : Sim (Option α) := do
  let u ← mathRandom
  pure (index arr ⌊u * (arr.length : ℚ)⌋)

/-- The string of a number, as in a template literal or `String(x)`: the
decimal digits of an integer (below the exponent notation of very large
numbers), the platform rendering of a fraction, `NaN` otherwise. -/
def numberToString (x : Option ℚ) : Sim String := fun w c =>
  (match x with
    | some q => if q.den = 1 then toString q.num else w.formatFraction q
    | none => "NaN", c)

/-- The string `x.toFixed(decimals)`. -/
def toFixedString (x : ℚ) (decimals : Nat) : Sim String := fun w c =>
  (w.toFixedString x decimals, c)

/-- The length of `Array.from({ length: n }, f)`. -/
def arrayLength (n : Option ℚ) : Nat :=
  match n with
  | some q => ⌊q⌋.toNat
  | none => 0

/-- The results of `n` successive calls of `f`. -/
def callTimes {α : Type} : Nat → Sim α → Sim (List α)
  | 0, _ => pure []
  | n + 1, f => do
      let a ← f
      let rest ← callTimes n f
      pure (a :: rest)

/-- The array `Array.from({ length: n }, f)`: `f` called `n` times in order. -/
def arrayFrom {α : Type} (n : Option ℚ) (f : Sim α) : Sim (List α) :=
  callTimes (arrayLength n) f

/-- The expression `x || d` on an optional number: `d` when `x` is
`undefined`, `NaN` or `0`. -/
def orDefault (x : Option ℚ) (d : ℚ) : ℚ :=
  match x with
  | some q => if q = 0 then d else q
  | none => d

/-- The truthiness test of `x || d` on an optional string: `none` when `x` is
`undefined` or empty. -/
def truthyString (x : Option String) : Option String :=
  match x with
  | some r => if r = "" then none else some r
  | none => none

/-- The product `x * k` of a possibly missing number and a constant. -/
def scale (x : Option ℚ) (k : ℚ) : Option ℚ := x.map (· * k)

/-- The character `String.fromCharCode(65 + Math.floor(Math.random() * 26))`. -/
def randomLetter : Sim String := do
  let u ← mathRandom
  pure (String.singleton (Char.ofNat (65 + ⌊u * 26⌋).toNat))

/-- The helper `generateVehicleId()`. -/
def generateVehicleId : Sim String := do
  let n ← getRandomInt (some 1000) (some 9999)
  let ns ← numberToString n
  let c1 ← randomLetter
  let c2 ← randomLetter
  pure (ns ++ "-" ++ c1 ++ c2)

/-! ## Sensors and configuration -/

/-- The type-level parameter ranges of a sensor; a field a type does not
define is `none` (`undefined`). -/
structure DataRanges where
  vehicleCountMin : Option ℚ := none
  vehicleCountMax : Option ℚ := none
  avgSpeedMin : Option ℚ := none
  avgSpeedMax : Option ℚ := none
  speedLimit : Option ℚ := none
  coMin : Option ℚ := none
  coMax : Option ℚ := none
  no2Min : Option ℚ := none
  no2Max : Option ℚ := none
  pm25Min : Option ℚ := none
  pm25Max : Option ℚ := none
  height : Option ℚ := none
  tempMin : Option ℚ := none
  tempMax : Option ℚ := none
  pedestrianMin : Option ℚ := none
  pedestrianMax : Option ℚ := none
  cyclistMin : Option ℚ := none
  cyclistMax : Option ℚ := none
deriving DecidableEq

/-- The object `generationConfig` of a tick: the ranges of the sensor with
the global periodicity. -/
structure GenerationConfig extends DataRanges where
  periodicity : ℚ

/-- A GeoJSON point, `{ type: "Point", coordinates: [lon, lat] }`. -/
structure Location where
  lon : ℚ
  lat : ℚ
deriving DecidableEq

/-- The location as a value. -/
def Location.toValue (l : Location) : JSValue :=
  .obj [("type", .str "Point"), ("coordinates", .arr [.num l.lon, .num l.lat])]

/-- A sensor of the catalog, with the properties the generation reads. -/
structure Sensor where
  id : JSValue
  type : String
  location : Location
  road_segment_id : Option String := none
  lane_number : Option ℚ := none
  dataRanges : DataRanges := {}

/-- The component state `config`. -/
structure Config where
  simulationSpeed : ℚ := 1
  faultChance : ℚ := 1 / 20
  batchSize : Nat := 50
  periodicity : ℚ := 60
  endpointUrl : String := "http://localhost:9090/ingest"
  sensorsEndpoint : String := "http://localhost:9090/sensors"
  maxSensors : Nat := 1000
  fetchSensors : Bool := true

/-- What a generator returns: the event kind and its data fields (the icon of
the display is left out). -/
structure EventData where
  type : String
  data : Packet

/-! ## Data generation functions -/

/-- The function `generateBaseMetadata(sensor)`. -/
def generateBaseMetadata (sensor : Sensor) : Sim Packet := do
  let timestamp ← newDateISO
  let road ← (match truthyString sensor.road_segment_id with
    | some r => pure r
    | none => do
        let a ← toFixedString sensor.location.lon 4
        let b ← toFixedString sensor.location.lat 4
        pure ("ROAD-" ++ a ++ "-" ++ b) : Sim String)
  let lane ← (match sensor.lane_number with
    | some l => if l = 0 then getRandomInt (some 1) (some 4) else pure (some l)
    | none => getRandomInt (some 1) (some 4) : Sim (Option ℚ))
  let direction ← getRandomElement ["Northbound", "Southbound", "Eastbound", "Westbound"]
  let confidence ← getRandomFloat (some (85 / 100)) (some (99 / 100))
  pure [("timestamp", .str timestamp),
        ("sensor_id", sensor.id),
        ("sensor_type", .str sensor.type),
        ("location", sensor.location.toValue),
        ("road_segment_id", .str road),
        ("lane_number", .ofNum lane),
        ("direction", .ofStr direction),
        ("confidence_score", .ofNum confidence)]

/-- The generator `generateVehicleCountData(sensorConfig)`. -/
def generateVehicleCountData (sensorConfig : GenerationConfig) : Sim EventData := do
  let vehicle_count ← getRandomInt sensorConfig.vehicleCountMin sensorConfig.vehicleCountMax
  let car ← getRandomInt (scale sensorConfig.vehicleCountMin (7 / 10))
    (scale sensorConfig.vehicleCountMax (7 / 10))
  let truck ← getRandomInt (some 0) (scale sensorConfig.vehicleCountMax (15 / 100))
  let bus ← getRandomInt (some 0) (scale sensorConfig.vehicleCountMax (5 / 100))
  let motorcycle ← getRandomInt (some 0) (scale sensorConfig.vehicleCountMax (1 / 10))
  pure {
    type := "VehicleCount"
    data := [("vehicle_count", .ofNum vehicle_count),
             ("vehicle_class_counts", .obj [("car", .ofNum car), ("truck", .ofNum truck),
                ("bus", .ofNum bus), ("motorcycle", .ofNum motorcycle)]),
             ("measurement_interval_seconds", .num sensorConfig.periodicity)] }

/-- One element of `vehicle_speeds` in `generateVehicleSpeedData`. -/
def generateVehicleSpeedEntry (avgSpeed : Option ℚ) : Sim JSValue := do
  let vehicle_id ← generateVehicleId
  let speed_kmh ← getRandomFloat (avgSpeed.map (· - 10)) (avgSpeed.map (· + 10))
  pure (.obj [("vehicle_id", .str vehicle_id), ("speed_kmh", .ofNum speed_kmh)])

/-- The generator `generateVehicleSpeedData(sensorConfig)`. -/
def generateVehicleSpeedData (sensorConfig : GenerationConfig) : Sim EventData := do
  let avgSpeed ← getRandomFloat sensorConfig.avgSpeedMin sensorConfig.avgSpeedMax
  let n ← getRandomInt (some 1) (some 5)
  let vehicle_speeds ← arrayFrom n (generateVehicleSpeedEntry avgSpeed)
  pure {
    type := "VehicleSpeed"
    data := [("average_speed_kmh", .ofNum avgSpeed),
             ("vehicle_speeds", .arr vehicle_speeds),
             ("speed_limit_kmh", .num (orDefault sensorConfig.speedLimit 60)),
             ("measurement_interval_seconds", .num sensorConfig.periodicity)] }

/-- The generator `generateIncidentData()`. The start time is a clock reading
minus a whole number of seconds (`ago` is a number for every draw). -/
def generateIncidentData : Sim EventData := do
  let idNow ← dateNow
  let idString ← numberToString (some (idNow : ℚ))
  let incident_type ← getRandomElement
    ["Accident", "Stalled Vehicle", "Debris on Road", "Construction", "Weather Hazard"]
  let severity ← getRandomElement ["Low", "Moderate", "High", "Critical"]
  let nVehicles ← getRandomInt (some 1) (some 3)
  let vehicles_involved ← arrayFrom nVehicles generateVehicleId
  let startNow ← dateNow
  let ago ← getRandomInt (some 0) (some 300)
  let incident_start_time ← dateToISOString (startNow - ⌊(ago.getD 0) * 1000⌋)
  let closed ← mathRandom
  let incident_end_time ← (if closed > 7 / 10 then (do
      let t ← newDateISO
      pure (JSValue.str t)) else pure JSValue.null : Sim JSValue)
  let nLanes ← getRandomInt (some 1) (some 2)
  let lane_affected ← arrayFrom nLanes (do
      let lane ← getRandomInt (some 1) (some 4)
      let laneString ← numberToString lane
      pure (JSValue.str laneString))
  let verified ← mathRandom
  pure {
    type := "Incident"
    data := [("incident_id", .str ("INC-" ++ idString)),
             ("incident_type", .ofStr incident_type),
             ("severity", .ofStr severity),
             ("vehicles_involved", .arr (vehicles_involved.map JSValue.str)),
             ("incident_start_time", .str incident_start_time),
             ("incident_end_time", incident_end_time),
             ("lane_affected", .arr lane_affected),
             ("verified", .bool (decide (verified > 8 / 10))),
             ("detection_method", .str "AI_Video_Analytics")] }

/-- The generator `generateAirQualityData(sensorConfig)`. -/
def generateAirQualityData (sensorConfig : GenerationConfig) : Sim EventData := do
  let baseCo ← getRandomFloat sensorConfig.coMin sensorConfig.coMax
  let baseNo2 ← getRandomFloat sensorConfig.no2Min sensorConfig.no2Max
  let pm25 ← getRandomFloat sensorConfig.pm25Min sensorConfig.pm25Max
  let pm10 ← getRandomFloat (scale sensorConfig.pm25Min (3 / 2)) (scale sensorConfig.pm25Max (3 / 2))
  let aqi ← getRandomInt (some 20) (some 150)
  pure {
    type := "AirQuality"
    data := [("co_ppm", .ofNum baseCo),
             ("no2_ppb", .ofNum baseNo2),
             ("pm2_5_ug_per_m3", .ofNum pm25),
             ("pm10_ug_per_m3", .ofNum pm10),
             ("aqi", .ofNum aqi),
             ("sensor_height_meters", .num (orDefault sensorConfig.height (5 / 2))),
             ("measurement_interval_seconds", .num sensorConfig.periodicity)] }

/-- The generator `generateRoadConditionData(sensorConfig)`. -/
def generateRoadConditionData (sensorConfig : GenerationConfig) : Sim EventData := do
  let road_condition ← getRandomElement ["Dry", "Wet", "Very Wet", "Icy", "Snow Covered"]
  let temperature ← getRandomFloat sensorConfig.tempMin sensorConfig.tempMax
  let pothole ← mathRandom
  let icing_risk_level ← getRandomElement ["Low", "Medium", "High", "Critical"]
  let friction_index ← getRandomFloat (some (4 / 10)) (some (9 / 10))
  pure {
    type := "RoadCondition"
    data := [("road_condition", .ofStr road_condition),
             ("surface_temperature_celsius", .ofNum temperature),
             ("pothole_detected", .bool (decide (pothole < 5 / 100))),
             ("icing_risk_level", .ofStr icing_risk_level),
             ("friction_index", .ofNum friction_index)] }

/-- The generator `generatePedestrianData(sensorConfig)`. -/
def generatePedestrianData (sensorConfig : GenerationConfig) : Sim EventData := do
  let pedestrian_count ← getRandomInt sensorConfig.pedestrianMin sensorConfig.pedestrianMax
  let cyclist_count ← getRandomInt sensorConfig.cyclistMin sensorConfig.cyclistMax
  let pedSingle ← getRandomInt (scale sensorConfig.pedestrianMin (7 / 10))
    (scale sensorConfig.pedestrianMax (7 / 10))
  let pedGroup ← getRandomInt (some 0) (scale sensorConfig.pedestrianMax (3 / 10))
  let cycSingle ← getRandomInt (scale sensorConfig.cyclistMin (8 / 10))
    (scale sensorConfig.cyclistMax (8 / 10))
  let cycGroup ← getRandomInt (some 0) (scale sensorConfig.cyclistMax (2 / 10))
  pure {
    type := "PedestrianCount"
    data := [("pedestrian_count", .ofNum pedestrian_count),
             ("cyclist_count", .ofNum cyclist_count),
             ("group_count", .obj [
                ("pedestrian", .obj [("single", .ofNum pedSingle), ("group", .ofNum pedGroup)]),
                ("cyclist", .obj [("single", .ofNum cycSingle), ("group", .ofNum cycGroup)])]),
             ("measurement_interval_seconds", .num sensorConfig.periodicity)] }

/-- The generator `generateVehicleClassificationData()`. -/
def generateVehicleClassificationData : Sim EventData := do
  let vehicle_id ← generateVehicleId
  let vehicle_type ← getRandomElement
    ["Car", "Truck", "Bus", "Motorcycle", "Emergency", "Construction"]
  let axle_count ← getRandomInt (some 2) (some 4)
  let vehicle_length ← getRandomFloat (some (7 / 2)) (some 12)
  pure {
    type := "VehicleClassification"
    data := [("vehicle_id", .str vehicle_id),
             ("vehicle_type", .ofStr vehicle_type),
             ("axle_count", .ofNum axle_count),
             ("vehicle_length_meters", .ofNum vehicle_length)] }

/-- The generator functions, by name. -/
inductive Generator where
  | vehicleCount
  | vehicleSpeed
  | incident
  | airQuality
  | roadCondition
  | pedestrian
  | vehicleClassification
deriving DecidableEq, Repr

/-- The call `generatorFunc(generationConfig)`. -/
def Generator.run : Generator → GenerationConfig → Sim EventData
  | .vehicleCount, c => generateVehicleCountData c
  | .vehicleSpeed, c => generateVehicleSpeedData c
  | .incident, _ => generateIncidentData
  | .airQuality, c => generateAirQualityData c
  | .roadCondition, c => generateRoadConditionData c
  | .pedestrian, c => generatePedestrianData c
  | .vehicleClassification, _ => generateVehicleClassificationData

/-- One entry of `SENSOR_TYPE_CONFIG`. -/
structure TypeConfig where
  generators : List Generator
  dataRanges : DataRanges

/-- The entry `SENSOR_TYPE_CONFIG['Radar']`. -/
def radarConfig : TypeConfig :=
  { generators := [.vehicleCount, .vehicleSpeed]
    dataRanges := { vehicleCountMin := some 10, vehicleCountMax := some 200,
                    avgSpeedMin := some 40, avgSpeedMax := some 90, speedLimit := some 60 } }

/-- The table `SENSOR_TYPE_CONFIG`, in the order of its keys. -/
def SENSOR_TYPE_CONFIG : List (String × TypeConfig) :=
  [("Radar", radarConfig),
   ("Camera", {
      generators := [.vehicleCount, .incident, .vehicleClassification]
      dataRanges := { vehicleCountMin := some 5, vehicleCountMax := some 150 } }),
   ("AirQualityStation", {
      generators := [.airQuality]
      dataRanges := { coMin := some 1, coMax := some 10, no2Min := some 20, no2Max := some 100,
                      pm25Min := some 5, pm25Max := some 50, height := some (5 / 2) } }),
   ("RoadSensor", {
      generators := [.roadCondition]
      dataRanges := { tempMin := some (-5), tempMax := some 35 } }),
   ("PedestrianSensor", {
      generators := [.pedestrian]
      dataRanges := { pedestrianMin := some 0, pedestrianMax := some 50,
                      cyclistMin := some 0, cyclistMax := some 25 } })]

/-- The names of the properties that an object literal such as
`SENSOR_TYPE_CONFIG` inherits from `Object.prototype`. The inherited values are
functions, and for `__proto__` the prototype object: all are truthy and none
has a property `generators` or `dataRanges`. -/
def objectPrototypeNames : List String :=
  ["constructor", "hasOwnProperty", "isPrototypeOf", "propertyIsEnumerable",
   "toLocaleString", "toString", "valueOf", "__proto__", "__defineGetter__",
   "__defineSetter__", "__lookupGetter__", "__lookupSetter__"]

/-- Whether the property read `SENSOR_TYPE_CONFIG[type]` is truthy: the type is
a key of the table or the name of an inherited property. -/
def tableTruthy (type : String) : Bool :=
  (SENSOR_TYPE_CONFIG.lookup type).isSome || objectPrototypeNames.contains type

/-- The expression `SENSOR_TYPE_CONFIG[type] || SENSOR_TYPE_CONFIG['Radar']`:
the entry of the type; the entry of `Radar` when the read gives `undefined`;
`none` when the read gives a value inherited from `Object.prototype`, which is
truthy and on which `generators` and `dataRanges` are `undefined`. -/
def typeConfigOrRadar (type : String) : Option TypeConfig :=
  match SENSOR_TYPE_CONFIG.lookup type with
  | some typeConfig => some typeConfig
  | none => if objectPrototypeNames.contains type then none else some radarConfig

/-- The property `typeConfig.dataRanges` read in `fetchConfiguredSensors`: on a
value inherited from `Object.prototype` it is `undefined`, which the spread
`...sensor.dataRanges` of the tick treats as an object without ranges. -/
def typeDataRanges (type : String) : DataRanges :=
  match typeConfigOrRadar type with
  | some typeConfig => typeConfig.dataRanges
  | none => {}

/-! ## Fault injection -/

/-- The five fault kinds, in the order of the array literal in `introduceFaults`. -/
def faultKinds : List String :=
  ["extreme_value", "zero_value", "null_value", "negative_value", "stuck_value"]

/-- The property name a possibly `undefined` key is converted to. -/
def propertyKey (k : Option String) : String := k.getD "undefined"

/-- The names of the properties of `p` whose value has type number. -/
def numericFields (p : Packet) : List String :=
  p.keys.filter (fun key => (p.get key).isNumber)

/-- The `switch (faultType)` of `introduceFaults`, applied to the selected field. -/
def applyFault (faultyData : Packet) (faultType : Option String) (fieldToCorrupt : String) :
    Sim Packet :=
  if faultType = some "extreme_value" then do
    let factor ← getRandomElement [(10 : ℚ), 100, 1000]
    pure (faultyData.set fieldToCorrupt ((faultyData.get fieldToCorrupt).mul factor))
  else if faultType = some "zero_value" then
    pure (faultyData.set fieldToCorrupt (.num 0))
  else if faultType = some "null_value" then
    pure (faultyData.set fieldToCorrupt .null)
  else if faultType = some "negative_value" then
    pure (faultyData.set fieldToCorrupt ((faultyData.get fieldToCorrupt).mul (some (-1))))
  else
    pure faultyData

/-- The function `introduceFaults(data, sensorType)`. -/
def introduceFaults (data : Packet) (_sensorType : String) : Sim Packet := do
  let faultyData := data
  let faultType ← getRandomElement faultKinds
  let numericFields := numericFields faultyData
  if numericFields.length = 0 then
    pure faultyData
  else do
    let fieldToCorrupt ← getRandomElement numericFields
    let faultyData ← applyFault faultyData faultType (propertyKey fieldToCorrupt)
    let confidence ← getRandomFloat (some (1 / 10)) (some (4 / 10))
    let faultyData := faultyData.set "confidence_score" (.ofNum confidence)
    let faultyData := faultyData.set "fault_type" (.ofStr faultType)
    let fault_timestamp ← newDateISO
    pure (faultyData.set "fault_timestamp" (.str fault_timestamp))

/-! ## Component state -/

/-- One entry of the visual log (the rendered time and the icon are left out;
`data` stands for its JSON text). -/
structure LogEntry where
  id : ℚ
  type : String
  data : Packet
  isFaulty : Bool

/-- The component state `stats`. -/
structure Stats where
  totalSent : Nat := 0
  lastMinuteRate : Nat := 0
  faultsDetected : Nat := 0
deriving DecidableEq

/-- The object `statsRef.current`. -/
structure StatsRef where
  lastMinuteCount : Nat := 0
  lastMinuteTimestamps : List Int := []
deriving DecidableEq

/-- The state of the component during a simulation run. `inFlight` holds the
batches of the requests that were issued and have not settled. The last three
fields are history variables, written and never read by the program: the
batches cut off the buffer, the batches passed to `fetch`, and the packets
pushed on the buffer. -/
structure AppState where
  isRunning : Bool := false
  isSending : Bool := false
  isFetchingSensors : Bool := false
  sensors : List Sensor := []
  selectedSensorTypes : List String := []
  availableSensorTypes : List String := []
  log : List LogEntry := []
  pushStatus : String := "idle"
  bufferCount : Nat := 0
  stats : Stats := {}
  dataBuffer : List Packet := []
  statsRef : StatsRef := {}
  inFlight : List (List Packet) := []
  slicedLog : List (List Packet) := []
  transportLog : List (List Packet) := []
  enqueuedLog : List Packet := []

/-! ## The tick -/

/-- The function `addVisualLogEntry(type, data, isFaulty, icon)`: the log keeps
its last 200 entries. -/
def addVisualLogEntry (type : String) (data : Packet) (isFaulty : Bool)
    (log : List LogEntry) : Sim (List LogEntry) := do
  let now ← dateNow
  let r ← mathRandom
  let _shown ← dateNow
  let newLog := log ++ [{ id := (now : ℚ) + r, type := type, data := data, isFaulty := isFaulty }]
  pure (if newLog.length > 200 then newLog.drop (newLog.length - 200) else newLog)

/-- The object `generationConfig` of `generateData`: the ranges of the sensor
combined with the global periodicity. -/
def generationConfig (config : Config) (sensor : Sensor) : GenerationConfig :=
  { toDataRanges := sensor.dataRanges, periodicity := config.periodicity }

/-- The body of the `forEach` of `generateData` for one sensor; the
accumulator is `packetsForBuffer` with the visual log. The result is `none`
when the body throws: on a value inherited from `Object.prototype` the
argument `sensorTypeConfig.generators` is `undefined`, and `getRandomElement`
throws a `TypeError` when it reads `arr.length`, after its call of
`Math.random()`. -/
def reportSensor (config : Config) (acc : List Packet × List LogEntry) (sensor : Sensor) :
    Sim (Option (List Packet × List LogEntry)) := do
  let skip ← mathRandom
  if skip > 8 / 10 then
    pure (some acc)
  else
    match typeConfigOrRadar sensor.type with
    | none => do
      let _u ← mathRandom
      pure none
    | some sensorTypeConfig => do
      let generatorFunc ← getRandomElement sensorTypeConfig.generators
      match generatorFunc with
      | none => pure (some acc)
      | some generatorFunc => do
        let generationConfig := generationConfig config sensor
        let eventData ← generatorFunc.run generationConfig
        let draw ← mathRandom
        let isFaulty := decide (draw < config.faultChance)
        let base ← generateBaseMetadata sensor
        let fullPacket := Packet.merge base eventData.data
        let fullPacket ← (if isFaulty then introduceFaults fullPacket sensor.type
          else pure fullPacket : Sim Packet)
        let log ← addVisualLogEntry eventData.type fullPacket isFaulty acc.2
        pure (some (acc.1 ++ [fullPacket], log))

/-- The loop `filteredSensors.forEach(...)`: the packets collected, `none` when
the body threw for one of the sensors and the loop ended there, with the
visual log as the bodies before left it. -/
def reportSensors (config : Config) :
    List Sensor → List Packet × List LogEntry → Sim (Option (List Packet) × List LogEntry)
  | [], acc => pure (some acc.1, acc.2)
  | sensor :: rest, acc => do
      let next ← reportSensor config acc sensor
      match next with
      | none => pure (none, acc.2)
      | some acc => reportSensors config rest acc

/-- The callback `generateData` of the generation interval. When the loop
throws, the exception leaves the callback: the rate statistics and the log
entries written before are kept and nothing is pushed on the buffer. -/
def generateData (config : Config) (s : AppState) : Sim AppState := do
  let now ← dateNow
  let kept := s.statsRef.lastMinuteTimestamps.filter (fun t => decide (now - t ≤ 60000))
  let timestamps := kept ++ [now]
  let statsRef : StatsRef :=
    { lastMinuteTimestamps := timestamps, lastMinuteCount := timestamps.length }
  let filteredSensors := s.sensors.filter (fun sensor => s.selectedSensorTypes.contains sensor.type)
  let result ← reportSensors config filteredSensors ([], s.log)
  let s := { s with statsRef := statsRef, log := result.2 }
  pure (match result.1 with
    | none => s
    | some packetsForBuffer =>
      if packetsForBuffer.length > 0 then
        let dataBuffer := s.dataBuffer ++ packetsForBuffer
        { s with dataBuffer := dataBuffer, bufferCount := dataBuffer.length,
                 enqueuedLog := s.enqueuedLog ++ packetsForBuffer }
      else
        s)

/-! ## Buffer and dispatcher -/

/-- The function `sendBatchData(batch)` up to its `await`: nothing happens for
an empty endpoint or an empty batch, otherwise the request is issued. -/
def sendBatchData (config : Config) (batch : List Packet) (s : AppState) : AppState :=
  if config.endpointUrl = "" ∨ batch.length = 0 then s
  else
    { s with isSending := true, pushStatus := "sending",
             inFlight := s.inFlight ++ [batch],
             transportLog := s.transportLog ++ [batch] }

/-- The rest of `sendBatchData(batch)` once the request number `i` in flight
has settled: `ok` when the response has a success status, otherwise the
`catch` branch; the `finally` clause runs in both cases. -/
def sendBatchDataSettled (i : Nat) (ok : Bool) (s : AppState) : AppState :=
  match s.inFlight[i]? with
  | none => s
  | some batch =>
    if ok then
      { s with pushStatus := "success",
               stats := { totalSent := s.stats.totalSent + batch.length,
                          lastMinuteRate := s.statsRef.lastMinuteCount,
                          faultsDetected := s.stats.faultsDetected +
                            (batch.filter
                              (fun d => (d.get "confidence_score").ltConst (1 / 2))).length },
               isSending := false,
               inFlight := s.inFlight.eraseIdx i }
    else
      { s with pushStatus := "error", isSending := false,
               inFlight := s.inFlight.eraseIdx i }

/-- The effect that sends full batches while running. -/
def dispatchEffect (config : Config) (s : AppState) : AppState :=
  if s.isRunning ∧ ¬ s.isSending ∧ s.dataBuffer.length ≥ config.batchSize then
    let batch := s.dataBuffer.take config.batchSize
    let dataBuffer := s.dataBuffer.drop config.batchSize
    sendBatchData config batch
      { s with dataBuffer := dataBuffer, bufferCount := dataBuffer.length,
               slicedLog := s.slicedLog ++ [batch] }
  else s

/-- The effect that flushes the remaining data when stopping. -/
def flushEffect (config : Config) (s : AppState) : AppState :=
  if ¬ s.isRunning ∧ ¬ s.isSending ∧ s.dataBuffer.length > 0 then
    let finalBatch := s.dataBuffer
    sendBatchData config finalBatch
      { s with dataBuffer := [], bufferCount := 0,
               slicedLog := s.slicedLog ++ [finalBatch] }
  else s

/-- The handler `stopSimulation`. -/
def stopSimulation (s : AppState) : AppState :=
  { s with isRunning := false }

/-- One step of a run: a tick of the generation interval (which exists only
while running), one of the two dispatch effects, the settling of a request in
flight, or a click on the Stop button, the only caller of `stopSimulation`,
which is enabled while running with no request being sent
(`disabled={!isRunning || isSending}`). -/
inductive Step (config : Config) : AppState → AppState → Prop where
  | tick (s : AppState) (w : World) (c : Cursor) : s.isRunning = true →
      Step config s (generateData config s w c).1
  | dispatch (s : AppState) : Step config s (dispatchEffect config s)
  | flush (s : AppState) : Step config s (flushEffect config s)
  | settle (s : AppState) (i : Nat) (ok : Bool) : i < s.inFlight.length →
      Step config s (sendBatchDataSettled i ok s)
  | stop (s : AppState) : s.isRunning = true → s.isSending = false →
      Step config s (stopSimulation s)

/-- The state in which a run begins, as `startSimulation` leaves it once the
sensors are loaded: running, the buffer and the histories empty; a request of
the previous run may still be in flight, and `isSending` is set exactly then. -/
def RunStart (s : AppState) : Prop :=
  s.isRunning = true ∧ s.dataBuffer = [] ∧ s.slicedLog = [] ∧ s.transportLog = [] ∧
  s.enqueuedLog = [] ∧ s.inFlight.length = (if s.isSending then 1 else 0)

/-- The states a run can reach from its start. -/
inductive Reachable (config : Config) (s₀ : AppState) : AppState → Prop where
  | start : Reachable config s₀ s₀
  | step (s t : AppState) : Reachable config s₀ s → Step config s t → Reachable config s₀ t

/-- No request is in flight and neither dispatch effect has anything to do. -/
def Quiescent (config : Config) (s : AppState) : Prop :=
  s.inFlight.length = 0 ∧ s.isSending = false ∧
  ¬ (s.isRunning ∧ ¬ s.isSending ∧ s.dataBuffer.length ≥ config.batchSize) ∧
  ¬ (¬ s.isRunning ∧ ¬ s.isSending ∧ s.dataBuffer.length > 0)

/-- The invariant of the dispatcher: the batches cut off the buffer, followed
by the buffer, are the packets pushed so far; with an endpoint every cut batch
reached `fetch`; a request is in flight exactly while `isSending` is set; no
empty batch reaches `fetch`. -/
def DispatchInv (config : Config) (s : AppState) : Prop :=
  s.slicedLog.flatten ++ s.dataBuffer = s.enqueuedLog ∧
  (config.endpointUrl ≠ "" → s.transportLog.flatten = s.slicedLog.flatten) ∧
  s.inFlight.length = (if s.isSending then 1 else 0) ∧
  (∀ b ∈ s.transportLog, 1 ≤ b.length)

/-- A run in which the effects of a render have run before a click on Stop is
handled, as React runs the effects that are pending before it renders the
update of a click: the Stop button being enabled only while no request is
being sent, the running dispatch then has nothing left to cut, so that fewer
than `batchSize` packets are buffered when `stopSimulation` is called. -/
inductive ReachableCalm (config : Config) (s₀ : AppState) : AppState → Prop where
  | start : ReachableCalm config s₀ s₀
  | step (s t : AppState) : ReachableCalm config s₀ s → Step config s t →
      (s.isRunning = true → t.isRunning = false → s.dataBuffer.length < config.batchSize) →
      ReachableCalm config s₀ t

/-- The invariant of a calm run: while running every batch passed to `fetch`
is full; once stopped the buffer holds fewer than `batchSize` packets and the
batches are full ones followed by at most one shorter, non-empty one, sent
when the buffer was flushed. -/
def CalmInv (config : Config) (s : AppState) : Prop :=
  (s.isRunning = true → ∀ b ∈ s.transportLog, b.length = config.batchSize) ∧
  (s.isRunning = false →
    (s.dataBuffer.length < config.batchSize ∧
      ∀ b ∈ s.transportLog, b.length = config.batchSize) ∨
    (s.dataBuffer = [] ∧ ∃ full last, s.transportLog = full ++ [last] ∧
      (∀ b ∈ full, b.length = config.batchSize) ∧
      1 ≤ last.length ∧ last.length < config.batchSize))

/-! ## A concrete run -/

/-- A platform whose random draws are all `0` and whose clock stands still
(the formatting functions are stand-ins). -/
def demoWorld : World :=
  { random := fun _ => 0
    clock := fun _ => 1700000000000
    toISOString := fun t => toString t
    formatFraction := fun _ => ""
    toFixedString := fun _ _ => "" }

/-- A road sensor with the ranges of its type. -/
def demoSensor (n : Nat) : Sensor :=
  { id := .str ("SENSOR-ROAD-" ++ toString n)
    type := "RoadSensor"
    location := { lon := 20, lat := 41 }
    road_segment_id := some "ROAD-TIR-001"
    lane_number := some 1
    dataRanges := { tempMin := some (-5), tempMax := some 35 } }

/-- A configuration with batches of three and no faults. -/
def demoConfig : Config := { batchSize := 3, faultChance := 0 }

/-- The start of a run with seven road sensors. -/
def demoStart : AppState :=
  { isRunning := true
    sensors := (List.range 7).map demoSensor
    selectedSensorTypes := ["RoadSensor"] }

/-- The run after one tick: seven packets are buffered. -/
def demoTicked : AppState := (generateData demoConfig demoStart demoWorld {}).1

/-- The run after the first batch was cut and its request issued. -/
def demoSending : AppState := dispatchEffect demoConfig demoTicked

/-- The run in which each request settles before the next step: two full
batches are sent, then the run is stopped. -/
def demoStoppedCalm : AppState :=
  stopSimulation (sendBatchDataSettled 0 true (dispatchEffect demoConfig
    (sendBatchDataSettled 0 true demoSending)))

/-- The calm run after its flush and the settling of the last request. -/
def demoFinished : AppState :=
  sendBatchDataSettled 0 true (flushEffect demoConfig demoStoppedCalm)

/-! ## A concrete fault injection -/

/-- The numeric fields of `input` in which `output` differs from it. -/
def differingNumericFields (input output : Packet) : List String :=
  (numericFields input).filter (fun k => !(JSValue.same (input.get k) (output.get k)))

/-- A VehicleSpeed packet with `average_speed_kmh = 72.5`. Its numeric fields
are, in order, `lane_number`, `confidence_score`, `average_speed_kmh`,
`speed_limit_kmh` and `measurement_interval_seconds`. -/
def demoSpeedPacket : Packet :=
  [("timestamp", .str "2024-01-01T00:00:00.000Z"),
   ("sensor_id", .str "SENSOR-RADA-0001"),
   ("sensor_type", .str "Radar"),
   ("location", .obj [("type", .str "Point"), ("coordinates", .arr [.num 20, .num 41])]),
   ("road_segment_id", .str "ROAD-TIR-001"),
   ("lane_number", .num 2),
   ("direction", .str "Northbound"),
   ("confidence_score", .num (92 / 100)),
   ("average_speed_kmh", .num (145 / 2)),
   ("vehicle_speeds", .arr [.obj [("vehicle_id", .str "1234-AB"), ("speed_kmh", .num 70)]]),
   ("speed_limit_kmh", .num 60),
   ("measurement_interval_seconds", .num 60)]

/-- A platform with the given first random draws (the later ones are `0`). -/
def worldWithDraws (draws : List ℚ) : World :=
  { demoWorld with random := fun n => draws.getD n 0 }

/-- Draws that select `zero_value` (index 1 of 5) and the third numeric field. -/
def zeroValueWorld : World := worldWithDraws [1 / 4, 1 / 2, 1 / 2]

/-- Draws that select `stuck_value` (index 4 of 5) and the third numeric field. -/
def stuckValueWorld : World := worldWithDraws [9 / 10, 1 / 2, 1 / 2]

/-- A packet without a property of type number. -/
def demoTextPacket : Packet :=
  [("road_condition", .str "Dry"), ("pothole_detected", .bool true),
   ("incident_end_time", .null)]

/-- The field `introduceFaults(data, sensorType)` selects to corrupt: the
element of `numericFields` picked by the second random draw. -/
def selectedField (data : Packet) : Sim String := do
  let _faultType ← getRandomElement faultKinds
  let fieldToCorrupt ← getRandomElement (numericFields data)
  pure (propertyKey fieldToCorrupt)

/-- Draws that select `extreme_value` (index 0 of 5), the third numeric field
and the factor 100 (index 1 of 3). -/
def extremeValueWorld : World := worldWithDraws [1 / 10, 1 / 2, 1 / 2, 1 / 2]

/-! ## Ranges of the drawn values -/

/-- Property read `v.k` on a value: `undefined` unless `v` is an object with
the property. -/
def JSValue.field (v : JSValue) (k : String) : JSValue :=
  match v with
  | .obj fields => Packet.get fields k
  | _ => .undefined

/-- The value is a number `v` drawn by `getRandomInt(min, max)` from a range
with `min ≤ max`: `min ≤ v`, and `v` exceeds `max` by less than one unit, and
not at all when `max - min` is a whole number. -/
def InIntRange (min max : ℚ) (value : JSValue) : Prop :=
  ∃ v, value = .num v ∧ min ≤ v ∧ v < max + 1 ∧ ∀ n : ℤ, max - min = n → v ≤ max

/-- The value is a number `v` drawn by `getRandomFloat(min, max)` from a range
with `min ≤ max`: `v` lies in `[min, max]` up to half a unit of the second
decimal, the effect of the rounding. -/
def InFloatRange (min max : ℚ) (value : JSValue) : Prop :=
  ∃ v, value = .num v ∧ min - 1 / 200 ≤ v ∧ v ≤ max + 1 / 200

/-- The drawn fields of a VehicleCount reading lie in their ranges: the count
in `[vehicleCountMin, vehicleCountMax]`, the class counts in the ranges derived
from these bounds. -/
def VehicleCountRanges (config : GenerationConfig) (data : Packet) : Prop :=
  ∀ a b, config.vehicleCountMin = some a → config.vehicleCountMax = some b →
    (a ≤ b → InIntRange a b (data.get "vehicle_count")) ∧
    (a ≤ b → InIntRange (a * (7 / 10)) (b * (7 / 10))
      ((data.get "vehicle_class_counts").field "car")) ∧
    (0 ≤ b → InIntRange 0 (b * (15 / 100)) ((data.get "vehicle_class_counts").field "truck")) ∧
    (0 ≤ b → InIntRange 0 (b * (5 / 100)) ((data.get "vehicle_class_counts").field "bus")) ∧
    (0 ≤ b → InIntRange 0 (b * (1 / 10))
      ((data.get "vehicle_class_counts").field "motorcycle"))

/-- The drawn fields of a VehicleSpeed reading lie in their ranges: the average
in `[avgSpeedMin, avgSpeedMax]`, every vehicle speed within 10 of the average. -/
def VehicleSpeedRanges (config : GenerationConfig) (data : Packet) : Prop :=
  ∀ a b, config.avgSpeedMin = some a → config.avgSpeedMax = some b → a ≤ b →
    ∃ avg, data.get "average_speed_kmh" = .num avg ∧ InFloatRange a b (.num avg) ∧
      ∃ items, data.get "vehicle_speeds" = .arr items ∧
        ∀ item ∈ items, InFloatRange (avg - 10) (avg + 10) (item.field "speed_kmh")

/-- The drawn fields of an AirQuality reading lie in their ranges. -/
def AirQualityRanges (config : GenerationConfig) (data : Packet) : Prop :=
  (∀ a b, config.coMin = some a → config.coMax = some b → a ≤ b →
    InFloatRange a b (data.get "co_ppm")) ∧
  (∀ a b, config.no2Min = some a → config.no2Max = some b → a ≤ b →
    InFloatRange a b (data.get "no2_ppb")) ∧
  (∀ a b, config.pm25Min = some a → config.pm25Max = some b → a ≤ b →
    InFloatRange a b (data.get "pm2_5_ug_per_m3") ∧
    InFloatRange (a * (3 / 2)) (b * (3 / 2)) (data.get "pm10_ug_per_m3")) ∧
  InIntRange 20 150 (data.get "aqi")

/-- The drawn fields of a RoadCondition reading lie in their ranges. -/
def RoadConditionRanges (config : GenerationConfig) (data : Packet) : Prop :=
  (∀ a b, config.tempMin = some a → config.tempMax = some b → a ≤ b →
    InFloatRange a b (data.get "surface_temperature_celsius")) ∧
  InFloatRange (4 / 10) (9 / 10) (data.get "friction_index")

/-- The drawn fields of a PedestrianCount reading lie in their ranges. -/
def PedestrianRanges (config : GenerationConfig) (data : Packet) : Prop :=
  (∀ a b, config.pedestrianMin = some a → config.pedestrianMax = some b →
    (a ≤ b → InIntRange a b (data.get "pedestrian_count")) ∧
    (a ≤ b → InIntRange (a * (7 / 10)) (b * (7 / 10))
      (((data.get "group_count").field "pedestrian").field "single")) ∧
    (0 ≤ b → InIntRange 0 (b * (3 / 10))
      (((data.get "group_count").field "pedestrian").field "group"))) ∧
  (∀ a b, config.cyclistMin = some a → config.cyclistMax = some b →
    (a ≤ b → InIntRange a b (data.get "cyclist_count")) ∧
    (a ≤ b → InIntRange (a * (8 / 10)) (b * (8 / 10))
      (((data.get "group_count").field "cyclist").field "single")) ∧
    (0 ≤ b → InIntRange 0 (b * (2 / 10))
      (((data.get "group_count").field "cyclist").field "group")))

/-- The generation configuration of a Radar sensor with the default ranges. -/
def demoRadarConfig : GenerationConfig :=
  { toDataRanges := radarConfig.dataRanges, periodicity := 60 }

/-- The generation configuration of a Camera sensor with the default ranges of
its type (`vehicleCountMin = 5`, `vehicleCountMax = 150`). -/
def demoCameraConfig : GenerationConfig :=
  { toDataRanges := typeDataRanges "Camera", periodicity := 60 }

/-- The `car` entry of `vehicle_class_counts` in a VehicleCount reading of a
Camera sensor with the default ranges. -/
def cameraCarCount (w : World) (c : Cursor) : JSValue :=
  ((generateVehicleCountData demoCameraConfig w c).1.data.get "vehicle_class_counts").field "car"

/-- A state with a hundred sensors and an empty allow-list of sensor types. -/
def demoNoTypes : AppState :=
  { isRunning := true
    sensors := (List.range 100).map demoSensor
    selectedSensorTypes := []
    dataBuffer := [demoTextPacket]
    bufferCount := 1 }

/-! ## Loading the sensors and starting a run -/

/-- The array `[...new Set(xs)]`: the distinct elements of `xs`, in the order
of their first occurrence. -/
def distinctInOrder : List String → List String
  | [] => []
  | x :: xs => x :: (distinctInOrder xs).filter (fun y => decide (y ≠ x))

/-- The string `s.padStart(targetLength, padChar)`. -/
def padStart (s : String) (targetLength : Nat) (padChar : Char) : String :=
  String.mk (List.replicate (targetLength - s.length) padChar) ++ s

/-- The keys of the table, `Object.keys(SENSOR_TYPE_CONFIG)`. -/
def sensorTypes : List String := SENSOR_TYPE_CONFIG.map Prod.fst

/-- The callback of `Array.from` in `generateRandomSensors`, for the index `i`.
The result is `none` when the callback throws: the drawn type is `undefined`,
which happens for no draw in `[0, 1)`. The coordinates are numbers for every
draw. -/
def generateRandomSensor (i : Nat) : Sim (Option Sensor) := do
  let type ← getRandomElement sensorTypes
  match type.bind (fun t => (SENSOR_TYPE_CONFIG.lookup t).map (fun tc => (t, tc))) with
  | none => pure none
  | some (type, typeConfig) => do
    let lon ← getRandomFloat (some (197 / 10)) (some 20) 6
    let lat ← getRandomFloat (some (412 / 10)) (some (415 / 10)) 6
    let roadName ← getRandomElement ["TIR", "DUR", "VLOR", "KUK"]
    let roadNumber ← getRandomInt (some 1) (some 100)
    let roadNumberString ← numberToString roadNumber
    let lane_number ← getRandomInt (some 1) (some 4)
    pure (some {
      id := .str ("SENSOR-" ++ (type.take 4).toUpper ++ "-" ++
        padStart (toString (i + 1)) 4 '0')
      type := type
      location := { lon := lon.getD 0, lat := lat.getD 0 }
      road_segment_id := some ("ROAD-" ++ roadName.getD "undefined" ++ "-" ++
        padStart roadNumberString 3 '0')
      lane_number := lane_number
      dataRanges := typeConfig.dataRanges })

/-- The array `Array.from({ length: n }, callback)` of `generateRandomSensors`,
from the index `i` on; `none` when a callback throws. -/
def generateSensorsFrom : Nat → Nat → Sim (Option (List Sensor))
  | _, 0 => pure (some [])
  | i, n + 1 => do
      let sensor ← generateRandomSensor i
      match sensor with
      | none => pure none
      | some sensor => do
          let rest ← generateSensorsFrom (i + 1) n
          pure (rest.map (fun rest => sensor :: rest))

/-- The function `generateRandomSensors()`; `none` when it throws. -/
def generateRandomSensors (config : Config) (s : AppState) : Sim (Option AppState) := do
  let newSensors ← generateSensorsFrom 0 (if config.maxSensors = 0 then 100 else config.maxSensors)
  match newSensors with
  | none => pure none
  | some newSensors =>
    let generatedSensorTypes := distinctInOrder (newSensors.map (fun sensor => sensor.type))
    pure (some { s with
      sensors := newSensors
      availableSensorTypes := generatedSensorTypes
      selectedSensorTypes :=
        s.selectedSensorTypes.filter (fun type => generatedSensorTypes.contains type)
      pushStatus := if generatedSensorTypes.length = 0 then "error" else "success" })

/-- What the request `fetch(config.sensorsEndpoint)` comes to: the request or
the decoding of its body throws, the response has a status that is not a
success, or the response is a success with the decoded list of sensors. -/
inductive SensorsResponse where
  | networkError
  | notOk (status : Nat)
  | ok (sensorList : List Sensor)

/-- The `catch` and `finally` clauses of `fetchConfiguredSensors`. -/
def fetchConfiguredSensorsCatch (config : Config) (s : AppState) : Sim (Option AppState) := do
  let recovered ← generateRandomSensors config { s with pushStatus := "error" }
  pure (recovered.map (fun t => { t with isFetchingSensors := false }))

/-- The constant `limitedSensors` of `fetchConfiguredSensors`. -/
def limitedSensors (config : Config) (sensorList : List Sensor) : List Sensor :=
  if config.maxSensors > 0 then sensorList.take config.maxSensors else sensorList

/-- The constant `enrichedSensors` of `fetchConfiguredSensors`. -/
def enrichedSensors (config : Config) (sensorList : List Sensor) : List Sensor :=
  (limitedSensors config sensorList).map (fun sensor =>
    { sensor with dataRanges := typeDataRanges sensor.type })

/-- The constant `validSensors` of `fetchConfiguredSensors`: the filter keeps a
sensor when `SENSOR_TYPE_CONFIG[sensor.type]` is truthy or its type is
`Radar`. -/
def validSensors (config : Config) (sensorList : List Sensor) : List Sensor :=
  (enrichedSensors config sensorList).filter (fun sensor =>
    tableTruthy sensor.type || sensor.type == "Radar")

/-- The constant `fetchedSensorTypes` of `fetchConfiguredSensors`. -/
def fetchedSensorTypes (config : Config) (sensorList : List Sensor) : List String :=
  distinctInOrder ((validSensors config sensorList).map (fun sensor => sensor.type))

/-- The state of `fetchConfiguredSensors` after the selected types were
updated from the fetched sensors. -/
def fetchedState (config : Config) (sensorList : List Sensor) (s : AppState) : AppState :=
  { s with
    isFetchingSensors := true
    sensors := enrichedSensors config sensorList
    availableSensorTypes := fetchedSensorTypes config sensorList
    selectedSensorTypes := s.selectedSensorTypes.filter
      (fun type => (fetchedSensorTypes config sensorList).contains type) }

/-- The `try` block of `fetchConfiguredSensors` for a successful response, with
the `catch` and `finally` clauses. -/
def fetchConfiguredSensorsOk (config : Config) (sensorList : List Sensor) (s : AppState) :
    Sim (Option AppState) :=
  if (fetchedSensorTypes config sensorList).length = 0 then do
    let warned := { fetchedState config sensorList s with pushStatus := "warning" }
    let fallback ← generateRandomSensors config warned
    match fallback with
    | some t => pure (some { t with isFetchingSensors := false })
    | none => fetchConfiguredSensorsCatch config warned
  else
    pure (some { fetchedState config sensorList s with
      sensors := validSensors config sensorList
      pushStatus := "success"
      isFetchingSensors := false })

/-- The function `fetchConfiguredSensors()`, given what its request comes to;
`none` when an exception escapes it. -/
def fetchConfiguredSensors (config : Config) (response : SensorsResponse) (s : AppState) :
    Sim (Option AppState) :=
  if config.fetchSensors = false ∨ config.sensorsEndpoint = "" then pure (some s)
  else
    match response with
    | .networkError => fetchConfiguredSensorsCatch config { s with isFetchingSensors := true }
    | .notOk _ => fetchConfiguredSensorsCatch config { s with isFetchingSensors := true }
    | .ok sensorList => fetchConfiguredSensorsOk config sensorList s

/-- The handler `startSimulation`, given what the request for the sensors
comes to; `none` when an exception escapes it. The histories of the run begin
empty. -/
def startSimulation (config : Config) (response : SensorsResponse) (s : AppState) :
    Sim (Option AppState) := do
  let s := { s with log := [], dataBuffer := [], bufferCount := 0, pushStatus := "idle",
                    slicedLog := [], transportLog := [], enqueuedLog := [] }
  let loaded ← (if config.fetchSensors then fetchConfiguredSensors config response s
    else generateRandomSensors config s : Sim (Option AppState))
  pure (loaded.map (fun t => { t with isRunning := true }))

/-- The `disabled` attribute of the Start button. -/
def startDisabled (s : AppState) : Bool :=
  s.isRunning || s.isFetchingSensors || s.selectedSensorTypes.length == 0

/-- The value the promise of `sendBatchData(batch)` resolves to once its
request has settled: `true` at the end of the `try` block, `false` in the
`catch` block. -/
def sendBatchDataSettledValue (ok : Bool) : JSValue :=
  if ok then .bool true else .bool false

/-- The first request of the concrete run fails. -/
def demoSendFailed : AppState := sendBatchDataSettled 0 false demoSending

/-- The first request of the concrete run succeeds. -/
def demoSendSucceeded : AppState := sendBatchDataSettled 0 true demoSending

/-- What loading the sensors leaves as it is: everything but the sensors, the
two lists of sensor types, the status message and `isFetchingSensors`. -/
def LoadFrame (s t : AppState) : Prop :=
  t.isRunning = s.isRunning ∧ t.isSending = s.isSending ∧ t.log = s.log ∧
  t.bufferCount = s.bufferCount ∧ t.stats = s.stats ∧ t.dataBuffer = s.dataBuffer ∧
  t.statsRef = s.statsRef ∧ t.inFlight = s.inFlight ∧ t.slicedLog = s.slicedLog ∧
  t.transportLog = s.transportLog ∧ t.enqueuedLog = s.enqueuedLog

/-- The sensor has a type of the table and the ranges of that type. -/
def HasTypeRanges (sensor : Sensor) : Prop :=
  ∃ typeConfig, SENSOR_TYPE_CONFIG.lookup sensor.type = some typeConfig ∧
    sensor.dataRanges = typeConfig.dataRanges

/-! ## Concrete loads and starts -/

/-- A sensor of a type the table does not have. -/
def demoUnknownSensor : Sensor := { demoSensor 1 with type := "Lidar" }

/-- A camera sensor. -/
def demoCameraSensor : Sensor := { demoSensor 2 with type := "Camera" }

/-- A configuration that consumes at most two fetched sensors. -/
def demoFetchConfig : Config := { batchSize := 3, faultChance := 0, maxSensors := 2 }

/-- A fetched list: a road sensor, a sensor of unknown type, a road sensor. -/
def demoSensorList : List Sensor := [demoSensor 0, demoUnknownSensor, demoSensor 2]

/-- The component before a start, with only the type `Radar` selected. -/
def demoIdle : AppState :=
  { selectedSensorTypes := ["Radar"], availableSensorTypes := sensorTypes }

/-- The component before a start, with no type selected. -/
def demoIdleNoTypes : AppState :=
  { selectedSensorTypes := [], availableSensorTypes := sensorTypes }

/-- A new start after the concrete run has finished, in which seven packets
were sent. -/
def demoRestarted : Option AppState :=
  (startSimulation demoFetchConfig (.ok demoSensorList) demoFinished demoWorld {}).1

/-- A start with only `Radar` selected, for which the sensor source returns a
single camera. -/
def demoStartedWithCamera : Option AppState :=
  (startSimulation demoFetchConfig (.ok [demoCameraSensor]) demoIdle demoWorld {}).1

/-- A call of `startSimulation` with no type selected. -/
def demoStartedWithNoTypes : Option AppState :=
  (startSimulation demoFetchConfig (.ok demoSensorList) demoIdleNoTypes demoWorld {}).1

/-- A load for which the request fails, with two sensors to synthesize. -/
def demoFallback : Option AppState :=
  (fetchConfiguredSensors demoFetchConfig .networkError demoIdle demoWorld {}).1

/-! ## A sensor type named like an inherited property -/

/-- A fetched sensor whose type is the name of a property that the table
inherits from `Object.prototype`. -/
def demoConstructorSensor : Sensor := { demoSensor 1 with type := "constructor" }

/-- A fetched list: a road sensor and the sensor of type `constructor`. -/
def demoInheritedList : List Sensor := [demoSensor 0, demoConstructorSensor]

/-- A configuration that consumes at most five fetched sensors. -/
def demoLoadConfig : Config := { batchSize := 3, faultChance := 0, maxSensors := 5 }

/-- The load of `demoInheritedList`. -/
def demoInheritedLoaded : Option AppState :=
  (fetchConfiguredSensors demoLoadConfig (.ok demoInheritedList) demoIdle demoWorld {}).1

/-- The component before a start, after that load and a click on "select all":
both fetched types are selected. -/
def demoIdleInherited : AppState :=
  { selectedSensorTypes := ["RoadSensor", "constructor"]
    availableSensorTypes := ["RoadSensor", "constructor"] }

/-- The run entered from `demoIdleInherited` when the sensor source returns
`demoInheritedList` again. -/
def demoStartedInherited : Option AppState :=
  (startSimulation demoLoadConfig (.ok demoInheritedList) demoIdleInherited demoWorld {}).1

/-- The same start when the sensor source returns the road sensor alone. -/
def demoStartedRoadOnly : Option AppState :=
  (startSimulation demoLoadConfig (.ok [demoSensor 0]) demoIdleInherited demoWorld {}).1

/-! ## Concrete data for the rate window -/

/-- The platform of `demoWorld`, 60001 milliseconds later. -/
def demoLaterWorld : World := { demoWorld with clock := fun _ => 1700000060001 }

/-- The run after a first tick and a second tick 60001 milliseconds later. -/
def demoTickedLater : AppState := (generateData demoConfig demoTicked demoLaterWorld {}).1

/-! ## Concrete data for a tick with faults -/

/-- A configuration in which every packet is fault-injected. -/
def demoFaultyConfig : Config := { batchSize := 3, faultChance := 1 }

/-- The run of `demoStart` after one tick in which every packet is
fault-injected. -/
def demoFaultyTicked : AppState := (generateData demoFaultyConfig demoStart demoWorld {}).1

/-! ## The turns of a tick -/

/-- The sensors a tick goes through, each with its reporting draw: the first
random draw of its turn in the loop of `generateData`, the turns following one
another on the streams of the platform from the cursor `c` on. -/
def reportingDraws (config : Config) (w : World) : List Sensor → Cursor → List (Sensor × ℚ)
  | [], _ => []
  | sensor :: rest, c =>
      (sensor, w.random c.draws) ::
        reportingDraws config w rest (reportSensor config ([], []) sensor w c).2

/-- A platform on which the first draw is `0.9` and the later ones are `0`: the
first sensor of a tick does not report. -/
def demoSkipWorld : World := worldWithDraws [9 / 10]

/-- A state with two road sensors around a camera, `RoadSensor` alone being
selected. -/
def demoMixedStart : AppState :=
  { isRunning := true
    sensors := [demoSensor 0, demoCameraSensor, demoSensor 1]
    selectedSensorTypes := ["RoadSensor"] }

/-! ## Reading a number off the end of a text -/

/-- One step of reading decimal digits from left to right: a digit extends the
number read so far, any other character starts over at zero. -/
def digitStep (acc : Nat) (ch : Char) : Nat :=
  if ch.isDigit then 10 * acc + (ch.toNat - 48) else 0

/-- The number written by the decimal digits at the end of a text. -/
def trailingNumber (s : String) : Nat := s.data.foldl digitStep 0

/-- The number of hyphens in a text. -/
def dashCount (s : String) : Nat := s.data.count '-'

/-! ## Concrete data for incident readings -/

/-- A platform whose random draws are all `0.5` and whose clock stands still. -/
def demoHalfWorld : World := { demoWorld with random := fun _ => 1 / 2 }

/-- A run with two cameras. -/
def demoCameras : AppState :=
  { isRunning := true
    sensors := [demoCameraSensor, { demoSensor 3 with type := "Camera" }]
    selectedSensorTypes := ["Camera"] }

/-- The run with two cameras after one tick in which both report an incident. -/
def demoCamerasTicked : AppState := (generateData demoConfig demoCameras demoHalfWorld {}).1

/-! # Properties -/

/-! ## Values and objects -/

namespace JSValue

mutual
theorem same_refl : ∀ a : JSValue, same a a = true
  | num _ => by simp [same]
  | nan => by simp [same]
  | str _ => by simp [same]
  | bool _ => by simp [same]
  | null => by simp [same]
  | undefined => by simp [same]
  | arr xs => by simp [same, sameItems_refl xs]
  | obj xs => by simp [same, sameFields_refl xs]
theorem sameItems_refl : ∀ a : List JSValue, sameItems a a = true
  | [] => by simp [sameItems]
  | x :: xs => by simp [sameItems, same_refl x, sameItems_refl xs]
theorem sameFields_refl : ∀ a : List (String × JSValue), sameFields a a = true
  | [] => by simp [sameFields]
  | (_, x) :: xs => by simp [sameFields, same_refl x, sameFields_refl xs]
end

mutual
theorem eq_of_same : ∀ a b : JSValue, same a b = true → a = b
  | num _, b => by cases b <;> simp [same]
  | nan, b => by cases b <;> simp [same]
  | str _, b => by cases b <;> simp [same]
  | bool _, b => by cases b <;> simp [same]
  | null, b => by cases b <;> simp [same]
  | undefined, b => by cases b <;> simp [same]
  | arr xs, b => by
      cases b <;> simp [same]
      exact eq_of_sameItems xs _
  | obj xs, b => by
      cases b <;> simp [same]
      exact eq_of_sameFields xs _
theorem eq_of_sameItems : ∀ a b : List JSValue, sameItems a b = true → a = b
  | [], b => by cases b <;> simp [sameItems]
  | x :: xs, b => by
      cases b with
      | nil => simp [sameItems]
      | cons y ys =>
        simp only [sameItems, Bool.and_eq_true]
        rintro ⟨h1, h2⟩
        rw [eq_of_same x y h1, eq_of_sameItems xs ys h2]
theorem eq_of_sameFields :
    ∀ a b : List (String × JSValue), sameFields a b = true → a = b
  | [], b => by cases b <;> simp [sameFields]
  | (k, x) :: xs, b => by
      cases b with
      | nil => simp [sameFields]
      | cons y ys =>
        obtain ⟨l, y⟩ := y
        simp only [sameFields, Bool.and_eq_true, decide_eq_true_eq]
        rintro ⟨⟨h0, h1⟩, h2⟩
        rw [h0, eq_of_same x y h1, eq_of_sameFields xs ys h2]
end

theorem same_iff (a b : JSValue) : same a b = true ↔ a = b :=
  ⟨eq_of_same a b, fun e => e ▸ same_refl a⟩

end JSValue

theorem Sim.pure_apply {α : Type} (a : α) (w : World) (c : Cursor) :
    (pure a : Sim α) w c = (a, c) := rfl

theorem Sim.bind_apply {α β : Type} (x : Sim α) (f : α → Sim β) (w : World) (c : Cursor) :
    (x >>= f) w c = f (x w c).1 w (x w c).2 := rfl

/-! ## The tick only appends to the buffer -/

theorem generateData_frame (config : Config) (s : AppState) (w : World) (c : Cursor) :
    (generateData config s w c).1.isRunning = s.isRunning ∧
    (generateData config s w c).1.isSending = s.isSending ∧
    (generateData config s w c).1.inFlight = s.inFlight ∧
    (generateData config s w c).1.slicedLog = s.slicedLog ∧
    (generateData config s w c).1.transportLog = s.transportLog ∧
    (generateData config s w c).1.stats = s.stats ∧
    ∃ p, (generateData config s w c).1.dataBuffer = s.dataBuffer ++ p ∧
         (generateData config s w c).1.enqueuedLog = s.enqueuedLog ++ p := by
  simp only [generateData, bind, pure]
  split
  · exact ⟨rfl, rfl, rfl, rfl, rfl, rfl, [], by simp, by simp⟩
  · split
    · exact ⟨rfl, rfl, rfl, rfl, rfl, rfl, _, rfl, rfl⟩
    · exact ⟨rfl, rfl, rfl, rfl, rfl, rfl, [], by simp, by simp⟩

theorem sendBatchData_cases (config : Config) (batch : List Packet) (s : AppState) :
    (sendBatchData config batch s = s ∧ (config.endpointUrl = "" ∨ batch.length = 0)) ∨
    (sendBatchData config batch s =
      { s with isSending := true, pushStatus := "sending",
               inFlight := s.inFlight ++ [batch],
               transportLog := s.transportLog ++ [batch] } ∧
      config.endpointUrl ≠ "" ∧ 1 ≤ batch.length) := by
  unfold sendBatchData
  split
  · left; exact ⟨rfl, by assumption⟩
  · rename_i h
    right
    refine ⟨rfl, ?_, ?_⟩
    · intro e; exact h (Or.inl e)
    · rcases Nat.eq_zero_or_pos batch.length with e | e
      · exact absurd (Or.inr e) h
      · exact e

theorem DispatchInv_step (config : Config) (s t : AppState)
    (hi : DispatchInv config s) (hs : Step config s t) : DispatchInv config t := by
  obtain ⟨h1, h2, h3, h4⟩ := hi
  cases hs with
  | tick w c hr =>
    obtain ⟨e1, e2, e3, e4, e5, _, p, e6, e7⟩ := generateData_frame config s w c
    refine ⟨?_, ?_, ?_, ?_⟩
    · rw [e4, e6, e7, ← h1, List.append_assoc]
    · rw [e4, e5]; exact h2
    · rw [e3, e2]; exact h3
    · rw [e5]; exact h4
  | dispatch =>
    unfold dispatchEffect
    split
    · rename_i hg
      obtain ⟨hrun, hsend, hlen⟩ := hg
      rcases sendBatchData_cases config (s.dataBuffer.take config.batchSize)
        { s with dataBuffer := s.dataBuffer.drop config.batchSize,
                 bufferCount := (s.dataBuffer.drop config.batchSize).length,
                 slicedLog := s.slicedLog ++ [s.dataBuffer.take config.batchSize] } with
        ⟨e, hc⟩ | ⟨e, hu, hb⟩
      · rw [e]
        refine ⟨?_, ?_, h3, h4⟩
        · simp [← h1]
        · intro hu
          rcases hc with hc | hc
          · exact absurd hc hu
          · have : s.dataBuffer.take config.batchSize = [] := List.length_eq_zero.mp hc
            simp [this, h2 hu]
      · rw [e]
        refine ⟨?_, ?_, ?_, ?_⟩
        · simp [← h1]
        · intro hu
          simp [h2 hu]
        · have : s.isSending = false := by simpa using hsend
          simp [this] at h3
          simp [h3]
        · intro b hb'
          simp at hb'
          rcases hb' with hb' | hb'
          · exact h4 b hb'
          · rw [hb']; exact hb
    · exact ⟨h1, h2, h3, h4⟩
  | flush =>
    unfold flushEffect
    split
    · rename_i hg
      obtain ⟨hrun, hsend, hlen⟩ := hg
      rcases sendBatchData_cases config s.dataBuffer
        { s with dataBuffer := [], bufferCount := 0,
                 slicedLog := s.slicedLog ++ [s.dataBuffer] } with
        ⟨e, hc⟩ | ⟨e, hu, hb⟩
      · rw [e]
        refine ⟨?_, ?_, h3, h4⟩
        · simp [← h1]
        · intro hu
          rcases hc with hc | hc
          · exact absurd hc hu
          · omega
      · rw [e]
        refine ⟨?_, ?_, ?_, ?_⟩
        · simp [← h1]
        · intro hu
          simp [h2 hu]
        · have : s.isSending = false := by simpa using hsend
          simp [this] at h3
          simp [h3]
        · intro b hb'
          simp at hb'
          rcases hb' with hb' | hb'
          · exact h4 b hb'
          · rw [hb']; exact hb
    · exact ⟨h1, h2, h3, h4⟩
  | settle i ok hi =>
    have hlen : s.inFlight.length = 1 := by
      by_cases hs : s.isSending = true
      · rw [if_pos hs] at h3; exact h3
      · rw [if_neg hs] at h3; omega
    have hi0 : i = 0 := by omega
    subst hi0
    obtain ⟨b, hb⟩ : ∃ b, s.inFlight = [b] := List.length_eq_one.mp hlen
    unfold sendBatchDataSettled
    simp only [hb, List.getElem?_cons_zero]
    cases ok <;> exact ⟨h1, h2, by simp, h4⟩
  | stop => exact ⟨h1, h2, h3, h4⟩

theorem DispatchInv_reachable (config : Config) (s₀ s : AppState)
    (h0 : RunStart s₀) (hr : Reachable config s₀ s) : DispatchInv config s := by
  induction hr with
  | start =>
    obtain ⟨_, hb, hs, ht, he, hf⟩ := h0
    exact ⟨by simp [hb, hs, he], by simp [hs, ht], hf, by simp [ht]⟩
  | step s t _ hst ih => exact DispatchInv_step config s t ih hst

theorem sendBatchData_isRunning (config : Config) (batch : List Packet) (s : AppState) :
    (sendBatchData config batch s).isRunning = s.isRunning := by
  rcases sendBatchData_cases config batch s with ⟨e, _⟩ | ⟨e, _, _⟩ <;> rw [e]

theorem sendBatchData_dataBuffer (config : Config) (batch : List Packet) (s : AppState) :
    (sendBatchData config batch s).dataBuffer = s.dataBuffer := by
  rcases sendBatchData_cases config batch s with ⟨e, _⟩ | ⟨e, _, _⟩ <;> rw [e]

theorem sendBatchData_transportLog (config : Config) (batch : List Packet) (s : AppState) :
    (sendBatchData config batch s).transportLog = s.transportLog ∨
    ((sendBatchData config batch s).transportLog = s.transportLog ++ [batch] ∧
      1 ≤ batch.length) := by
  rcases sendBatchData_cases config batch s with ⟨e, _⟩ | ⟨e, _, h⟩
  · left; rw [e]
  · right; rw [e]; exact ⟨rfl, h⟩

theorem sendBatchDataSettled_frame (i : Nat) (ok : Bool) (s : AppState) :
    (sendBatchDataSettled i ok s).isRunning = s.isRunning ∧
    (sendBatchDataSettled i ok s).dataBuffer = s.dataBuffer ∧
    (sendBatchDataSettled i ok s).transportLog = s.transportLog ∧
    (sendBatchDataSettled i ok s).enqueuedLog = s.enqueuedLog := by
  unfold sendBatchDataSettled
  split
  · exact ⟨rfl, rfl, rfl, rfl⟩
  · cases ok <;> exact ⟨rfl, rfl, rfl, rfl⟩

theorem ReachableCalm.reachable (config : Config) (s₀ s : AppState)
    (hr : ReachableCalm config s₀ s) : Reachable config s₀ s := by
  induction hr with
  | start => exact Reachable.start
  | step s t _ hst _ ih => exact Reachable.step s t ih hst

theorem CalmInv_step (config : Config) (s t : AppState)
    (hi : CalmInv config s) (hs : Step config s t)
    (hc : s.isRunning = true → t.isRunning = false →
      s.dataBuffer.length < config.batchSize) : CalmInv config t := by
  obtain ⟨h1, h2⟩ := hi
  cases hs with
  | tick w c hr =>
    obtain ⟨e1, _, _, _, e5, _, _, _, _⟩ := generateData_frame config s w c
    refine ⟨fun _ => ?_, fun h => ?_⟩
    · rw [e5]; exact h1 hr
    · rw [e1, hr] at h; cases h
  | dispatch =>
    unfold dispatchEffect
    split
    · rename_i hg
      obtain ⟨hrun, _, hlen⟩ := hg
      refine ⟨fun _ => ?_, fun h => ?_⟩
      · rcases sendBatchData_transportLog config (s.dataBuffer.take config.batchSize)
          { s with dataBuffer := s.dataBuffer.drop config.batchSize,
                   bufferCount := (s.dataBuffer.drop config.batchSize).length,
                   slicedLog := s.slicedLog ++ [s.dataBuffer.take config.batchSize] } with
          e | ⟨e, _⟩
        · rw [e]; exact h1 hrun
        · rw [e]
          intro b hb
          simp only [List.mem_append, List.mem_singleton] at hb
          rcases hb with hb | hb
          · exact h1 hrun b hb
          · rw [hb, List.length_take]; omega
      · rw [sendBatchData_isRunning] at h
        simp only at h
        rw [hrun] at h; cases h
    · exact ⟨h1, h2⟩
  | flush =>
    unfold flushEffect
    split
    · rename_i hg
      obtain ⟨hrun, _, hlen⟩ := hg
      have hrun' : s.isRunning = false := by simpa using hrun
      refine ⟨fun h => ?_, fun _ => ?_⟩
      · rw [sendBatchData_isRunning] at h
        simp only at h
        rw [hrun'] at h; cases h
      · rcases h2 hrun' with ⟨hlt, hall⟩ | ⟨hnil, _⟩
        · rcases sendBatchData_transportLog config s.dataBuffer
            { s with dataBuffer := [], bufferCount := 0,
                     slicedLog := s.slicedLog ++ [s.dataBuffer] } with e | ⟨e, hb⟩
          · left
            rw [e, sendBatchData_dataBuffer]
            exact ⟨by simp only [List.length_nil]; omega, hall⟩
          · right
            rw [e, sendBatchData_dataBuffer]
            exact ⟨rfl, s.transportLog, s.dataBuffer, rfl, hall, hb, hlt⟩
        · rw [hnil] at hlen; simp at hlen
    · exact ⟨h1, h2⟩
  | settle i ok hi =>
    obtain ⟨e1, e2, e3, _⟩ := sendBatchDataSettled_frame i ok s
    rw [CalmInv, e1, e2, e3]
    exact ⟨h1, h2⟩
  | stop =>
    refine ⟨fun h => by simp [stopSimulation] at h, fun _ => ?_⟩
    cases hrun : s.isRunning with
    | true => exact Or.inl ⟨hc hrun rfl, h1 hrun⟩
    | false => exact h2 hrun

theorem CalmInv_reachable (config : Config) (s₀ s : AppState)
    (h0 : RunStart s₀) (hr : ReachableCalm config s₀ s) : CalmInv config s := by
  induction hr with
  | start =>
    obtain ⟨hrun, _, _, ht, _, _⟩ := h0
    exact ⟨fun _ => by simp [ht], fun h => by rw [hrun] at h; cases h⟩
  | step s t _ hst hc ih => exact CalmInv_step config s t ih hst hc

theorem full_batches (B : Nat) (L : List (List Packet)) (h : ∀ b ∈ L, b.length = B) :
    L.map List.length = List.replicate L.length B ∧ L.flatten.length = B * L.length := by
  induction L with
  | nil => simp
  | cons b L ih =>
    obtain ⟨ih1, ih2⟩ := ih (fun c hc => h c (List.mem_cons_of_mem _ hc))
    have hb : b.length = B := h b (List.mem_cons_self _ _)
    refine ⟨?_, ?_⟩
    · simp [ih1, hb, List.replicate_succ]
    · simp [ih2, hb, Nat.mul_succ, Nat.add_comm]

theorem Quiescent.buffer_empty (config : Config) (s : AppState)
    (hstop : s.isRunning = false) (hq : Quiescent config s) : s.dataBuffer = [] := by
  obtain ⟨_, hsend, _, hf⟩ := hq
  rw [hstop, hsend] at hf
  simp at hf
  exact hf

/-- What a step passes to `fetch`: nothing, or one non-empty batch, issued
while no request was in flight; while running the batch is the first
`batchSize` packets of the buffer, once stopped it is the whole buffer. -/
theorem step_transport (config : Config) (s t : AppState) (hs : Step config s t) :
    t.transportLog = s.transportLog ∨
    ∃ b, t.transportLog = s.transportLog ++ [b] ∧ 1 ≤ b.length ∧
      s.isSending = false ∧ t.isSending = true ∧ t.inFlight = s.inFlight ++ [b] ∧
      ((s.isRunning = true ∧ b = s.dataBuffer.take config.batchSize ∧
          b.length = config.batchSize) ∨
       (s.isRunning = false ∧ b = s.dataBuffer)) := by
  cases hs with
  | tick w c hr =>
    obtain ⟨_, _, _, _, e5, _⟩ := generateData_frame config s w c
    exact Or.inl e5
  | dispatch =>
    unfold dispatchEffect
    split
    · rename_i hg
      obtain ⟨hrun, hsend, hlen⟩ := hg
      rcases sendBatchData_cases config (s.dataBuffer.take config.batchSize)
        { s with dataBuffer := s.dataBuffer.drop config.batchSize,
                 bufferCount := (s.dataBuffer.drop config.batchSize).length,
                 slicedLog := s.slicedLog ++ [s.dataBuffer.take config.batchSize] } with
        ⟨e, _⟩ | ⟨e, _, hb⟩
      · left; rw [e]
      · right
        rw [e]
        refine ⟨_, rfl, hb, by simpa using hsend, rfl, rfl, Or.inl ⟨hrun, rfl, ?_⟩⟩
        rw [List.length_take]; omega
    · exact Or.inl rfl
  | flush =>
    unfold flushEffect
    split
    · rename_i hg
      obtain ⟨hrun, hsend, hlen⟩ := hg
      rcases sendBatchData_cases config s.dataBuffer
        { s with dataBuffer := [], bufferCount := 0,
                 slicedLog := s.slicedLog ++ [s.dataBuffer] } with
        ⟨e, _⟩ | ⟨e, _, hb⟩
      · left; rw [e]
      · right
        rw [e]
        exact ⟨_, rfl, hb, by simpa using hsend, rfl, rfl,
          Or.inr ⟨by simpa using hrun, rfl⟩⟩
    · exact Or.inl rfl
  | settle i ok hi => exact Or.inl (sendBatchDataSettled_frame i ok s).2.2.1
  | stop => exact Or.inl rfl

/-- How a step changes the buffer: it appends packets, or removes a prefix. -/
theorem step_dataBuffer (config : Config) (s t : AppState) (hs : Step config s t) :
    ∃ n p, t.dataBuffer = s.dataBuffer.drop n ++ p := by
  cases hs with
  | tick w c hr =>
    obtain ⟨_, _, _, _, _, _, p, e, _⟩ := generateData_frame config s w c
    exact ⟨0, p, by rw [e]; rfl⟩
  | dispatch =>
    unfold dispatchEffect
    split
    · rw [sendBatchData_dataBuffer]
      exact ⟨config.batchSize, [], by simp⟩
    · exact ⟨0, [], by simp⟩
  | flush =>
    unfold flushEffect
    split
    · rw [sendBatchData_dataBuffer]
      exact ⟨s.dataBuffer.length, [], by simp⟩
    · exact ⟨0, [], by simp⟩
  | settle i ok hi =>
    exact ⟨0, [], by rw [(sendBatchDataSettled_frame i ok s).2.1]; simp⟩
  | stop => exact ⟨0, [], by simp [stopSimulation]⟩

/-! ## The concrete run -/

theorem demoStart_runStart : RunStart demoStart :=
  ⟨rfl, rfl, rfl, rfl, rfl, rfl⟩

theorem demoSending_reachable : Reachable demoConfig demoStart demoSending :=
  Reachable.step _ _ (Reachable.step _ _ Reachable.start (Step.tick _ demoWorld {} rfl))
    (Step.dispatch _)

theorem demoFinished_calm : ReachableCalm demoConfig demoStart demoFinished :=
  ReachableCalm.step _ _
    (ReachableCalm.step _ _
      (ReachableCalm.step _ _
        (ReachableCalm.step _ _
          (ReachableCalm.step _ _
            (ReachableCalm.step _ _
              (ReachableCalm.step _ _
                (ReachableCalm.step _ _ ReachableCalm.start
                  (Step.tick _ demoWorld {} rfl) (by decide!))
                (Step.dispatch _) (by decide!))
              (Step.settle _ 0 true (by decide!)) (by decide!))
            (Step.dispatch _) (by decide!))
          (Step.settle _ 0 true (by decide!)) (by decide!))
        (Step.stop _ (by decide!) (by decide!)) (by decide!))
      (Step.flush _) (by decide!))
    (Step.settle _ 0 true (by decide!)) (by decide!)

theorem demoFinished_quiescent : Quiescent demoConfig demoFinished := by
  unfold Quiescent; decide!

/-! ## Claims on the buffer and dispatcher -/

/-- C1: in a run with a non-empty endpoint URL (for any batch size), once
`stopSimulation` has been called and the dispatcher is quiescent (no request
in flight, neither dispatch effect enabled), the packets passed to `fetch`
are, as a multiset, exactly the packets pushed on the buffer since the start:
each one is sent once. -/
theorem sent_equals_enqueued_when_quiescent (config : Config) (s₀ s : AppState)
    (hurl : config.endpointUrl ≠ "") (h0 : RunStart s₀)
    (hr : Reachable config s₀ s) (hstop : s.isRunning = false)
    (hq : Quiescent config s) :
    (↑s.transportLog.flatten : Multiset Packet) = ↑s.enqueuedLog := by
  obtain ⟨h1, h2, _, _⟩ := DispatchInv_reachable config s₀ s h0 hr
  have hb := Quiescent.buffer_empty config s hstop hq
  rw [hb, List.append_nil] at h1
  rw [h2 hurl, h1]

theorem sent_equals_enqueued_when_quiescent_witness :
    demoFinished.enqueuedLog.length = 7 ∧
    (↑demoFinished.transportLog.flatten : Multiset Packet) =
      ↑demoFinished.enqueuedLog :=
  ⟨by decide!,
   sent_equals_enqueued_when_quiescent demoConfig demoStart demoFinished
     (by decide) demoStart_runStart (ReachableCalm.reachable _ _ _ demoFinished_calm)
     (by decide!) demoFinished_quiescent⟩

/-- C2: in every reachable state of a run at most one request is in flight,
and one is in flight exactly while `isSending` is set; a step passes a batch
to `fetch` only from a state where `isSending` is false and nothing is in
flight, and it sets `isSending`. -/
theorem single_flight (config : Config) (s₀ s : AppState)
    (h0 : RunStart s₀) (hr : Reachable config s₀ s) :
    s.inFlight.length ≤ 1 ∧
    (s.inFlight.length = 1 ↔ s.isSending = true) ∧
    ∀ t, Step config s t → t.transportLog ≠ s.transportLog →
      s.isSending = false ∧ s.inFlight.length = 0 ∧
      t.isSending = true ∧ t.inFlight.length = 1 := by
  obtain ⟨_, _, h3, _⟩ := DispatchInv_reachable config s₀ s h0 hr
  refine ⟨?_, ?_, ?_⟩
  · rw [h3]; split <;> omega
  · rw [h3]
    cases s.isSending <;> simp
  · intro t hst hne
    rcases step_transport config s t hst with e | ⟨b, _, _, hs, ht, hf, _⟩
    · exact absurd e hne
    · have h0' : s.inFlight.length = 0 := by rw [h3, hs]; rfl
      refine ⟨hs, h0', ht, ?_⟩
      rw [hf, List.length_append, h0']
      rfl

theorem single_flight_witness :
    demoSending.isSending = true ∧ demoSending.inFlight.length = 1 ∧
    (demoSending.inFlight.length ≤ 1 ∧
      (demoSending.inFlight.length = 1 ↔ demoSending.isSending = true) ∧
      ∀ t, Step demoConfig demoSending t → t.transportLog ≠ demoSending.transportLog →
        demoSending.isSending = false ∧ demoSending.inFlight.length = 0 ∧
        t.isSending = true ∧ t.inFlight.length = 1) :=
  ⟨by decide!, by decide!,
   single_flight demoConfig demoStart demoSending demoStart_runStart demoSending_reachable⟩

/-- C3: for every `batchSize`, in a run in which the effects of a render have run
before a click on Stop is handled, every batch passed to `fetch` has at least
one packet and at most `batchSize`: a batch cut while running is the first
`batchSize` packets of the buffer, and the batch flushed once stopped is the
whole buffer, which then holds fewer than `batchSize` packets. -/
theorem batches_within_batchSize (config : Config) (s₀ s : AppState)
    (h0 : RunStart s₀) (hr : ReachableCalm config s₀ s) :
    (∀ b ∈ s.transportLog, 1 ≤ b.length ∧ b.length ≤ config.batchSize) ∧
    ∀ t, Step config s t →
      (s.isRunning = true → t.isRunning = false → s.dataBuffer.length < config.batchSize) →
      t.transportLog = s.transportLog ∨
      ∃ b, t.transportLog = s.transportLog ++ [b] ∧ 1 ≤ b.length ∧
        b.length ≤ config.batchSize ∧
        ((s.isRunning = true ∧ b = s.dataBuffer.take config.batchSize ∧
            b.length = config.batchSize) ∨
         (s.isRunning = false ∧ b = s.dataBuffer)) := by
  have hall : ∀ (u : AppState), ReachableCalm config s₀ u →
      ∀ b ∈ u.transportLog, 1 ≤ b.length ∧ b.length ≤ config.batchSize := by
    intro u hu b hb
    obtain ⟨_, _, _, h4⟩ :=
      DispatchInv_reachable config s₀ u h0 (ReachableCalm.reachable config s₀ u hu)
    refine ⟨h4 b hb, ?_⟩
    obtain ⟨c1, c2⟩ := CalmInv_reachable config s₀ u h0 hu
    cases hrun : u.isRunning with
    | true => exact le_of_eq (c1 hrun b hb)
    | false =>
      rcases c2 hrun with ⟨_, hfull⟩ | ⟨_, full, last, e, hfull, _, hl⟩
      · exact le_of_eq (hfull b hb)
      · rw [e] at hb
        rcases List.mem_append.mp hb with hb | hb
        · exact le_of_eq (hfull b hb)
        · rw [List.mem_singleton.mp hb]
          exact le_of_lt hl
  refine ⟨hall s hr, fun t ht hc => ?_⟩
  rcases step_transport config s t ht with e | ⟨b, e, hb, _, _, _, h⟩
  · exact Or.inl e
  · refine Or.inr ⟨b, e, hb, ?_, h⟩
    have hmem : b ∈ t.transportLog := by rw [e]; simp
    exact (hall t (ReachableCalm.step s t hr ht hc) b hmem).2

theorem batches_within_batchSize_witness :
    demoConfig.batchSize = 3 ∧ demoFinished.transportLog.map List.length = [3, 3, 1] ∧
    ((∀ b ∈ demoFinished.transportLog, 1 ≤ b.length ∧ b.length ≤ demoConfig.batchSize) ∧
    ∀ t, Step demoConfig demoFinished t →
      (demoFinished.isRunning = true → t.isRunning = false →
        demoFinished.dataBuffer.length < demoConfig.batchSize) →
      t.transportLog = demoFinished.transportLog ∨
      ∃ b, t.transportLog = demoFinished.transportLog ++ [b] ∧ 1 ≤ b.length ∧
        b.length ≤ demoConfig.batchSize ∧
        ((demoFinished.isRunning = true ∧
            b = demoFinished.dataBuffer.take demoConfig.batchSize ∧
            b.length = demoConfig.batchSize) ∨
         (demoFinished.isRunning = false ∧ b = demoFinished.dataBuffer))) :=
  ⟨rfl, by decide!,
   batches_within_batchSize demoConfig demoStart demoFinished
     demoStart_runStart demoFinished_calm⟩

/-- C4: for `batchSize = B ≥ 1` and a non-empty endpoint URL, in a run that
begins with an empty buffer and in which the effects of a render have run
before a click on Stop is handled, once the run is stopped and quiescent the
`N` packets enqueued were passed to `fetch` in their original order, in
`⌈N / B⌉` calls of sizes `B, ..., B` followed by `N mod B` when that is not
zero. -/
theorem calm_run_batches (config : Config) (s₀ s : AppState)
    (hB : 1 ≤ config.batchSize) (hurl : config.endpointUrl ≠ "") (h0 : RunStart s₀)
    (hr : ReachableCalm config s₀ s) (hstop : s.isRunning = false)
    (hq : Quiescent config s) :
    s.transportLog.flatten = s.enqueuedLog ∧
    s.transportLog.map List.length =
      List.replicate (s.enqueuedLog.length / config.batchSize) config.batchSize ++
        (if s.enqueuedLog.length % config.batchSize = 0 then []
         else [s.enqueuedLog.length % config.batchSize]) ∧
    s.transportLog.length =
      (s.enqueuedLog.length + config.batchSize - 1) / config.batchSize := by
  obtain ⟨h1, h2, _, _⟩ :=
    DispatchInv_reachable config s₀ s h0 (ReachableCalm.reachable config s₀ s hr)
  have hb := Quiescent.buffer_empty config s hstop hq
  rw [hb, List.append_nil] at h1
  have hflat : s.transportLog.flatten = s.enqueuedLog := by rw [h2 hurl, h1]
  refine ⟨hflat, ?_⟩
  have hN : s.enqueuedLog.length = s.transportLog.flatten.length := by rw [hflat]
  obtain ⟨_, hc⟩ := CalmInv_reachable config s₀ s h0 hr
  generalize config.batchSize = B at *
  rcases hc hstop with ⟨_, hall⟩ | ⟨_, full, last, e, hall, hl1, hl2⟩
  · obtain ⟨f1, f2⟩ := full_batches B s.transportLog hall
    rw [hN, f2, f1]
    have hd : B * s.transportLog.length / B = s.transportLog.length :=
      Nat.mul_div_cancel_left _ (by omega)
    have hm : B * s.transportLog.length % B = 0 := Nat.mul_mod_right _ _
    refine ⟨by rw [hd, hm]; simp, ?_⟩
    have : B * s.transportLog.length + B - 1 = B * s.transportLog.length + (B - 1) := by
      omega
    rw [this, Nat.mul_add_div (by omega), Nat.div_eq_of_lt (by omega)]
    rfl
  · obtain ⟨f1, f2⟩ := full_batches B full hall
    have hlen : s.transportLog.flatten.length = B * full.length + last.length := by
      rw [e]; simp [f2]
    rw [hN, hlen, e]
    have hd : (B * full.length + last.length) / B = full.length := by
      rw [Nat.mul_add_div (by omega), Nat.div_eq_of_lt hl2]; rfl
    have hm : (B * full.length + last.length) % B = last.length := by
      rw [Nat.mul_add_mod, Nat.mod_eq_of_lt hl2]
    refine ⟨?_, ?_⟩
    · rw [hd, hm, if_neg (by omega)]
      simp [f1]
    · have : B * full.length + last.length + B - 1 =
          B * (full.length + 1) + (last.length - 1) := by
        rw [Nat.mul_succ]; omega
      rw [this, Nat.mul_add_div (by omega), Nat.div_eq_of_lt (by omega)]
      simp

theorem calm_run_batches_witness :
    demoConfig.batchSize = 3 ∧ demoFinished.enqueuedLog.length = 7 ∧
    demoFinished.transportLog.map List.length = [3, 3, 1] ∧
    (demoFinished.transportLog.flatten = demoFinished.enqueuedLog ∧
     demoFinished.transportLog.map List.length =
      List.replicate (demoFinished.enqueuedLog.length / demoConfig.batchSize)
          demoConfig.batchSize ++
        (if demoFinished.enqueuedLog.length % demoConfig.batchSize = 0 then []
         else [demoFinished.enqueuedLog.length % demoConfig.batchSize]) ∧
     demoFinished.transportLog.length =
      (demoFinished.enqueuedLog.length + demoConfig.batchSize - 1) / demoConfig.batchSize) :=
  ⟨rfl, by decide!, by decide!,
   calm_run_batches demoConfig demoStart demoFinished (by decide) (by decide)
     demoStart_runStart demoFinished_calm (by decide!) demoFinished_quiescent⟩

/-- C5: at every reachable state of a run, the batches cut off the buffer so
far, concatenated in the order they were cut, followed by the buffer, are the
packets enqueued since the start, in enqueue order; with a non-empty endpoint
URL the same holds of the batches passed to `fetch`; and a step changes the
buffer only by removing a prefix or by appending. -/
theorem fifo_invariant (config : Config) (s₀ s : AppState)
    (h0 : RunStart s₀) (hr : Reachable config s₀ s) :
    s.slicedLog.flatten ++ s.dataBuffer = s.enqueuedLog ∧
    (config.endpointUrl ≠ "" → s.transportLog.flatten ++ s.dataBuffer = s.enqueuedLog) ∧
    ∀ t, Step config s t → ∃ n p, t.dataBuffer = s.dataBuffer.drop n ++ p := by
  obtain ⟨h1, h2, _, _⟩ := DispatchInv_reachable config s₀ s h0 hr
  exact ⟨h1, fun hu => by rw [h2 hu, h1], fun t ht => step_dataBuffer config s t ht⟩

theorem fifo_invariant_witness :
    demoSending.slicedLog.map List.length = [3] ∧ demoSending.dataBuffer.length = 4 ∧
    (demoSending.slicedLog.flatten ++ demoSending.dataBuffer = demoSending.enqueuedLog ∧
     (demoConfig.endpointUrl ≠ "" →
        demoSending.transportLog.flatten ++ demoSending.dataBuffer = demoSending.enqueuedLog) ∧
     ∀ t, Step demoConfig demoSending t →
        ∃ n p, t.dataBuffer = demoSending.dataBuffer.drop n ++ p) :=
  ⟨by decide!, by decide!,
   fifo_invariant demoConfig demoStart demoSending demoStart_runStart demoSending_reachable⟩

/-- C6: when `stopSimulation` is called with an empty buffer and no request in
flight, only `isRunning` changes (the buffer, the statistics, `isSending` and
the batches passed to `fetch` are as before), and in the resulting state every
step, a further `stopSimulation` and both dispatch effects included, changes
nothing: no request is issued. -/
theorem stop_with_empty_buffer_is_noop (config : Config) (s : AppState)
    (hb : s.dataBuffer = []) (hf : s.inFlight = []) :
    stopSimulation s = { s with isRunning := false } ∧
    (stopSimulation s).dataBuffer = s.dataBuffer ∧
    (stopSimulation s).stats = s.stats ∧
    (stopSimulation s).isSending = s.isSending ∧
    (stopSimulation s).transportLog = s.transportLog ∧
    flushEffect config (stopSimulation s) = stopSimulation s ∧
    dispatchEffect config (stopSimulation s) = stopSimulation s ∧
    stopSimulation (stopSimulation s) = stopSimulation s ∧
    ∀ t, Step config (stopSimulation s) t → t = stopSimulation s := by
  have e1 : flushEffect config (stopSimulation s) = stopSimulation s := by
    simp [flushEffect, stopSimulation, hb]
  have e2 : dispatchEffect config (stopSimulation s) = stopSimulation s := by
    simp [dispatchEffect, stopSimulation]
  refine ⟨rfl, rfl, rfl, rfl, rfl, e1, e2, rfl, ?_⟩
  intro t ht
  generalize hu : stopSimulation s = u at ht
  cases ht with
  | tick w c hr => subst hu; simp [stopSimulation] at hr
  | dispatch => subst hu; exact e2
  | flush => subst hu; exact e1
  | settle i ok hi => subst hu; simp [stopSimulation, hf] at hi
  | stop => subst hu; rfl

theorem stop_with_empty_buffer_is_noop_witness :
    demoStart.isRunning = true ∧
    (stopSimulation demoStart = { demoStart with isRunning := false } ∧
     (stopSimulation demoStart).dataBuffer = demoStart.dataBuffer ∧
     (stopSimulation demoStart).stats = demoStart.stats ∧
     (stopSimulation demoStart).isSending = demoStart.isSending ∧
     (stopSimulation demoStart).transportLog = demoStart.transportLog ∧
     flushEffect demoConfig (stopSimulation demoStart) = stopSimulation demoStart ∧
     dispatchEffect demoConfig (stopSimulation demoStart) = stopSimulation demoStart ∧
     stopSimulation (stopSimulation demoStart) = stopSimulation demoStart ∧
     ∀ t, Step demoConfig (stopSimulation demoStart) t → t = stopSimulation demoStart) :=
  ⟨rfl, stop_with_empty_buffer_is_noop demoConfig demoStart rfl rfl⟩

/-! ## Objects: reading after writing -/

theorem Packet.get_cons (k k' : String) (v : JSValue) (p : Packet) :
    Packet.get ((k', v) :: p) k = if k = k' then v else Packet.get p k := by
  unfold Packet.get
  rw [List.lookup_cons]
  by_cases h : k = k'
  · simp [h]
  · have : (k == k') = false := by simpa using h
    simp [h, this]

theorem Packet.get_set_self (p : Packet) (k : String) (v : JSValue) :
    (p.set k v).get k = v := by
  induction p with
  | nil => simp [Packet.set, Packet.get_cons]
  | cons kv rest ih =>
    obtain ⟨k', v'⟩ := kv
    unfold Packet.set
    split
    · simp [Packet.get_cons]
    · rename_i h
      rw [Packet.get_cons, if_neg (fun e => h e.symm)]
      exact ih

theorem Packet.get_set_ne (p : Packet) (k k' : String) (v : JSValue) (h : k' ≠ k) :
    (p.set k v).get k' = p.get k' := by
  induction p with
  | nil =>
    unfold Packet.set
    rw [Packet.get_cons, if_neg h]
  | cons kv rest ih =>
    obtain ⟨k₁, v₁⟩ := kv
    unfold Packet.set
    split
    · rename_i e
      subst e
      rw [Packet.get_cons, Packet.get_cons, if_neg h, if_neg h]
    · rw [Packet.get_cons, Packet.get_cons, ih]

theorem Packet.mem_keys_set (p : Packet) (k k' : String) (v : JSValue) :
    k' ∈ (p.set k v).keys ↔ k' ∈ p.keys ∨ k' = k := by
  induction p with
  | nil => simp [Packet.set, Packet.keys]
  | cons kv rest ih =>
    obtain ⟨k₁, v₁⟩ := kv
    unfold Packet.set
    split
    · rename_i e
      subst e
      simp only [Packet.keys, List.map_cons, List.mem_cons]
      tauto
    · simp only [Packet.keys, List.map_cons, List.mem_cons] at ih ⊢
      rw [ih]
      tauto

theorem Packet.mem_keys_merge (a b : Packet) (k : String) :
    k ∈ (Packet.merge a b).keys ↔ k ∈ a.keys ∨ k ∈ b.keys := by
  unfold Packet.merge
  induction b generalizing a with
  | nil => simp [Packet.keys]
  | cons kv rest ih =>
    rw [List.foldl_cons, ih, Packet.mem_keys_set]
    simp only [Packet.keys, List.map_cons, List.mem_cons]
    tauto

theorem Packet.get_undefined_of_not_mem (p : Packet) (k : String) (h : k ∉ p.keys) :
    p.get k = JSValue.undefined := by
  induction p with
  | nil => rfl
  | cons kv rest ih =>
    obtain ⟨k₁, v₁⟩ := kv
    simp only [Packet.keys, List.map_cons, List.mem_cons, not_or] at h
    rw [Packet.get_cons, if_neg h.1]
    exact ih h.2

/-! ## Rounding -/

theorem toFixed_bounds (x : ℚ) (d : Nat) (lo hi : ℤ) (h0 : 0 ≤ x)
    (hlo : (lo : ℚ) ≤ x * 10 ^ d) (hhi : x * 10 ^ d ≤ (hi : ℚ)) :
    (lo : ℚ) / 10 ^ d ≤ toFixed x d ∧ toFixed x d ≤ (hi : ℚ) / 10 ^ d := by
  have hp : (0 : ℚ) < 10 ^ d := by positivity
  unfold toFixed
  rw [if_pos h0]
  constructor
  · apply div_le_div_of_nonneg_right _ hp.le
    have : lo ≤ ⌊x * 10 ^ d + 1 / 2⌋ := Int.le_floor.mpr (by linarith)
    exact_mod_cast this
  · apply div_le_div_of_nonneg_right _ hp.le
    have : ⌊x * 10 ^ d + 1 / 2⌋ < hi + 1 := Int.floor_lt.mpr (by push_cast; linarith)
    have : ⌊x * 10 ^ d + 1 / 2⌋ ≤ hi := by omega
    exact_mod_cast this

theorem getRandomFloat_some (a b : ℚ) (d : Nat) (w : World) (c : Cursor) :
    (getRandomFloat (some a) (some b) d w c).1 =
      some (toFixed (w.random c.draws * (b - a) + a) d) := rfl

theorem getRandomElement_fst {α : Type} (arr : List α) (w : World) (c : Cursor) :
    (getRandomElement arr w c).1 = index arr ⌊w.random c.draws * (arr.length : ℚ)⌋ := rfl

theorem index_mem {α : Type} (arr : List α) (u : ℚ) (h0 : 0 ≤ u) (h1 : u < 1)
    (hne : arr ≠ []) : ∃ a ∈ arr, index arr ⌊u * (arr.length : ℚ)⌋ = some a := by
  have hlen : (0 : ℚ) < arr.length := by
    have : 0 < arr.length := List.length_pos.mpr hne
    exact_mod_cast this
  have hf0 : 0 ≤ ⌊u * (arr.length : ℚ)⌋ := Int.floor_nonneg.mpr (by positivity)
  have hf1 : ⌊u * (arr.length : ℚ)⌋ < arr.length := by
    apply Int.floor_lt.mpr
    push_cast
    nlinarith
  have hlt : ⌊u * (arr.length : ℚ)⌋.toNat < arr.length := by omega
  refine ⟨arr[⌊u * (arr.length : ℚ)⌋.toNat], List.getElem_mem _, ?_⟩
  unfold index
  rw [if_pos hf0]
  exact List.getElem?_eq_getElem hlt

/-! ## Fault injection -/

theorem applyFault_get_ne (p : Packet) (faultType : Option String) (field k : String)
    (w : World) (c : Cursor) (h : k ≠ field) :
    (applyFault p faultType field w c).1.get k = p.get k := by
  unfold applyFault
  split_ifs <;> simp only [bind, pure] <;> first | rfl | exact Packet.get_set_ne _ _ _ _ h

theorem applyFault_mem_keys (p : Packet) (faultType : Option String) (field k : String)
    (w : World) (c : Cursor) (h : k ∈ p.keys) :
    k ∈ (applyFault p faultType field w c).1.keys := by
  unfold applyFault
  split_ifs <;> simp only [bind, pure] <;>
    first | exact h | exact (Packet.mem_keys_set _ _ _ _).mpr (Or.inl h)

theorem introduceFaults_of_no_numeric (data : Packet) (sensorType : String) (w : World)
    (c : Cursor) (hn : numericFields data = []) :
    (introduceFaults data sensorType w c).1 = data := by
  simp only [introduceFaults, bind, pure, hn, List.length_nil, if_true]

theorem introduceFaults_shape (data : Packet) (sensorType : String) (w : World)
    (c : Cursor) (hn : numericFields data ≠ []) :
    ∃ (c' : Cursor) (n : Nat) (ts : String),
      (introduceFaults data sensorType w c).1 =
        (((applyFault data (getRandomElement faultKinds w c).1
            (propertyKey (getRandomElement (numericFields data) w
              (getRandomElement faultKinds w c).2).1) w c').1.set "confidence_score"
            (.num (toFixed (w.random n * (4 / 10 - 1 / 10) + 1 / 10) 2))).set "fault_type"
            (.ofStr (getRandomElement faultKinds w c).1)).set "fault_timestamp"
            (.str ts) := by
  have hl : ¬ (numericFields data).length = 0 := fun h => hn (List.length_eq_zero.mp h)
  simp only [introduceFaults, bind, pure, hl, if_false]
  exact ⟨_, _, _, rfl⟩

theorem confidence_bounds (u : ℚ) (h0 : 0 ≤ u) (h1 : u < 1) :
    1 / 10 ≤ toFixed (u * (4 / 10 - 1 / 10) + 1 / 10) 2 ∧
    toFixed (u * (4 / 10 - 1 / 10) + 1 / 10) 2 ≤ 4 / 10 := by
  have h := toFixed_bounds (u * (4 / 10 - 1 / 10) + 1 / 10) 2 10 40 (by linarith)
    (by push_cast; linarith) (by push_cast; linarith)
  norm_num at h ⊢
  exact h

theorem demoWorld_unitDraws : demoWorld.UnitDraws :=
  fun _ => ⟨le_refl _, zero_lt_one⟩

theorem worldWithDraws_unitDraws (draws : List ℚ) (h : ∀ q ∈ draws, 0 ≤ q ∧ q < 1) :
    (worldWithDraws draws).UnitDraws := by
  intro n
  show 0 ≤ draws.getD n 0 ∧ draws.getD n 0 < 1
  rw [List.getD_eq_getElem?_getD]
  cases hq : draws[n]? with
  | none => exact ⟨le_refl _, zero_lt_one⟩
  | some q => exact h q (List.getElem?_mem hq)

/-- The low confidence, the fault kind and the timestamp `introduceFaults`
writes on a packet with a numeric field, for draws in `[0, 1)`. -/
theorem introduceFaults_tags (data : Packet) (sensorType : String) (w : World)
    (c : Cursor) (hw : w.UnitDraws) (hn : numericFields data ≠ []) :
    (∃ q, (introduceFaults data sensorType w c).1.get "confidence_score" = .num q ∧
      1 / 10 ≤ q ∧ q ≤ 4 / 10) ∧
    (∃ k ∈ faultKinds, (introduceFaults data sensorType w c).1.get "fault_type" = .str k) ∧
    (∃ ts, (introduceFaults data sensorType w c).1.get "fault_timestamp" = .str ts) ∧
    "fault_timestamp" ∈ (introduceFaults data sensorType w c).1.keys := by
  obtain ⟨c', n, ts, e⟩ := introduceFaults_shape data sensorType w c hn
  rw [e]
  refine ⟨⟨_, ?_, confidence_bounds _ (hw n).1 (hw n).2⟩, ?_, ⟨ts, ?_⟩, ?_⟩
  · rw [Packet.get_set_ne _ _ _ _ (by decide), Packet.get_set_ne _ _ _ _ (by decide),
      Packet.get_set_self]
  · obtain ⟨k, hk, ek⟩ := index_mem faultKinds (w.random c.draws) (hw _).1 (hw _).2
      (by decide)
    refine ⟨k, hk, ?_⟩
    rw [Packet.get_set_ne _ _ _ _ (by decide), Packet.get_set_self]
    rw [getRandomElement_fst, ek]
    rfl
  · rw [Packet.get_set_self]
  · exact (Packet.mem_keys_set _ _ _ _).mpr (Or.inr rfl)

/-- The frame of `introduceFaults` on a packet with a numeric field, for draws
in `[0, 1)`: a numeric field `f` is selected, and every property other than
`f`, `confidence_score`, `fault_type` and `fault_timestamp` reads as before. -/
theorem introduceFaults_frame (data : Packet) (sensorType : String) (w : World)
    (c : Cursor) (hw : w.UnitDraws) (hn : numericFields data ≠ []) :
    ∃ f ∈ numericFields data, ∀ k, k ≠ f → k ≠ "confidence_score" →
      k ≠ "fault_type" → k ≠ "fault_timestamp" →
      (introduceFaults data sensorType w c).1.get k = data.get k := by
  obtain ⟨c', n, ts, e⟩ := introduceFaults_shape data sensorType w c hn
  obtain ⟨f, hf, ef⟩ := index_mem (numericFields data)
    (w.random (getRandomElement faultKinds w c).2.draws) (hw _).1 (hw _).2 hn
  have hkey : propertyKey (getRandomElement (numericFields data) w
      (getRandomElement faultKinds w c).2).1 = f := by
    rw [getRandomElement_fst, ef]
    rfl
  refine ⟨f, hf, fun k h1 h2 h3 h4 => ?_⟩
  rw [e, hkey, Packet.get_set_ne _ _ _ _ h4, Packet.get_set_ne _ _ _ _ h3,
    Packet.get_set_ne _ _ _ _ h2, applyFault_get_ne _ _ _ _ _ _ h1]

/-- C7, refuted as stated, on the VehicleSpeed packet with
`average_speed_kmh = 72.5`. With `zero_value` on `average_speed_kmh` the
result differs from the input in two numeric fields, `confidence_score` and
`average_speed_kmh`. With `stuck_value` the selected field keeps its value and
`confidence_score` is the only numeric field that differs: none differs
besides it. -/
theorem introduceFaults_not_exactly_one_field :
    numericFields demoSpeedPacket =
      ["lane_number", "confidence_score", "average_speed_kmh", "speed_limit_kmh",
       "measurement_interval_seconds"] ∧
    (introduceFaults demoSpeedPacket "Radar" zeroValueWorld {}).1.get "fault_type" =
      .str "zero_value" ∧
    differingNumericFields demoSpeedPacket
        (introduceFaults demoSpeedPacket "Radar" zeroValueWorld {}).1 =
      ["confidence_score", "average_speed_kmh"] ∧
    (introduceFaults demoSpeedPacket "Radar" stuckValueWorld {}).1.get "fault_type" =
      .str "stuck_value" ∧
    differingNumericFields demoSpeedPacket
        (introduceFaults demoSpeedPacket "Radar" stuckValueWorld {}).1 =
      ["confidence_score"] :=
  ⟨by decide!, (JSValue.same_iff _ _).mp (by decide!), by decide!,
   (JSValue.same_iff _ _).mp (by decide!), by decide!⟩

/-- C7, amended: for every packet with at least one numeric field and all
draws in `[0, 1)`, the fault decision `draw < faultChance` holds when
`faultChance = 1`, and the packet returned by `introduceFaults` has a
`confidence_score` in `[0.1, 0.4]`, below `0.5`, and differs from the input in
at most one property besides `confidence_score`, `fault_type` and
`fault_timestamp`: the selected numeric field. -/
theorem introduceFaults_changes_at_most_one_field (config : Config) (data : Packet)
    (sensorType : String) (w : World) (c : Cursor) (hfc : config.faultChance = 1)
    (hw : w.UnitDraws) (hn : numericFields data ≠ []) :
    (∀ n, decide (w.random n < config.faultChance) = true) ∧
    (∃ q, (introduceFaults data sensorType w c).1.get "confidence_score" = .num q ∧
      1 / 10 ≤ q ∧ q ≤ 4 / 10 ∧ q < 1 / 2) ∧
    ((introduceFaults data sensorType w c).1.get "confidence_score").ltConst (1 / 2) = true ∧
    ∃ f ∈ numericFields data, ∀ k, k ≠ f → k ≠ "confidence_score" →
      k ≠ "fault_type" → k ≠ "fault_timestamp" →
      (introduceFaults data sensorType w c).1.get k = data.get k := by
  obtain ⟨⟨q, hq, h1, h2⟩, _⟩ := introduceFaults_tags data sensorType w c hw hn
  refine ⟨fun n => ?_, ⟨q, hq, h1, h2, by linarith⟩, ?_,
    introduceFaults_frame data sensorType w c hw hn⟩
  · rw [hfc]; exact decide_eq_true (hw n).2
  · rw [hq]
    simp only [JSValue.ltConst, JSValue.toNumber]
    exact decide_eq_true (by linarith)

theorem introduceFaults_changes_at_most_one_field_witness :
    numericFields demoSpeedPacket ≠ [] ∧
    (introduceFaults demoSpeedPacket "Radar" zeroValueWorld {}).1.get "average_speed_kmh" =
      .num 0 ∧
    ((∀ n, decide (zeroValueWorld.random n < ({ faultChance := 1 } : Config).faultChance)
        = true) ∧
     (∃ q, (introduceFaults demoSpeedPacket "Radar" zeroValueWorld {}).1.get
          "confidence_score" = .num q ∧ 1 / 10 ≤ q ∧ q ≤ 4 / 10 ∧ q < 1 / 2) ∧
     ((introduceFaults demoSpeedPacket "Radar" zeroValueWorld {}).1.get
          "confidence_score").ltConst (1 / 2) = true ∧
     ∃ f ∈ numericFields demoSpeedPacket, ∀ k, k ≠ f → k ≠ "confidence_score" →
        k ≠ "fault_type" → k ≠ "fault_timestamp" →
        (introduceFaults demoSpeedPacket "Radar" zeroValueWorld {}).1.get k =
          demoSpeedPacket.get k) :=
  ⟨by decide!, (JSValue.same_iff _ _).mp (by decide!),
   introduceFaults_changes_at_most_one_field { faultChance := 1 } demoSpeedPacket "Radar"
     zeroValueWorld {} rfl
     (worldWithDraws_unitDraws _ (by norm_num)) (by decide!)⟩

/-- C9: for every packet with at least one top-level numeric field and all
draws in `[0, 1)`, `introduceFaults` returns a packet whose `confidence_score`
lies in `[0.1, 0.4]`, whose `fault_type` is one of the five fault kinds, and
which carries a `fault_timestamp`. -/
theorem introduceFaults_marks_packet (data : Packet) (sensorType : String) (w : World)
    (c : Cursor) (hw : w.UnitDraws) (hn : numericFields data ≠ []) :
    (∃ q, (introduceFaults data sensorType w c).1.get "confidence_score" = .num q ∧
      1 / 10 ≤ q ∧ q ≤ 4 / 10) ∧
    (∃ k ∈ ["extreme_value", "zero_value", "null_value", "negative_value", "stuck_value"],
      (introduceFaults data sensorType w c).1.get "fault_type" = .str k) ∧
    "fault_timestamp" ∈ (introduceFaults data sensorType w c).1.keys ∧
    (introduceFaults data sensorType w c).1.get "fault_timestamp" =
      .str (w.toISOString (w.clock c.reads)) := by
  obtain ⟨h1, h2, _, h4⟩ := introduceFaults_tags data sensorType w c hw hn
  refine ⟨h1, h2, h4, ?_⟩
  have hl : ¬ (numericFields data).length = 0 := fun h => hn (List.length_eq_zero.mp h)
  simp only [introduceFaults, bind, pure, hl, if_false]
  rw [Packet.get_set_self]
  unfold applyFault
  split_ifs <;> rfl

theorem introduceFaults_marks_packet_witness :
    (introduceFaults demoSpeedPacket "Radar" stuckValueWorld {}).1.get "confidence_score" =
      .num (1 / 4) ∧
    ((∃ q, (introduceFaults demoSpeedPacket "Radar" stuckValueWorld {}).1.get
          "confidence_score" = .num q ∧ 1 / 10 ≤ q ∧ q ≤ 4 / 10) ∧
     (∃ k ∈ ["extreme_value", "zero_value", "null_value", "negative_value", "stuck_value"],
        (introduceFaults demoSpeedPacket "Radar" stuckValueWorld {}).1.get "fault_type" =
          .str k) ∧
     "fault_timestamp" ∈ (introduceFaults demoSpeedPacket "Radar" stuckValueWorld {}).1.keys ∧
     (introduceFaults demoSpeedPacket "Radar" stuckValueWorld {}).1.get "fault_timestamp" =
        .str (stuckValueWorld.toISOString (stuckValueWorld.clock ({} : Cursor).reads))) :=
  ⟨(JSValue.same_iff _ _).mp (by decide!),
   introduceFaults_marks_packet demoSpeedPacket "Radar" stuckValueWorld {}
     (worldWithDraws_unitDraws _ (by norm_num)) (by decide!)⟩

/-- C10: for every packet without a top-level property of type number,
`introduceFaults` returns its input: no property is changed, `confidence_score`
is not rewritten, and neither `fault_type` nor `fault_timestamp` is added. -/
theorem introduceFaults_without_numeric_field (data : Packet) (sensorType : String)
    (w : World) (c : Cursor) (hn : numericFields data = []) :
    (introduceFaults data sensorType w c).1 = data ∧
    (∀ k, (introduceFaults data sensorType w c).1.get k = data.get k) ∧
    (introduceFaults data sensorType w c).1.keys = data.keys := by
  rw [introduceFaults_of_no_numeric data sensorType w c hn]
  exact ⟨rfl, fun _ => rfl, rfl⟩

theorem introduceFaults_without_numeric_field_witness :
    numericFields demoTextPacket = [] ∧
    "fault_type" ∉ (introduceFaults demoTextPacket "RoadSensor" demoWorld {}).1.keys ∧
    ((introduceFaults demoTextPacket "RoadSensor" demoWorld {}).1 = demoTextPacket ∧
     (∀ k, (introduceFaults demoTextPacket "RoadSensor" demoWorld {}).1.get k =
        demoTextPacket.get k) ∧
     (introduceFaults demoTextPacket "RoadSensor" demoWorld {}).1.keys =
        demoTextPacket.keys) :=
  ⟨by decide!, by decide!,
   introduceFaults_without_numeric_field demoTextPacket "RoadSensor" demoWorld {}
     (by decide!)⟩

/-! ## The packets of a tick -/

theorem index_some_mem {α : Type} (arr : List α) (i : Int) (a : α)
    (h : index arr i = some a) : a ∈ arr := by
  unfold index at h
  split at h
  · exact List.getElem?_mem h
  · cases h

theorem generateBaseMetadata_keys (sensor : Sensor) (w : World) (c : Cursor) :
    (generateBaseMetadata sensor w c).1.keys =
      ["timestamp", "sensor_id", "sensor_type", "location", "road_segment_id",
       "lane_number", "direction", "confidence_score"] := rfl

theorem Generator.run_keys (g : Generator) (config : GenerationConfig) (w : World)
    (c : Cursor) :
    "fault_type" ∉ (g.run config w c).1.data.keys ∧
    "fault_timestamp" ∉ (g.run config w c).1.data.keys := by
  cases g
  · have : (Generator.run .vehicleCount config w c).1.data.keys =
      ["vehicle_count", "vehicle_class_counts", "measurement_interval_seconds"] := rfl
    rw [this]; decide
  · have : (Generator.run .vehicleSpeed config w c).1.data.keys =
      ["average_speed_kmh", "vehicle_speeds", "speed_limit_kmh",
       "measurement_interval_seconds"] := rfl
    rw [this]; decide
  · have : (Generator.run .incident config w c).1.data.keys =
      ["incident_id", "incident_type", "severity", "vehicles_involved",
       "incident_start_time", "incident_end_time", "lane_affected", "verified",
       "detection_method"] := rfl
    rw [this]; decide
  · have : (Generator.run .airQuality config w c).1.data.keys =
      ["co_ppm", "no2_ppb", "pm2_5_ug_per_m3", "pm10_ug_per_m3", "aqi",
       "sensor_height_meters", "measurement_interval_seconds"] := rfl
    rw [this]; decide
  · have : (Generator.run .roadCondition config w c).1.data.keys =
      ["road_condition", "surface_temperature_celsius", "pothole_detected",
       "icing_risk_level", "friction_index"] := rfl
    rw [this]; decide
  · have : (Generator.run .pedestrian config w c).1.data.keys =
      ["pedestrian_count", "cyclist_count", "group_count",
       "measurement_interval_seconds"] := rfl
    rw [this]; decide
  · have : (Generator.run .vehicleClassification config w c).1.data.keys =
      ["vehicle_id", "vehicle_type", "axle_count", "vehicle_length_meters"] := rfl
    rw [this]; decide

theorem reportSensor_packets (config : Config) (acc : List Packet × List LogEntry)
    (sensor : Sensor) (w : World) (c : Cursor) :
    (reportSensor config acc sensor w c).1 = none ∨
    (reportSensor config acc sensor w c).1.map Prod.fst = some acc.1 ∨
    ∃ typeConfig, typeConfigOrRadar sensor.type = some typeConfig ∧
      ∃ g ∈ typeConfig.generators, ∃ c₁ c₂ c₃ : Cursor,
        (reportSensor config acc sensor w c).1.map Prod.fst = some (acc.1 ++
          [if w.random c₂.draws < config.faultChance then
            (introduceFaults
              (Packet.merge (generateBaseMetadata sensor w c₃).1
                (g.run (generationConfig config sensor) w c₁).1.data)
              sensor.type w (generateBaseMetadata sensor w c₃).2).1
           else
            Packet.merge (generateBaseMetadata sensor w c₃).1
              (g.run (generationConfig config sensor) w c₁).1.data]) := by
  unfold reportSensor
  simp only [bind, pure]
  split
  · exact Or.inr (Or.inl rfl)
  · cases htc : typeConfigOrRadar sensor.type with
    | none => exact Or.inl rfl
    | some typeConfig =>
      dsimp only
      generalize hg : (getRandomElement typeConfig.generators w (mathRandom w c).2).1 = selected
      cases selected with
      | none => exact Or.inr (Or.inl rfl)
      | some g =>
        right; right
        refine ⟨typeConfig, rfl, g, index_some_mem _ _ _ hg,
          (getRandomElement typeConfig.generators w (mathRandom w c).2).2,
          (g.run (generationConfig config sensor) w
            (getRandomElement typeConfig.generators w (mathRandom w c).2).2).2,
          (mathRandom w (g.run (generationConfig config sensor) w
            (getRandomElement typeConfig.generators w (mathRandom w c).2).2).2).2, ?_⟩
        dsimp only [Option.map]
        congr 3
        split
        · rename_i h
          exact (if_pos (of_decide_eq_true h)).symm
        · rename_i h
          exact (if_neg (fun h' => h (decide_eq_true h'))).symm

theorem reportSensors_cons (config : Config) (sensor : Sensor) (rest : List Sensor)
    (acc : List Packet × List LogEntry) (w : World) (c : Cursor) :
    reportSensors config (sensor :: rest) acc w c =
      match (reportSensor config acc sensor w c).1 with
      | none => ((none, acc.2), (reportSensor config acc sensor w c).2)
      | some next => reportSensors config rest next w (reportSensor config acc sensor w c).2 := by
  simp only [reportSensors, bind, pure]
  cases (reportSensor config acc sensor w c).1 <;> rfl

theorem reportSensors_packets (config : Config) (w : World) (P : Packet → Prop)
    (sensors : List Sensor)
    (hP : ∀ sensor ∈ sensors, ∀ acc c,
      (reportSensor config acc sensor w c).1 = none ∨
      (reportSensor config acc sensor w c).1.map Prod.fst = some acc.1 ∨
      ∃ p, P p ∧ (reportSensor config acc sensor w c).1.map Prod.fst = some (acc.1 ++ [p])) :
    ∀ acc c, (reportSensors config sensors acc w c).1.1 = none ∨
      ∃ new, (reportSensors config sensors acc w c).1.1 = some (acc.1 ++ new) ∧
        ∀ p ∈ new, P p := by
  induction sensors with
  | nil => exact fun acc c => Or.inr ⟨[], by simp [reportSensors, pure], by simp⟩
  | cons sensor rest ih =>
    intro acc c
    rw [reportSensors_cons]
    cases hr : (reportSensor config acc sensor w c).1 with
    | none => exact Or.inl rfl
    | some next =>
      dsimp only
      rcases ih (fun s hs => hP s (List.mem_cons_of_mem _ hs)) next
        (reportSensor config acc sensor w c).2 with h | ⟨new, e, hnew⟩
      · exact Or.inl h
      · right
        rcases hP sensor (List.mem_cons_self _ _) acc c with h | h | ⟨p, hp, h⟩
        · rw [hr] at h; cases h
        · rw [hr] at h
          have hn : next.1 = acc.1 := Option.some.inj h
          exact ⟨new, by rw [e, hn], hnew⟩
        · rw [hr] at h
          have hn : next.1 = acc.1 ++ [p] := Option.some.inj h
          refine ⟨p :: new, by rw [e, hn, List.append_assoc]; rfl, ?_⟩
          intro q hq
          rcases List.mem_cons.mp hq with hq | hq
          · rw [hq]; exact hp
          · exact hnew q hq

theorem generateData_dataBuffer (config : Config) (s : AppState) (w : World) (c : Cursor) :
    (generateData config s w c).1.dataBuffer = s.dataBuffer ++
      ((reportSensors config
        (s.sensors.filter (fun sensor => s.selectedSensorTypes.contains sensor.type))
        ([], s.log) w (dateNow w c).2).1.1).getD [] := by
  simp only [generateData, bind, pure]
  cases (reportSensors config
      (s.sensors.filter (fun sensor => s.selectedSensorTypes.contains sensor.type))
      ([], s.log) w (dateNow w c).2).1.1 with
  | none => simp
  | some packets =>
    dsimp only
    split
    · rfl
    · rename_i h
      have : packets = [] := by
        apply List.length_eq_zero.mp
        omega
      rw [this]
      simp

/-- The packets a tick appends to the buffer: when each turn of the loop adds
nothing or one packet with the property `P`, the buffer after the tick is the
buffer before it followed by packets with the property `P` (none when the loop
throws). -/
theorem generateData_packets (config : Config) (s : AppState) (w : World) (c : Cursor)
    (P : Packet → Prop)
    (hP : ∀ sensor ∈ s.sensors.filter
        (fun sensor => s.selectedSensorTypes.contains sensor.type), ∀ acc c,
      (reportSensor config acc sensor w c).1 = none ∨
      (reportSensor config acc sensor w c).1.map Prod.fst = some acc.1 ∨
      ∃ p, P p ∧ (reportSensor config acc sensor w c).1.map Prod.fst = some (acc.1 ++ [p])) :
    ∃ new, (generateData config s w c).1.dataBuffer = s.dataBuffer ++ new ∧
      ∀ p ∈ new, P p := by
  rw [generateData_dataBuffer]
  rcases reportSensors_packets config w P _ hP ([], s.log) (dateNow w c).2 with
    h | ⟨new, e, hnew⟩
  · exact ⟨[], by rw [h]; rfl, by simp⟩
  · exact ⟨new, by rw [e]; rfl, hnew⟩

/-- C8: with `faultChance = 0` the fault decision `draw < faultChance` is false
for every draw in `[0, 1)`, so `introduceFaults` is not applied: every packet a
tick appends to the buffer is the generated packet, the base metadata of one
of the sensors merged with the data fields of one of the generators of its
type, and carries neither `fault_type` nor `fault_timestamp`. -/
theorem tick_without_faults (config : Config) (s : AppState) (w : World) (c : Cursor)
    (h0 : config.faultChance = 0) (hw : w.UnitDraws) :
    (∀ n, decide (w.random n < config.faultChance) = false) ∧
    ∃ new, (generateData config s w c).1.dataBuffer = s.dataBuffer ++ new ∧
      ∀ p ∈ new,
        (∃ sensor ∈ s.sensors, ∃ typeConfig,
          typeConfigOrRadar sensor.type = some typeConfig ∧
          ∃ g ∈ typeConfig.generators, ∃ c₁ c₂ : Cursor,
            p = Packet.merge (generateBaseMetadata sensor w c₂).1
              (g.run (generationConfig config sensor) w c₁).1.data) ∧
        "fault_type" ∉ p.keys ∧ "fault_timestamp" ∉ p.keys := by
  have hdec : ∀ n, ¬ w.random n < config.faultChance := fun n h => by
    rw [h0] at h
    exact absurd (hw n).1 (not_le.mpr h)
  refine ⟨fun n => decide_eq_false (hdec n), ?_⟩
  apply generateData_packets
  intro sensor hs acc c'
  rcases reportSensor_packets config acc sensor w c' with
    h | h | ⟨typeConfig, htc, g, hg, c₁, c₂, c₃, h⟩
  · exact Or.inl h
  · exact Or.inr (Or.inl h)
  · right; right
    rw [if_neg (hdec _)] at h
    refine ⟨_, ⟨⟨sensor, (List.mem_filter.mp hs).1, typeConfig, htc, g, hg, c₁, c₃, rfl⟩,
      ?_, ?_⟩, h⟩
    · rw [Packet.mem_keys_merge, generateBaseMetadata_keys]
      exact fun hk => hk.elim (by decide) (Generator.run_keys g _ w c₁).1
    · rw [Packet.mem_keys_merge, generateBaseMetadata_keys]
      exact fun hk => hk.elim (by decide) (Generator.run_keys g _ w c₁).2

theorem tick_without_faults_witness :
    demoConfig.faultChance = 0 ∧ demoStart.dataBuffer = [] ∧
    demoTicked.dataBuffer.length = 7 ∧
    ((∀ n, decide (demoWorld.random n < demoConfig.faultChance) = false) ∧
     ∃ new, (generateData demoConfig demoStart demoWorld {}).1.dataBuffer =
        demoStart.dataBuffer ++ new ∧
      ∀ p ∈ new,
        (∃ sensor ∈ demoStart.sensors, ∃ typeConfig,
          typeConfigOrRadar sensor.type = some typeConfig ∧
          ∃ g ∈ typeConfig.generators, ∃ c₁ c₂ : Cursor,
            p = Packet.merge (generateBaseMetadata sensor demoWorld c₂).1
              (g.run (generationConfig demoConfig sensor) demoWorld c₁).1.data) ∧
        "fault_type" ∉ p.keys ∧ "fault_timestamp" ∉ p.keys) :=
  ⟨rfl, rfl, by decide!,
   tick_without_faults demoConfig demoStart demoWorld {} rfl demoWorld_unitDraws⟩

/-! ## The fault kinds -/

theorem applyFault_get_field (p : Packet) (kind field : String) (w : World) (c : Cursor)
    (hw : w.UnitDraws) (hk : kind ∈ faultKinds) :
    (kind = "extreme_value" → ∃ k ∈ [(10 : ℚ), 100, 1000],
      (applyFault p (some kind) field w c).1.get field = (p.get field).mul (some k)) ∧
    (kind = "zero_value" → (applyFault p (some kind) field w c).1.get field = .num 0) ∧
    (kind = "null_value" → (applyFault p (some kind) field w c).1.get field = .null) ∧
    (kind = "negative_value" →
      (applyFault p (some kind) field w c).1.get field = (p.get field).mul (some (-1))) ∧
    (kind = "stuck_value" → (applyFault p (some kind) field w c).1.get field = p.get field) := by
  refine ⟨?_, ?_, ?_, ?_, ?_⟩ <;> intro e <;> subst e
  · obtain ⟨k, hk', ek⟩ := index_mem [(10 : ℚ), 100, 1000] (w.random c.draws)
      (hw _).1 (hw _).2 (by simp)
    refine ⟨k, hk', ?_⟩
    simp only [applyFault, if_true, bind, pure]
    rw [Packet.get_set_self, getRandomElement_fst, ek]
  · simp [applyFault, pure, Packet.get_set_self]
  · simp [applyFault, pure, Packet.get_set_self]
  · simp [applyFault, pure, Packet.get_set_self]
  · simp [applyFault, pure]

/-- C11: for every packet with a numeric field and all draws in `[0, 1)`, let
`f` be the numeric field `introduceFaults` selects, `f` being none of
`confidence_score`, `fault_type` and `fault_timestamp`. The recorded
`fault_type` is one of the five kinds, and `f` reads afterwards as that kind
prescribes: the old value times 10, 100 or 1000 (`extreme_value`), `0`
(`zero_value`), `null` (`null_value`), the old value times `-1`
(`negative_value`), the old value (`stuck_value`). -/
theorem introduceFaults_applies_recorded_kind (data : Packet) (sensorType : String)
    (w : World) (c : Cursor) (hw : w.UnitDraws) (hn : numericFields data ≠ [])
    (h1 : (selectedField data w c).1 ≠ "confidence_score")
    (h2 : (selectedField data w c).1 ≠ "fault_type")
    (h3 : (selectedField data w c).1 ≠ "fault_timestamp") :
    (selectedField data w c).1 ∈ numericFields data ∧
    (∀ v k : ℚ, (JSValue.num v).mul (some k) = .num (v * k)) ∧
    ∃ kind ∈ ["extreme_value", "zero_value", "null_value", "negative_value", "stuck_value"],
      (introduceFaults data sensorType w c).1.get "fault_type" = .str kind ∧
      (kind = "extreme_value" → ∃ k ∈ [(10 : ℚ), 100, 1000],
        (introduceFaults data sensorType w c).1.get (selectedField data w c).1 =
          (data.get (selectedField data w c).1).mul (some k)) ∧
      (kind = "zero_value" →
        (introduceFaults data sensorType w c).1.get (selectedField data w c).1 = .num 0) ∧
      (kind = "null_value" →
        (introduceFaults data sensorType w c).1.get (selectedField data w c).1 = .null) ∧
      (kind = "negative_value" →
        (introduceFaults data sensorType w c).1.get (selectedField data w c).1 =
          (data.get (selectedField data w c).1).mul (some (-1))) ∧
      (kind = "stuck_value" →
        (introduceFaults data sensorType w c).1.get (selectedField data w c).1 =
          data.get (selectedField data w c).1) := by
  obtain ⟨c', n, ts, e⟩ := introduceFaults_shape data sensorType w c hn
  obtain ⟨f, hf, ef⟩ := index_mem (numericFields data)
    (w.random (getRandomElement faultKinds w c).2.draws) (hw _).1 (hw _).2 hn
  obtain ⟨kind, hkind, ekind⟩ := index_mem faultKinds (w.random c.draws) (hw _).1 (hw _).2
    (by decide)
  have hsel : (selectedField data w c).1 = propertyKey (getRandomElement (numericFields data) w
      (getRandomElement faultKinds w c).2).1 := rfl
  have hkey : (selectedField data w c).1 = f := by
    rw [hsel, getRandomElement_fst, ef]; rfl
  have hft : (getRandomElement faultKinds w c).1 = some kind := by
    rw [getRandomElement_fst, ekind]
  rw [hkey] at h1 h2 h3 ⊢
  rw [← hsel, hkey, hft] at e
  refine ⟨hf, fun _ _ => rfl, kind, hkind, ?_, ?_⟩
  · rw [e, Packet.get_set_ne _ _ _ _ (by decide), Packet.get_set_self]; rfl
  · have hget : (introduceFaults data sensorType w c).1.get f =
        (applyFault data (some kind) f w c').1.get f := by
      rw [e, Packet.get_set_ne _ _ _ _ h3, Packet.get_set_ne _ _ _ _ h2,
        Packet.get_set_ne _ _ _ _ h1]
    rw [hget]
    exact applyFault_get_field data kind f w c' hw hkind

theorem introduceFaults_applies_recorded_kind_witness :
    (selectedField demoSpeedPacket extremeValueWorld {}).1 = "average_speed_kmh" ∧
    (introduceFaults demoSpeedPacket "Radar" extremeValueWorld {}).1.get "average_speed_kmh" =
      .num 7250 ∧
    ((selectedField demoSpeedPacket extremeValueWorld {}).1 ∈ numericFields demoSpeedPacket ∧
     (∀ v k : ℚ, (JSValue.num v).mul (some k) = .num (v * k)) ∧
     ∃ kind ∈ ["extreme_value", "zero_value", "null_value", "negative_value", "stuck_value"],
      (introduceFaults demoSpeedPacket "Radar" extremeValueWorld {}).1.get "fault_type" =
        .str kind ∧
      (kind = "extreme_value" → ∃ k ∈ [(10 : ℚ), 100, 1000],
        (introduceFaults demoSpeedPacket "Radar" extremeValueWorld {}).1.get
            (selectedField demoSpeedPacket extremeValueWorld {}).1 =
          (demoSpeedPacket.get (selectedField demoSpeedPacket extremeValueWorld {}).1).mul
            (some k)) ∧
      (kind = "zero_value" →
        (introduceFaults demoSpeedPacket "Radar" extremeValueWorld {}).1.get
            (selectedField demoSpeedPacket extremeValueWorld {}).1 = .num 0) ∧
      (kind = "null_value" →
        (introduceFaults demoSpeedPacket "Radar" extremeValueWorld {}).1.get
            (selectedField demoSpeedPacket extremeValueWorld {}).1 = .null) ∧
      (kind = "negative_value" →
        (introduceFaults demoSpeedPacket "Radar" extremeValueWorld {}).1.get
            (selectedField demoSpeedPacket extremeValueWorld {}).1 =
          (demoSpeedPacket.get (selectedField demoSpeedPacket extremeValueWorld {}).1).mul
            (some (-1))) ∧
      (kind = "stuck_value" →
        (introduceFaults demoSpeedPacket "Radar" extremeValueWorld {}).1.get
            (selectedField demoSpeedPacket extremeValueWorld {}).1 =
          demoSpeedPacket.get (selectedField demoSpeedPacket extremeValueWorld {}).1)) :=
  ⟨by decide!, (JSValue.same_iff _ _).mp (by decide!),
   introduceFaults_applies_recorded_kind demoSpeedPacket "Radar" extremeValueWorld {}
     (worldWithDraws_unitDraws _ (by norm_num)) (by decide!) (by decide!) (by decide!)
     (by decide!)⟩

/-! ## Ranges of the drawn values -/

theorem toFixed_near (x : ℚ) (d : Nat) :
    x - 1 / (2 * 10 ^ d) ≤ toFixed x d ∧ toFixed x d ≤ x + 1 / (2 * 10 ^ d) := by
  have hp : (0 : ℚ) < 10 ^ d := by positivity
  have key : ∀ y : ℚ, y - 1 / (2 * 10 ^ d) ≤ (⌊y * 10 ^ d + 1 / 2⌋ : ℚ) / 10 ^ d ∧
      (⌊y * 10 ^ d + 1 / 2⌋ : ℚ) / 10 ^ d ≤ y + 1 / (2 * 10 ^ d) := by
    intro y
    have h1 : (⌊y * 10 ^ d + 1 / 2⌋ : ℚ) ≤ y * 10 ^ d + 1 / 2 := Int.floor_le _
    have h2 : y * 10 ^ d + 1 / 2 < (⌊y * 10 ^ d + 1 / 2⌋ : ℚ) + 1 := Int.lt_floor_add_one _
    constructor
    · rw [le_div_iff₀ hp]
      have : (y - 1 / (2 * 10 ^ d)) * 10 ^ d = y * 10 ^ d - 1 / 2 := by
        field_simp
        ring
      rw [this]; linarith
    · rw [div_le_iff₀ hp]
      have : (y + 1 / (2 * 10 ^ d)) * 10 ^ d = y * 10 ^ d + 1 / 2 := by
        field_simp
        ring
      rw [this]; linarith
  unfold toFixed
  split
  · exact key x
  · obtain ⟨k1, k2⟩ := key (-x)
    constructor <;> linarith

theorem getRandomInt_inRange (a b : ℚ) (w : World) (c : Cursor) (hw : w.UnitDraws)
    (hab : a ≤ b) : InIntRange a b (JSValue.ofNum (getRandomInt (some a) (some b) w c).1) := by
  have h0 := (hw c.draws).1
  have h1 := (hw c.draws).2
  have hpos : (0 : ℚ) ≤ w.random c.draws * (b - a + 1) :=
    mul_nonneg h0 (by linarith)
  have hf0 : (0 : ℚ) ≤ (⌊w.random c.draws * (b - a + 1)⌋ : ℚ) := by
    exact_mod_cast Int.floor_nonneg.mpr hpos
  have hf1 : (⌊w.random c.draws * (b - a + 1)⌋ : ℚ) ≤ w.random c.draws * (b - a + 1) :=
    Int.floor_le _
  have hlt : w.random c.draws * (b - a + 1) < b - a + 1 := by nlinarith
  refine ⟨(⌊w.random c.draws * (b - a + 1)⌋ : ℚ) + a, rfl, by linarith, by linarith, ?_⟩
  intro n hn
  have : ⌊w.random c.draws * (b - a + 1)⌋ < n + 1 := by
    apply Int.floor_lt.mpr
    push_cast
    rw [← hn]; exact hlt
  have : ⌊w.random c.draws * (b - a + 1)⌋ ≤ n := by omega
  have : (⌊w.random c.draws * (b - a + 1)⌋ : ℚ) ≤ n := by exact_mod_cast this
  linarith

theorem getRandomFloat_inRange (a b : ℚ) (w : World) (c : Cursor) (hw : w.UnitDraws)
    (hab : a ≤ b) :
    InFloatRange a b (JSValue.ofNum (getRandomFloat (some a) (some b) 2 w c).1) := by
  have h0 := (hw c.draws).1
  have h1 := (hw c.draws).2
  obtain ⟨k1, k2⟩ := toFixed_near (w.random c.draws * (b - a) + a) 2
  have hx0 : 0 ≤ w.random c.draws * (b - a) := mul_nonneg h0 (by linarith)
  have hx1 : w.random c.draws * (b - a) ≤ b - a := by nlinarith
  refine ⟨toFixed (w.random c.draws * (b - a) + a) 2, rfl, ?_, ?_⟩
  · norm_num at k1 ⊢; linarith
  · norm_num at k2 ⊢; linarith

theorem callTimes_mem {α : Type} (f : Sim α) (w : World) (n : Nat) :
    ∀ c, ∀ x ∈ (callTimes n f w c).1, ∃ c', x = (f w c').1 := by
  induction n with
  | zero => intro c x hx; simp [callTimes, pure] at hx
  | succ n ih =>
    intro c x hx
    simp only [callTimes, bind, pure, List.mem_cons] at hx
    rcases hx with hx | hx
    · exact ⟨c, hx⟩
    · exact ih _ x hx

theorem generateVehicleCountData_ranges (config : GenerationConfig) (w : World)
    (c : Cursor) (hw : w.UnitDraws) :
    VehicleCountRanges config (generateVehicleCountData config w c).1.data := by
  intro a b ha hb
  simp only [generateVehicleCountData, bind, pure, ha, hb, scale, Option.map_some']
  refine ⟨fun h => ?_, fun h => ?_, fun h => ?_, fun h => ?_, fun h => ?_⟩
  · exact getRandomInt_inRange a b w _ hw h
  · exact getRandomInt_inRange _ _ w _ hw (by linarith)
  · exact getRandomInt_inRange _ _ w _ hw (by linarith)
  · exact getRandomInt_inRange _ _ w _ hw (by linarith)
  · exact getRandomInt_inRange _ _ w _ hw (by linarith)

theorem generateVehicleSpeedData_ranges (config : GenerationConfig) (w : World)
    (c : Cursor) (hw : w.UnitDraws) :
    VehicleSpeedRanges config (generateVehicleSpeedData config w c).1.data := by
  intro a b ha hb hab
  obtain ⟨avg, e, h1, h2⟩ := getRandomFloat_inRange a b w c hw hab
  have e' : (getRandomFloat (some a) (some b) 2 w c).1 = some avg := by
    cases h : (getRandomFloat (some a) (some b) 2 w c).1 with
    | none => rw [h] at e; cases e
    | some q => rw [h] at e; cases e; rfl
  simp only [generateVehicleSpeedData, bind, pure, ha, hb]
  refine ⟨avg, ?_, ⟨avg, rfl, h1, h2⟩, _, rfl, ?_⟩
  · show JSValue.ofNum (getRandomFloat (some a) (some b) 2 w c).1 = _
    rw [e']; rfl
  · intro item hitem
    obtain ⟨c', ec⟩ := callTimes_mem _ w _ _ item hitem
    rw [ec, e']
    exact getRandomFloat_inRange (avg - 10) (avg + 10) w _ hw (by linarith)

theorem generateAirQualityData_ranges (config : GenerationConfig) (w : World)
    (c : Cursor) (hw : w.UnitDraws) :
    AirQualityRanges config (generateAirQualityData config w c).1.data := by
  refine ⟨fun a b ha hb h => ?_, fun a b ha hb h => ?_, fun a b ha hb h => ⟨?_, ?_⟩, ?_⟩
  · simp only [generateAirQualityData, bind, pure, ha, hb]
    exact getRandomFloat_inRange a b w _ hw h
  · simp only [generateAirQualityData, bind, pure, ha, hb]
    exact getRandomFloat_inRange a b w _ hw h
  · simp only [generateAirQualityData, bind, pure, ha, hb]
    exact getRandomFloat_inRange a b w _ hw h
  · simp only [generateAirQualityData, bind, pure, ha, hb, scale, Option.map_some']
    exact getRandomFloat_inRange _ _ w _ hw (by linarith)
  · simp only [generateAirQualityData, bind, pure]
    exact getRandomInt_inRange 20 150 w _ hw (by norm_num)

theorem generateRoadConditionData_ranges (config : GenerationConfig) (w : World)
    (c : Cursor) (hw : w.UnitDraws) :
    RoadConditionRanges config (generateRoadConditionData config w c).1.data := by
  refine ⟨fun a b ha hb h => ?_, ?_⟩
  · simp only [generateRoadConditionData, bind, pure, ha, hb]
    exact getRandomFloat_inRange a b w _ hw h
  · simp only [generateRoadConditionData, bind, pure]
    exact getRandomFloat_inRange (4 / 10) (9 / 10) w _ hw (by norm_num)

theorem generatePedestrianData_ranges (config : GenerationConfig) (w : World)
    (c : Cursor) (hw : w.UnitDraws) :
    PedestrianRanges config (generatePedestrianData config w c).1.data := by
  refine ⟨fun a b ha hb => ⟨fun h => ?_, fun h => ?_, fun h => ?_⟩,
    fun a b ha hb => ⟨fun h => ?_, fun h => ?_, fun h => ?_⟩⟩ <;>
  simp only [generatePedestrianData, bind, pure, ha, hb, scale, Option.map_some'] <;>
  exact getRandomInt_inRange _ _ w _ hw (by linarith)

/-- C12: for all draws in `[0, 1)`, a value drawn by `getRandomInt(min, max)`
or by `getRandomFloat(min, max)` from a range with `min ≤ max` is a number in
`[min, max]`, up to the tolerance of the rounding: an integer draw exceeds
`max` by less than one unit (and not at all when `max - min` is whole), a
float draw leaves the range by at most half a unit of its second decimal.
Hence every field the generators for VehicleCount, VehicleSpeed, AirQuality,
RoadCondition and PedestrianCount draw from a range lies in that range. -/
theorem generated_fields_in_range (config : GenerationConfig) (w : World) (c : Cursor)
    (hw : w.UnitDraws) :
    (∀ a b : ℚ, a ≤ b →
      InIntRange a b (JSValue.ofNum (getRandomInt (some a) (some b) w c).1) ∧
      InFloatRange a b (JSValue.ofNum (getRandomFloat (some a) (some b) 2 w c).1)) ∧
    VehicleCountRanges config (generateVehicleCountData config w c).1.data ∧
    VehicleSpeedRanges config (generateVehicleSpeedData config w c).1.data ∧
    AirQualityRanges config (generateAirQualityData config w c).1.data ∧
    RoadConditionRanges config (generateRoadConditionData config w c).1.data ∧
    PedestrianRanges config (generatePedestrianData config w c).1.data :=
  ⟨fun a b h => ⟨getRandomInt_inRange a b w c hw h, getRandomFloat_inRange a b w c hw h⟩,
   generateVehicleCountData_ranges config w c hw,
   generateVehicleSpeedData_ranges config w c hw,
   generateAirQualityData_ranges config w c hw,
   generateRoadConditionData_ranges config w c hw,
   generatePedestrianData_ranges config w c hw⟩

theorem generated_fields_in_range_witness :
    demoRadarConfig.vehicleCountMin = some 10 ∧ demoRadarConfig.vehicleCountMax = some 200 ∧
    (generateVehicleCountData demoRadarConfig demoWorld {}).1.data.get "vehicle_count" =
      .num 10 ∧
    ((∀ a b : ℚ, a ≤ b →
      InIntRange a b (JSValue.ofNum (getRandomInt (some a) (some b) demoWorld {}).1) ∧
      InFloatRange a b (JSValue.ofNum (getRandomFloat (some a) (some b) 2 demoWorld {}).1)) ∧
     VehicleCountRanges demoRadarConfig
      (generateVehicleCountData demoRadarConfig demoWorld {}).1.data ∧
     VehicleSpeedRanges demoRadarConfig
      (generateVehicleSpeedData demoRadarConfig demoWorld {}).1.data ∧
     AirQualityRanges demoRadarConfig
      (generateAirQualityData demoRadarConfig demoWorld {}).1.data ∧
     RoadConditionRanges demoRadarConfig
      (generateRoadConditionData demoRadarConfig demoWorld {}).1.data ∧
     PedestrianRanges demoRadarConfig
      (generatePedestrianData demoRadarConfig demoWorld {}).1.data) :=
  ⟨rfl, rfl, (JSValue.same_iff _ _).mp (by decide!),
   generated_fields_in_range demoRadarConfig demoWorld {} demoWorld_unitDraws⟩

/-- C13, the code at the failing input: for a Camera sensor with the default
ranges of its type, `generateVehicleCountData` draws the `car` count with
`getRandomInt(5 * 0.7, 150 * 0.7)`, that is from `3.5`: for every draw the
count is a whole number plus `3.5`, never an integer; with the draw `0` it is
`3.5`. -/
theorem camera_car_count_not_integer :
    (∀ (w : World) (c : Cursor), ∃ n : ℤ, cameraCarCount w c = .num ((n : ℚ) + 7 / 2) ∧
      ∀ m : ℤ, cameraCarCount w c ≠ .num (m : ℚ)) ∧
    cameraCarCount demoWorld {} = .num (7 / 2) := by
  refine ⟨fun w c => ?_, (JSValue.same_iff _ _).mp (by decide!)⟩
  have e : ∃ n : ℤ, cameraCarCount w c = .num ((n : ℚ) + 7 / 2) := by
    refine ⟨⌊w.random (c.draws + 1) * ((150 : ℚ) * (7 / 10) - 5 * (7 / 10) + 1)⌋, ?_⟩
    show JSValue.num (_ + (5 : ℚ) * (7 / 10)) = _
    norm_num
    rfl
  obtain ⟨n, hn⟩ := e
  refine ⟨n, hn, fun m hm => ?_⟩
  rw [hn] at hm
  have h : (n : ℚ) + 7 / 2 = m := by injection hm
  have h2 : (2 * n + 7 : ℚ) = 2 * m := by linarith
  have h3 : 2 * n + 7 = 2 * m := by exact_mod_cast h2
  omega

theorem generateData_of_no_sensors (config : Config) (s : AppState) (w : World) (c : Cursor)
    (h : s.selectedSensorTypes = [] ∨ s.sensors = []) :
    (generateData config s w c).1.dataBuffer = s.dataBuffer ∧
    (generateData config s w c).1.bufferCount = s.bufferCount ∧
    (generateData config s w c).1.enqueuedLog = s.enqueuedLog ∧
    (generateData config s w c).1.log = s.log := by
  have hf : s.sensors.filter (fun sensor => s.selectedSensorTypes.contains sensor.type) = [] := by
    rcases h with h | h
    · rw [h]; simp
    · rw [h]; rfl
  simp only [generateData, bind, pure, hf, reportSensors, List.length_nil, gt_iff_lt,
    lt_self_iff_false, if_false]
  simp

/-- C14: a tick with an empty allow-list of sensor types, or with an empty
sensor set, appends no reading: `generateData` returns a state with the same
buffer, the same `bufferCount`, the same log and nothing enqueued. -/
theorem tick_without_sensors (config : Config) (s : AppState) (w : World) (c : Cursor)
    (h : s.selectedSensorTypes = [] ∨ s.sensors = []) :
    (generateData config s w c).1.dataBuffer = s.dataBuffer ∧
    (generateData config s w c).1.dataBuffer.length = s.dataBuffer.length ∧
    (generateData config s w c).1.bufferCount = s.bufferCount ∧
    (generateData config s w c).1.enqueuedLog = s.enqueuedLog ∧
    (generateData config s w c).1.log = s.log := by
  obtain ⟨h1, h2, h3, h4⟩ := generateData_of_no_sensors config s w c h
  exact ⟨h1, by rw [h1], h2, h3, h4⟩

theorem tick_without_sensors_witness :
    demoNoTypes.sensors.length = 100 ∧ demoNoTypes.dataBuffer.length = 1 ∧
    ((generateData demoConfig demoNoTypes demoWorld {}).1.dataBuffer = demoNoTypes.dataBuffer ∧
     (generateData demoConfig demoNoTypes demoWorld {}).1.dataBuffer.length =
      demoNoTypes.dataBuffer.length ∧
     (generateData demoConfig demoNoTypes demoWorld {}).1.bufferCount =
      demoNoTypes.bufferCount ∧
     (generateData demoConfig demoNoTypes demoWorld {}).1.enqueuedLog =
      demoNoTypes.enqueuedLog ∧
     (generateData demoConfig demoNoTypes demoWorld {}).1.log = demoNoTypes.log) :=
  ⟨by decide!, rfl,
   tick_without_sensors demoConfig demoNoTypes demoWorld {} (Or.inl rfl)⟩

/-! ## Claims on the settling of a request -/

/-- C16: when the request of a batch fails (a status that is not a success, a
network error, an unreachable URL), `sendBatchData` resolves to `false`; the
batch is not put back on the buffer, which stays as the slicing left it, and
it is no longer pending; nothing is passed to `fetch`, and the next batch that
is passed to it is cut off the buffer; `isSending` is cleared, the statistics
are untouched and `isRunning` is unchanged. -/
theorem failed_send_drops_batch (config : Config) (s : AppState) (i : Nat)
    (hi : i < s.inFlight.length) :
    sendBatchDataSettledValue false = .bool false ∧
    (sendBatchDataSettled i false s).dataBuffer = s.dataBuffer ∧
    (sendBatchDataSettled i false s).inFlight = s.inFlight.eraseIdx i ∧
    (sendBatchDataSettled i false s).inFlight.length + 1 = s.inFlight.length ∧
    (sendBatchDataSettled i false s).transportLog = s.transportLog ∧
    (sendBatchDataSettled i false s).isSending = false ∧
    (sendBatchDataSettled i false s).isRunning = s.isRunning ∧
    (sendBatchDataSettled i false s).stats = s.stats ∧
    (sendBatchDataSettled i false s).pushStatus = "error" ∧
    ∀ u, Step config (sendBatchDataSettled i false s) u →
      u.transportLog = s.transportLog ∨
      ∃ b, u.transportLog = s.transportLog ++ [b] ∧
        (b = s.dataBuffer.take config.batchSize ∨ b = s.dataBuffer) := by
  have hsome : s.inFlight[i]? = some s.inFlight[i] := List.getElem?_eq_getElem hi
  have e : sendBatchDataSettled i false s =
      { s with pushStatus := "error", isSending := false,
               inFlight := s.inFlight.eraseIdx i } := by
    simp [sendBatchDataSettled, hsome]
  rw [e]
  refine ⟨rfl, rfl, rfl, ?_, rfl, rfl, rfl, rfl, rfl, ?_⟩
  · simp only [List.length_eraseIdx, hi, if_true]
    omega
  · intro u hu
    rcases step_transport config _ u hu with h | ⟨b, hb, _, _, _, _, h⟩
    · exact Or.inl h
    · right
      refine ⟨b, hb, ?_⟩
      rcases h with ⟨_, h, _⟩ | ⟨_, h⟩
      · exact Or.inl h
      · exact Or.inr h

theorem failed_send_drops_batch_witness :
    demoSending.inFlight.length = 1 ∧ demoSending.dataBuffer.length = 4 ∧
    (sendBatchDataSettledValue false = .bool false ∧
     (sendBatchDataSettled 0 false demoSending).dataBuffer = demoSending.dataBuffer ∧
     (sendBatchDataSettled 0 false demoSending).inFlight = demoSending.inFlight.eraseIdx 0 ∧
     (sendBatchDataSettled 0 false demoSending).inFlight.length + 1 =
      demoSending.inFlight.length ∧
     (sendBatchDataSettled 0 false demoSending).transportLog = demoSending.transportLog ∧
     (sendBatchDataSettled 0 false demoSending).isSending = false ∧
     (sendBatchDataSettled 0 false demoSending).isRunning = demoSending.isRunning ∧
     (sendBatchDataSettled 0 false demoSending).stats = demoSending.stats ∧
     (sendBatchDataSettled 0 false demoSending).pushStatus = "error" ∧
     ∀ u, Step demoConfig (sendBatchDataSettled 0 false demoSending) u →
      u.transportLog = demoSending.transportLog ∨
      ∃ b, u.transportLog = demoSending.transportLog ++ [b] ∧
        (b = demoSending.dataBuffer.take demoConfig.batchSize ∨ b = demoSending.dataBuffer)) :=
  ⟨by decide!, by decide!, failed_send_drops_batch demoConfig demoSending 0 (by decide!)⟩

/-- C17, refuted as stated: in the concrete run a batch of three packets is in
flight with `totalSent = 0`; when its request fails, `totalSent` is still `0`,
not `3`. -/
theorem failed_send_leaves_totalSent :
    demoSending.inFlight.map List.length = [3] ∧ demoSending.stats.totalSent = 0 ∧
    demoSendFailed.stats.totalSent = 0 ∧
    demoSendFailed.stats.totalSent ≠ demoSending.stats.totalSent + 3 :=
  ⟨by decide!, by decide!, by decide!, by decide!⟩

/-- C17, amended: when the request of a batch settles, `totalSent` grows by the
length of the batch exactly when the request succeeded (then `faultsDetected`
grows by the number of packets of the batch with `confidence_score < 0.5` and
`lastMinuteRate` becomes the current tick count); when the request failed the
statistics are unchanged. -/
theorem totalSent_counts_successful_sends (s : AppState) (i : Nat) (batch : List Packet)
    (hb : s.inFlight[i]? = some batch) :
    (sendBatchDataSettled i true s).stats.totalSent = s.stats.totalSent + batch.length ∧
    (sendBatchDataSettled i true s).stats.faultsDetected = s.stats.faultsDetected +
      (batch.filter (fun d => (d.get "confidence_score").ltConst (1 / 2))).length ∧
    (sendBatchDataSettled i true s).stats.lastMinuteRate = s.statsRef.lastMinuteCount ∧
    (sendBatchDataSettled i false s).stats = s.stats := by
  simp [sendBatchDataSettled, hb]

theorem demoSending_inFlight :
    demoSending.inFlight[0]? = some (demoTicked.dataBuffer.take 3) := by
  obtain ⟨e1, e2, e3, _⟩ := generateData_frame demoConfig demoStart demoWorld {}
  have h1 : demoTicked.isRunning = true := e1
  have h2 : demoTicked.isSending = false := e2
  have h3 : demoTicked.inFlight = [] := e3
  have h4 : demoTicked.dataBuffer.length = 7 := by decide!
  have hg : demoTicked.isRunning = true ∧ ¬ demoTicked.isSending = true ∧
      demoTicked.dataBuffer.length ≥ demoConfig.batchSize := by
    refine ⟨h1, by simp [h2], ?_⟩
    rw [h4]
    decide
  unfold demoSending dispatchEffect
  rw [if_pos hg]
  unfold sendBatchData
  have hlen : (demoTicked.dataBuffer.take demoConfig.batchSize).length = 3 := by
    rw [List.length_take, h4]
    rfl
  rw [if_neg (by rw [hlen]; decide)]
  simp only [h3, List.nil_append]
  rfl

theorem totalSent_counts_successful_sends_witness :
    demoSendSucceeded.stats.totalSent = 3 ∧ demoSendFailed.stats.totalSent = 0 ∧
    ((sendBatchDataSettled 0 true demoSending).stats.totalSent =
        demoSending.stats.totalSent + (demoTicked.dataBuffer.take 3).length ∧
     (sendBatchDataSettled 0 true demoSending).stats.faultsDetected =
        demoSending.stats.faultsDetected +
        ((demoTicked.dataBuffer.take 3).filter
          (fun d => (d.get "confidence_score").ltConst (1 / 2))).length ∧
     (sendBatchDataSettled 0 true demoSending).stats.lastMinuteRate =
        demoSending.statsRef.lastMinuteCount ∧
     (sendBatchDataSettled 0 false demoSending).stats = demoSending.stats) :=
  ⟨by decide!, by decide!,
   totalSent_counts_successful_sends demoSending 0 (demoTicked.dataBuffer.take 3)
     demoSending_inFlight⟩

/-! ## Loading the sensors -/

theorem lookup_of_mem_sensorTypes (t : String) (h : t ∈ sensorTypes) :
    ∃ typeConfig, SENSOR_TYPE_CONFIG.lookup t = some typeConfig := by
  simp only [sensorTypes, SENSOR_TYPE_CONFIG, List.map_cons, List.map_nil, List.mem_cons,
    List.mem_singleton, List.not_mem_nil, or_false] at h
  rcases h with h | h | h | h | h <;> subst h <;> exact ⟨_, rfl⟩

theorem generateRandomSensor_some (i : Nat) (w : World) (c : Cursor) (hw : w.UnitDraws) :
    ∃ sensor, (generateRandomSensor i w c).1 = some sensor ∧ HasTypeRanges sensor := by
  obtain ⟨t, ht, et⟩ := index_mem sensorTypes (w.random c.draws) (hw _).1 (hw _).2
    (by decide)
  obtain ⟨tc, htc⟩ := lookup_of_mem_sensorTypes t ht
  have hq : (getRandomElement sensorTypes w c).1.bind
      (fun t => (SENSOR_TYPE_CONFIG.lookup t).map (fun tc => (t, tc))) = some (t, tc) := by
    rw [getRandomElement_fst, et]
    simp [htc]
  simp only [generateRandomSensor, bind, pure]
  rw [hq]
  exact ⟨_, rfl, tc, htc, rfl⟩

theorem generateSensorsFrom_some (w : World) (hw : w.UnitDraws) (n : Nat) :
    ∀ i c, ∃ l, (generateSensorsFrom i n w c).1 = some l ∧ l.length = n ∧
      ∀ sensor ∈ l, HasTypeRanges sensor := by
  induction n with
  | zero => exact fun i c => ⟨[], rfl, rfl, by simp⟩
  | succ n ih =>
    intro i c
    obtain ⟨sensor, e, hs⟩ := generateRandomSensor_some i w c hw
    obtain ⟨l, el, hl, hall⟩ := ih (i + 1) (generateRandomSensor i w c).2
    refine ⟨sensor :: l, ?_, by simp [hl], ?_⟩
    · simp only [generateSensorsFrom, bind, pure]
      rw [e]
      simp only []
      rw [el]
      rfl
    · intro x hx
      rcases List.mem_cons.mp hx with hx | hx
      · rw [hx]; exact hs
      · exact hall x hx

theorem generateRandomSensors_some (config : Config) (s : AppState) (w : World) (c : Cursor)
    (hw : w.UnitDraws) :
    ∃ t, (generateRandomSensors config s w c).1 = some t ∧
      t.sensors.length = (if config.maxSensors = 0 then 100 else config.maxSensors) ∧
      (∀ sensor ∈ t.sensors, HasTypeRanges sensor) ∧ LoadFrame s t ∧
      t.isFetchingSensors = s.isFetchingSensors ∧
      ∀ type ∈ t.selectedSensorTypes, type ∈ s.selectedSensorTypes := by
  obtain ⟨l, el, hl, hall⟩ := generateSensorsFrom_some w hw
    (if config.maxSensors = 0 then 100 else config.maxSensors) 0 c
  simp only [generateRandomSensors, bind, pure]
  rw [el]
  refine ⟨_, rfl, hl, hall, ⟨rfl, rfl, rfl, rfl, rfl, rfl, rfl, rfl, rfl, rfl, rfl⟩, rfl, ?_⟩
  intro type ht
  exact (List.mem_filter.mp ht).1

theorem fetchConfiguredSensorsCatch_some (config : Config) (s : AppState) (w : World)
    (c : Cursor) (hw : w.UnitDraws) :
    ∃ t, (fetchConfiguredSensorsCatch config s w c).1 = some t ∧
      t.sensors.length = (if config.maxSensors = 0 then 100 else config.maxSensors) ∧
      (∀ sensor ∈ t.sensors, HasTypeRanges sensor) ∧ LoadFrame s t ∧
      t.isFetchingSensors = false ∧
      ∀ type ∈ t.selectedSensorTypes, type ∈ s.selectedSensorTypes := by
  obtain ⟨t, e, h1, h2, h3, _, h5⟩ :=
    generateRandomSensors_some config { s with pushStatus := "error" } w c hw
  simp only [fetchConfiguredSensorsCatch, bind, pure]
  rw [e]
  exact ⟨_, rfl, h1, h2, h3, rfl, h5⟩

theorem distinctInOrder_ne_nil (l : List String) (h : l ≠ []) : distinctInOrder l ≠ [] := by
  cases l with
  | nil => exact absurd rfl h
  | cons x xs => simp [distinctInOrder]

theorem fetchConfiguredSensorsOk_total (config : Config) (sensorList : List Sensor)
    (s : AppState) (w : World) (c : Cursor) (hw : w.UnitDraws) :
    ∃ t, (fetchConfiguredSensorsOk config sensorList s w c).1 = some t ∧ LoadFrame s t ∧
      ∀ type ∈ t.selectedSensorTypes, type ∈ s.selectedSensorTypes := by
  unfold fetchConfiguredSensorsOk
  split
  · obtain ⟨t, e, _, _, h3, _, h5⟩ := generateRandomSensors_some config
      { fetchedState config sensorList s with pushStatus := "warning" } w c hw
    simp only [bind, pure]
    rw [e]
    exact ⟨_, rfl, h3, fun type ht => (List.mem_filter.mp (h5 type ht)).1⟩
  · exact ⟨_, rfl, ⟨rfl, rfl, rfl, rfl, rfl, rfl, rfl, rfl, rfl, rfl, rfl⟩,
      fun type ht => (List.mem_filter.mp ht).1⟩

theorem fetchConfiguredSensors_total (config : Config) (response : SensorsResponse)
    (s : AppState) (w : World) (c : Cursor) (hw : w.UnitDraws) :
    ∃ t, (fetchConfiguredSensors config response s w c).1 = some t ∧ LoadFrame s t ∧
      ∀ type ∈ t.selectedSensorTypes, type ∈ s.selectedSensorTypes := by
  unfold fetchConfiguredSensors
  split
  · exact ⟨s, rfl, ⟨rfl, rfl, rfl, rfl, rfl, rfl, rfl, rfl, rfl, rfl, rfl⟩, fun _ h => h⟩
  · cases response with
    | networkError =>
      obtain ⟨t, e, _, _, h3, _, h5⟩ := fetchConfiguredSensorsCatch_some config
        { s with isFetchingSensors := true } w c hw
      exact ⟨t, e, h3, h5⟩
    | notOk status =>
      obtain ⟨t, e, _, _, h3, _, h5⟩ := fetchConfiguredSensorsCatch_some config
        { s with isFetchingSensors := true } w c hw
      exact ⟨t, e, h3, h5⟩
    | ok sensorList => exact fetchConfiguredSensorsOk_total config sensorList s w c hw

theorem startSimulation_some (config : Config) (response : SensorsResponse) (s : AppState)
    (w : World) (c : Cursor) (hw : w.UnitDraws) :
    ∃ t, (startSimulation config response s w c).1 = some t ∧ t.isRunning = true ∧
      t.dataBuffer = [] ∧ t.bufferCount = 0 ∧ t.log = [] ∧ t.stats = s.stats ∧
      t.statsRef = s.statsRef ∧ t.isSending = s.isSending ∧ t.inFlight = s.inFlight ∧
      t.slicedLog = [] ∧ t.transportLog = [] ∧ t.enqueuedLog = [] ∧
      ∀ type ∈ t.selectedSensorTypes, type ∈ s.selectedSensorTypes := by
  simp only [startSimulation, bind, pure]
  split
  · obtain ⟨t, e, ⟨_, f2, f3, f4, f5, f6, f7, f8, f9, f10, f11⟩, hsel⟩ :=
      fetchConfiguredSensors_total config response
        { s with log := [], dataBuffer := [], bufferCount := 0, pushStatus := "idle",
                 slicedLog := [], transportLog := [], enqueuedLog := [] } w c hw
    rw [e]
    exact ⟨_, rfl, rfl, f6, f4, f3, f5, f7, f2, f8, f9, f10, f11, hsel⟩
  · obtain ⟨t, e, _, _, ⟨_, f2, f3, f4, f5, f6, f7, f8, f9, f10, f11⟩, _, hsel⟩ :=
      generateRandomSensors_some config
        { s with log := [], dataBuffer := [], bufferCount := 0, pushStatus := "idle",
                 slicedLog := [], transportLog := [], enqueuedLog := [] } w c hw
    rw [e]
    exact ⟨_, rfl, rfl, f6, f4, f3, f5, f7, f2, f8, f9, f10, f11, hsel⟩

/-! ## Claims on starting a run and loading the sensors -/

/-- C15, refuted as stated: the concrete run ends with `totalSent = 7` and one
tick in the rate window; after a new `startSimulation` the component is
running with `totalSent = 7` and the window still holding that tick. -/
theorem startSimulation_keeps_stats :
    demoFinished.stats.totalSent = 7 ∧
    demoRestarted.map (fun t => t.isRunning) = some true ∧
    demoRestarted.map (fun t => t.stats.totalSent) = some 7 ∧
    demoRestarted.map (fun t => t.statsRef.lastMinuteTimestamps.length) = some 1 ∧
    demoRestarted.map (fun t => t.statsRef.lastMinuteCount) = some 1 :=
  ⟨by decide!, by decide!, by decide!, by decide!, by decide!⟩

/-- C15, amended: for every prior state and all draws in `[0, 1)`,
`startSimulation` completes, and when it enters Running the buffer is empty,
`bufferCount` is `0` and the visual log is empty; the statistics (`totalSent`,
`faultsDetected`, `lastMinuteRate`) and the rate window are those of the prior
state. -/
theorem startSimulation_resets_buffer (config : Config) (response : SensorsResponse)
    (s : AppState) (w : World) (c : Cursor) (hw : w.UnitDraws) :
    ∃ t, (startSimulation config response s w c).1 = some t ∧ t.isRunning = true ∧
      t.dataBuffer = [] ∧ t.bufferCount = 0 ∧ t.log = [] ∧ t.stats = s.stats ∧
      t.statsRef = s.statsRef := by
  obtain ⟨t, e, h1, h2, h3, h4, h5, h6, _⟩ := startSimulation_some config response s w c hw
  exact ⟨t, e, h1, h2, h3, h4, h5, h6⟩

theorem startSimulation_resets_buffer_witness :
    demoFinished.log.length = 7 ∧ demoRestarted.map (fun t => t.log.length) = some 0 ∧
    ∃ t, (startSimulation demoFetchConfig (.ok demoSensorList) demoFinished demoWorld {}).1 =
        some t ∧ t.isRunning = true ∧
      t.dataBuffer = [] ∧ t.bufferCount = 0 ∧ t.log = [] ∧ t.stats = demoFinished.stats ∧
      t.statsRef = demoFinished.statsRef :=
  ⟨by decide!, by decide!,
   startSimulation_resets_buffer demoFetchConfig (.ok demoSensorList) demoFinished demoWorld {}
     demoWorld_unitDraws⟩

theorem truthy_or_radar (type : String) :
    (tableTruthy type || type == "Radar") = tableTruthy type := by
  by_cases h : type = "Radar"
  · subst h; rfl
  · have : (type == "Radar") = false := by simpa using h
    rw [this, Bool.or_false]

theorem validSensors_eq (config : Config) (sensorList : List Sensor)
    (hm : 0 < config.maxSensors) :
    validSensors config sensorList =
      ((sensorList.take config.maxSensors).filter
        (fun sensor => tableTruthy sensor.type)).map
        (fun sensor => { sensor with dataRanges := typeDataRanges sensor.type }) := by
  unfold validSensors enrichedSensors limitedSensors
  rw [if_pos hm, List.filter_map]
  congr 1
  apply List.filter_congr
  intro sensor _
  exact truthy_or_radar sensor.type

/-- What `fetchConfiguredSensors` loads from a successful response with
`maxSensors > 0`, when the read `SENSOR_TYPE_CONFIG[sensor.type]` is truthy for
one of the first `maxSensors` entries: those of the first `maxSensors` entries
for which that read is truthy, in their order (entries whose type is a key of
the table, and entries whose type names an inherited property), each with the
`dataRanges` read off that value: at most `maxSensors` sensors. -/
theorem fetchConfiguredSensors_loads_truthy (config : Config)
    (sensorList : List Sensor) (s : AppState) (w : World) (c : Cursor)
    (hf : config.fetchSensors = true) (he : config.sensorsEndpoint ≠ "")
    (hm : 0 < config.maxSensors)
    (hk : ∃ sensor ∈ sensorList.take config.maxSensors, tableTruthy sensor.type = true) :
    ∃ t, (fetchConfiguredSensors config (.ok sensorList) s w c).1 = some t ∧
      t.sensors = ((sensorList.take config.maxSensors).filter
        (fun sensor => tableTruthy sensor.type)).map
        (fun sensor => { sensor with dataRanges := typeDataRanges sensor.type }) ∧
      (∀ sensor ∈ t.sensors, tableTruthy sensor.type = true ∧
        sensor.dataRanges = typeDataRanges sensor.type) ∧
      t.sensors.length ≤ config.maxSensors := by
  have hv := validSensors_eq config sensorList hm
  obtain ⟨known, hmem, hknown⟩ := hk
  have hne : fetchedSensorTypes config sensorList ≠ [] := by
    apply distinctInOrder_ne_nil
    rw [hv]
    intro h
    have : known ∈ (sensorList.take config.maxSensors).filter
        (fun sensor => tableTruthy sensor.type) :=
      List.mem_filter.mpr ⟨hmem, hknown⟩
    simp only [List.map_map, List.map_eq_nil_iff] at h
    rw [h] at this
    cases this
  have hlen : ¬ (fetchedSensorTypes config sensorList).length = 0 :=
    fun h => hne (List.length_eq_zero.mp h)
  have hguard : ¬ (config.fetchSensors = false ∨ config.sensorsEndpoint = "") := by
    rw [hf]; simp [he]
  have e : (fetchConfiguredSensors config (.ok sensorList) s w c).1 =
      some { fetchedState config sensorList s with
        sensors := validSensors config sensorList, pushStatus := "success",
        isFetchingSensors := false } := by
    simp only [fetchConfiguredSensors, if_neg hguard, fetchConfiguredSensorsOk, if_neg hlen,
      pure]
  refine ⟨_, e, hv, ?_, ?_⟩
  · intro sensor hs
    rw [show ({ fetchedState config sensorList s with
        sensors := validSensors config sensorList, pushStatus := "success",
        isFetchingSensors := false } : AppState).sensors = validSensors config sensorList
      from rfl, hv] at hs
    obtain ⟨raw, hraw, e⟩ := List.mem_map.mp hs
    have htruthy := (List.mem_filter.mp hraw).2
    rw [← e]
    exact ⟨htruthy, rfl⟩
  · show (validSensors config sensorList).length ≤ config.maxSensors
    rw [hv, List.length_map]
    exact le_trans (List.length_filter_le _ _) (by simp)

/-- C18, a defect of the code: the filter of `fetchConfiguredSensors` tests the
truthiness of `SENSOR_TYPE_CONFIG[sensor.type]`, which is truthy for the name of
an inherited property although the name is no key of the table. From the
fetched list of a road sensor and a sensor of type `constructor`, with
`maxSensors = 5`, both sensors are loaded, the second one without ranges, and
`constructor` becomes an available sensor type; the entries whose type is a key
of the table are the road sensor alone. -/
theorem fetch_keeps_inherited_type :
    demoLoadConfig.maxSensors = 5 ∧
    demoInheritedList.map (fun sensor => sensor.type) = ["RoadSensor", "constructor"] ∧
    (SENSOR_TYPE_CONFIG.lookup "constructor").isSome = false ∧
    tableTruthy "constructor" = true ∧
    ((demoInheritedList.take 5).filter
      (fun sensor => (SENSOR_TYPE_CONFIG.lookup sensor.type).isSome)).map
      (fun sensor => sensor.type) = ["RoadSensor"] ∧
    demoInheritedLoaded.map (fun t => t.sensors.map (fun sensor => sensor.type)) =
      some ["RoadSensor", "constructor"] ∧
    demoInheritedLoaded.map (fun t => t.sensors.map (fun sensor => sensor.dataRanges)) =
      some [{ tempMin := some (-5), tempMax := some 35 }, {}] ∧
    demoInheritedLoaded.map (fun t => t.availableSensorTypes) =
      some ["RoadSensor", "constructor"] :=
  ⟨rfl, by decide!, by decide!, by decide!, by decide!, by decide!, by decide!, by decide!⟩

/-- C19: when the request for the sensors throws or has a status that is not a
success (sensors being fetched from a non-empty endpoint), `fetchConfiguredSensors`
recovers with `generateRandomSensors`: for all draws in `[0, 1)` it completes
with `maxSensors` synthesized sensors (100 when `maxSensors` is 0), each of a
type of `SENSOR_TYPE_CONFIG` with the `dataRanges` of that type; and
`startSimulation` completes with such sensors and enters Running. -/
theorem fetch_failure_falls_back (config : Config) (response : SensorsResponse)
    (s : AppState) (w : World) (c : Cursor)
    (hf : config.fetchSensors = true) (he : config.sensorsEndpoint ≠ "")
    (hw : w.UnitDraws)
    (hr : response = .networkError ∨ ∃ status, response = .notOk status) :
    (fetchConfiguredSensors config response s w c).1 =
      (generateRandomSensors config
        { s with isFetchingSensors := true, pushStatus := "error" } w c).1.map
        (fun t => { t with isFetchingSensors := false }) ∧
    (∃ t, (fetchConfiguredSensors config response s w c).1 = some t ∧
      t.sensors.length = (if config.maxSensors = 0 then 100 else config.maxSensors) ∧
      ∀ sensor ∈ t.sensors, ∃ typeConfig,
        SENSOR_TYPE_CONFIG.lookup sensor.type = some typeConfig ∧
        sensor.dataRanges = typeConfig.dataRanges) ∧
    ∃ u, (startSimulation config response s w c).1 = some u ∧ u.isRunning = true ∧
      u.sensors.length = (if config.maxSensors = 0 then 100 else config.maxSensors) ∧
      ∀ sensor ∈ u.sensors, ∃ typeConfig,
        SENSOR_TYPE_CONFIG.lookup sensor.type = some typeConfig ∧
        sensor.dataRanges = typeConfig.dataRanges := by
  have hguard : ¬ (config.fetchSensors = false ∨ config.sensorsEndpoint = "") := by
    rw [hf]; simp [he]
  have hcatch : ∀ s' : AppState, (fetchConfiguredSensors config response s' w c).1 =
      (fetchConfiguredSensorsCatch config { s' with isFetchingSensors := true } w c).1 := by
    intro s'
    rcases hr with h | ⟨status, h⟩ <;> subst h <;>
      simp only [fetchConfiguredSensors, if_neg hguard]
  refine ⟨?_, ?_, ?_⟩
  · rw [hcatch]; rfl
  · obtain ⟨t, e, h1, h2, _⟩ := fetchConfiguredSensorsCatch_some config
      { s with isFetchingSensors := true } w c hw
    exact ⟨t, by rw [hcatch, e], h1, h2⟩
  · obtain ⟨t, e, h1, h2, _⟩ := fetchConfiguredSensorsCatch_some config
      { s with log := [], dataBuffer := [], bufferCount := 0, pushStatus := "idle",
               slicedLog := [], transportLog := [], enqueuedLog := [],
               isFetchingSensors := true } w c hw
    refine ⟨{ t with isRunning := true }, ?_, rfl, h1, h2⟩
    simp only [startSimulation, bind, pure, hf, if_true]
    rw [hcatch, e]
    rfl

theorem fetch_failure_falls_back_witness :
    demoFallback.map (fun t => t.sensors.map (fun sensor => sensor.type)) =
      some ["Radar", "Radar"] ∧
    ((fetchConfiguredSensors demoFetchConfig .networkError demoIdle demoWorld {}).1 =
      (generateRandomSensors demoFetchConfig
        { demoIdle with isFetchingSensors := true, pushStatus := "error" } demoWorld {}).1.map
        (fun t => { t with isFetchingSensors := false }) ∧
     (∃ t, (fetchConfiguredSensors demoFetchConfig .networkError demoIdle demoWorld {}).1 =
        some t ∧
      t.sensors.length =
        (if demoFetchConfig.maxSensors = 0 then 100 else demoFetchConfig.maxSensors) ∧
      ∀ sensor ∈ t.sensors, ∃ typeConfig,
        SENSOR_TYPE_CONFIG.lookup sensor.type = some typeConfig ∧
        sensor.dataRanges = typeConfig.dataRanges) ∧
     ∃ u, (startSimulation demoFetchConfig .networkError demoIdle demoWorld {}).1 = some u ∧
      u.isRunning = true ∧
      u.sensors.length =
        (if demoFetchConfig.maxSensors = 0 then 100 else demoFetchConfig.maxSensors) ∧
      ∀ sensor ∈ u.sensors, ∃ typeConfig,
        SENSOR_TYPE_CONFIG.lookup sensor.type = some typeConfig ∧
        sensor.dataRanges = typeConfig.dataRanges) :=
  ⟨by decide!,
   fetch_failure_falls_back demoFetchConfig .networkError demoIdle demoWorld {} rfl
     (by decide) demoWorld_unitDraws (Or.inl rfl)⟩

/-- C20, refuted as stated. With only `Radar` selected the Start button is
enabled; the sensor source returns a single camera, the load prunes the
allow-list to the empty list, and `startSimulation` still enters Running. And
`startSimulation` called with an empty allow-list enters Running as well. -/
theorem start_enters_running_with_empty_allow_list :
    demoIdle.selectedSensorTypes = ["Radar"] ∧ startDisabled demoIdle = false ∧
    demoStartedWithCamera.map (fun t => t.selectedSensorTypes) = some [] ∧
    demoStartedWithCamera.map (fun t => t.isRunning) = some true ∧
    demoIdleNoTypes.selectedSensorTypes = [] ∧
    demoStartedWithNoTypes.map (fun t => t.isRunning) = some true :=
  ⟨rfl, by decide!, by decide!, by decide!, rfl, by decide!⟩

/-- C20, amended: with an empty allow-list the Start button is disabled, but
`startSimulation` itself makes no check of the allow-list: for every state and
all draws in `[0, 1)` it completes and sets `isRunning`, the allow-list being a
part of the one it was called with (it can become empty during the load); in a
run entered with an empty allow-list every tick leaves the buffer as it is. -/
theorem start_makes_no_allow_list_check (config : Config) (response : SensorsResponse)
    (s : AppState) (w : World) (c : Cursor) (hw : w.UnitDraws) :
    (s.selectedSensorTypes = [] → startDisabled s = true) ∧
    ∃ t, (startSimulation config response s w c).1 = some t ∧ t.isRunning = true ∧
      (∀ type ∈ t.selectedSensorTypes, type ∈ s.selectedSensorTypes) ∧
      (t.selectedSensorTypes = [] →
        ∀ (w' : World) (c' : Cursor),
          (generateData config t w' c').1.dataBuffer = t.dataBuffer) := by
  refine ⟨fun h => by simp [startDisabled, h], ?_⟩
  obtain ⟨t, e, h1, _, _, _, _, _, _, _, _, _, _, hsel⟩ :=
    startSimulation_some config response s w c hw
  exact ⟨t, e, h1, hsel,
    fun h w' c' => (generateData_of_no_sensors config t w' c' (Or.inl h)).1⟩

theorem start_makes_no_allow_list_check_witness :
    startDisabled demoIdleNoTypes = true ∧
    ((demoIdle.selectedSensorTypes = [] → startDisabled demoIdle = true) ∧
     ∃ t, (startSimulation demoFetchConfig (.ok [demoCameraSensor]) demoIdle demoWorld {}).1 =
        some t ∧ t.isRunning = true ∧
      (∀ type ∈ t.selectedSensorTypes, type ∈ demoIdle.selectedSensorTypes) ∧
      (t.selectedSensorTypes = [] →
        ∀ (w' : World) (c' : Cursor),
          (generateData demoFetchConfig t w' c').1.dataBuffer = t.dataBuffer)) :=
  ⟨by decide!,
   start_makes_no_allow_list_check demoFetchConfig (.ok [demoCameraSensor]) demoIdle demoWorld
     {} demoWorld_unitDraws⟩

/-! ## The rate window -/

theorem filter_window (history : List Int) (prev now : Int) (h : prev ≤ now) :
    (history.filter (fun t => decide (prev - t ≤ 60000))).filter
        (fun t => decide (now - t ≤ 60000)) ++ [now] =
      (history ++ [now]).filter (fun t => decide (now - t ≤ 60000)) := by
  rw [List.filter_append, List.filter_filter]
  congr 1
  · apply List.filter_congr
    intro t _
    by_cases ht : now - t ≤ 60000
    · have : prev - t ≤ 60000 := by omega
      simp [ht, this]
    · simp [ht]
  · simp

theorem generateData_statsRef (config : Config) (s : AppState) (w : World) (c : Cursor) :
    (generateData config s w c).1.statsRef =
      { lastMinuteTimestamps :=
          s.statsRef.lastMinuteTimestamps.filter
            (fun t => decide (w.clock c.reads - t ≤ 60000)) ++ [w.clock c.reads]
        lastMinuteCount :=
          (s.statsRef.lastMinuteTimestamps.filter
            (fun t => decide (w.clock c.reads - t ≤ 60000)) ++ [w.clock c.reads]).length } := by
  simp only [generateData, bind, pure]
  cases (reportSensors config
      (s.sensors.filter (fun sensor => s.selectedSensorTypes.contains sensor.type))
      ([], s.log) w (dateNow w c).2).1.1 with
  | none => rfl
  | some packets =>
    dsimp only
    split <;> rfl

/-- C25: a tick that reads the clock value `now` leaves in
`statsRef.lastMinuteTimestamps` the timestamps `t` recorded before with
`now - t ≤ 60000`, in their order, followed by `now`, and sets
`lastMinuteCount` to the length of that list, whatever number of packets the
tick produces. When the list before the tick was the window of a history of
tick times at an earlier clock value `prev ≤ now`, the list after the tick is
the window of the history with `now` added: the ticks of the last 60 seconds. -/
theorem tick_rate_window (config : Config) (s : AppState) (w : World) (c : Cursor) :
    (generateData config s w c).1.statsRef.lastMinuteTimestamps =
      s.statsRef.lastMinuteTimestamps.filter
        (fun t => decide (w.clock c.reads - t ≤ 60000)) ++ [w.clock c.reads] ∧
    (generateData config s w c).1.statsRef.lastMinuteCount =
      (generateData config s w c).1.statsRef.lastMinuteTimestamps.length ∧
    ∀ (history : List Int) (prev : Int), prev ≤ w.clock c.reads →
      s.statsRef.lastMinuteTimestamps =
        history.filter (fun t => decide (prev - t ≤ 60000)) →
      (generateData config s w c).1.statsRef.lastMinuteTimestamps =
        (history ++ [w.clock c.reads]).filter
          (fun t => decide (w.clock c.reads - t ≤ 60000)) := by
  rw [generateData_statsRef]
  refine ⟨rfl, rfl, fun history prev hp hs => ?_⟩
  show s.statsRef.lastMinuteTimestamps.filter _ ++ _ = _
  rw [hs]
  exact filter_window history prev _ hp
theorem tick_rate_window_witness :
    demoStart.statsRef.lastMinuteTimestamps = [] ∧
    demoTicked.statsRef.lastMinuteTimestamps = [1700000000000] ∧
    demoTicked.statsRef.lastMinuteCount = 1 ∧ demoTicked.dataBuffer.length = 7 ∧
    demoTickedLater.statsRef.lastMinuteTimestamps = [1700000060001] ∧
    demoTickedLater.statsRef.lastMinuteCount = 1 ∧ demoTickedLater.dataBuffer.length = 14 ∧
    ((generateData demoConfig demoStart demoWorld {}).1.statsRef.lastMinuteTimestamps =
      demoStart.statsRef.lastMinuteTimestamps.filter
        (fun t => decide (demoWorld.clock ({} : Cursor).reads - t ≤ 60000)) ++
        [demoWorld.clock ({} : Cursor).reads] ∧
    (generateData demoConfig demoStart demoWorld {}).1.statsRef.lastMinuteCount =
      (generateData demoConfig demoStart demoWorld {}).1.statsRef.lastMinuteTimestamps.length ∧
    ∀ (history : List Int) (prev : Int), prev ≤ demoWorld.clock ({} : Cursor).reads →
      demoStart.statsRef.lastMinuteTimestamps =
        history.filter (fun t => decide (prev - t ≤ 60000)) →
      (generateData demoConfig demoStart demoWorld {}).1.statsRef.lastMinuteTimestamps =
        (history ++ [demoWorld.clock ({} : Cursor).reads]).filter
          (fun t => decide (demoWorld.clock ({} : Cursor).reads - t ≤ 60000))) :=
  ⟨rfl, by decide!, by decide!, by decide!, by decide!, by decide!, by decide!,
   tick_rate_window demoConfig demoStart demoWorld {}⟩

/-! ## The generator of a sensor type -/

theorem typeConfigOrRadar_cases (type : String) :
    type = "Radar" ∨ type = "Camera" ∨ type = "AirQualityStation" ∨ type = "RoadSensor" ∨
      type = "PedestrianSensor" ∨ SENSOR_TYPE_CONFIG.lookup type = none := by
  by_cases h1 : type = "Radar"
  · exact Or.inl h1
  by_cases h2 : type = "Camera"
  · exact Or.inr (Or.inl h2)
  by_cases h3 : type = "AirQualityStation"
  · exact Or.inr (Or.inr (Or.inl h3))
  by_cases h4 : type = "RoadSensor"
  · exact Or.inr (Or.inr (Or.inr (Or.inl h4)))
  by_cases h5 : type = "PedestrianSensor"
  · exact Or.inr (Or.inr (Or.inr (Or.inr (Or.inl h5))))
  · refine Or.inr (Or.inr (Or.inr (Or.inr (Or.inr ?_))))
    have b1 : (type == "Radar") = false := by simpa using h1
    have b2 : (type == "Camera") = false := by simpa using h2
    have b3 : (type == "AirQualityStation") = false := by simpa using h3
    have b4 : (type == "RoadSensor") = false := by simpa using h4
    have b5 : (type == "PedestrianSensor") = false := by simpa using h5
    simp only [SENSOR_TYPE_CONFIG, List.lookup, b1, b2, b3, b4, b5]

theorem typeConfigOrRadar_generators_cases (type : String) (typeConfig : TypeConfig)
    (h : typeConfigOrRadar type = some typeConfig) :
    ((type = "Radar" ∨ SENSOR_TYPE_CONFIG.lookup type = none) ∧
      typeConfig.generators = [.vehicleCount, .vehicleSpeed]) ∨
    (type = "Camera" ∧
      typeConfig.generators = [.vehicleCount, .incident, .vehicleClassification]) ∨
    (type = "AirQualityStation" ∧ typeConfig.generators = [.airQuality]) ∨
    (type = "RoadSensor" ∧ typeConfig.generators = [.roadCondition]) ∨
    (type = "PedestrianSensor" ∧ typeConfig.generators = [.pedestrian]) := by
  rcases typeConfigOrRadar_cases type with h1 | h1 | h1 | h1 | h1 | h1
  · subst h1
    have e : radarConfig = typeConfig := Option.some.inj h
    rw [← e]
    exact Or.inl ⟨Or.inl rfl, rfl⟩
  · subst h1
    have e := Option.some.inj h
    rw [← e]
    exact Or.inr (Or.inl ⟨rfl, rfl⟩)
  · subst h1
    have e := Option.some.inj h
    rw [← e]
    exact Or.inr (Or.inr (Or.inl ⟨rfl, rfl⟩))
  · subst h1
    have e := Option.some.inj h
    rw [← e]
    exact Or.inr (Or.inr (Or.inr (Or.inl ⟨rfl, rfl⟩)))
  · subst h1
    have e := Option.some.inj h
    rw [← e]
    exact Or.inr (Or.inr (Or.inr (Or.inr ⟨rfl, rfl⟩)))
  · unfold typeConfigOrRadar at h
    rw [h1] at h
    dsimp only at h
    split at h
    · cases h
    · have e : radarConfig = typeConfig := Option.some.inj h
      rw [← e]
      exact Or.inl ⟨Or.inr h1, rfl⟩

theorem typeConfigOrRadar_generators (type : String) (typeConfig : TypeConfig)
    (h : typeConfigOrRadar type = some typeConfig) : typeConfig.generators ≠ [] := by
  rcases typeConfigOrRadar_generators_cases type typeConfig h with
    ⟨_, e⟩ | ⟨_, e⟩ | ⟨_, e⟩ | ⟨_, e⟩ | ⟨_, e⟩ <;> rw [e] <;> decide

theorem typeConfigOrRadar_none (type : String) (h : typeConfigOrRadar type = none) :
    SENSOR_TYPE_CONFIG.lookup type = none ∧ type ∈ objectPrototypeNames := by
  unfold typeConfigOrRadar at h
  cases hl : SENSOR_TYPE_CONFIG.lookup type with
  | some typeConfig =>
    rw [hl] at h
    cases h
  | none =>
    rw [hl] at h
    dsimp only at h
    split at h
    · rename_i hc
      exact ⟨rfl, by simpa using hc⟩
    · cases h

theorem Generator.run_type (g : Generator) (cfg : GenerationConfig) (w : World) (c : Cursor) :
    (g.run cfg w c).1.type =
      match g with
      | .vehicleCount => "VehicleCount"
      | .vehicleSpeed => "VehicleSpeed"
      | .incident => "Incident"
      | .airQuality => "AirQuality"
      | .roadCondition => "RoadCondition"
      | .pedestrian => "PedestrianCount"
      | .vehicleClassification => "VehicleClassification" := by
  cases g <;> rfl

/-- The generator of a turn, for a type whose table value is an entry (its own
or, for a type that is no key of the table and no inherited name, the entry of
`Radar`) and a draw in `[0, 1)`: the generator list is non-empty, the index
`floor(u * length)` lies within it, and `getRandomElement` returns one of its
members, never `undefined`. The event kind the selected generator emits is one
of the kinds of the type: `VehicleCount` or `VehicleSpeed` for `Radar` and for
an unknown type, `VehicleCount`, `Incident` or `VehicleClassification` for
`Camera`, and the single kind of each of the other three types. -/
theorem selected_generator_of_type (type : String) (typeConfig : TypeConfig) (w : World)
    (c : Cursor) (hw : w.UnitDraws) (htc : typeConfigOrRadar type = some typeConfig) :
    typeConfig.generators ≠ [] ∧
    0 ≤ ⌊w.random c.draws * (typeConfig.generators.length : ℚ)⌋ ∧
    ⌊w.random c.draws * (typeConfig.generators.length : ℚ)⌋ < typeConfig.generators.length ∧
    ∃ g ∈ typeConfig.generators,
      (getRandomElement typeConfig.generators w c).1 = some g ∧
      ∀ (cfg : GenerationConfig) (c' : Cursor),
        ((type = "Radar" ∨ SENSOR_TYPE_CONFIG.lookup type = none) →
          (g.run cfg w c').1.type ∈ ["VehicleCount", "VehicleSpeed"]) ∧
        (type = "Camera" →
          (g.run cfg w c').1.type ∈ ["VehicleCount", "Incident", "VehicleClassification"]) ∧
        (type = "AirQualityStation" → (g.run cfg w c').1.type = "AirQuality") ∧
        (type = "RoadSensor" → (g.run cfg w c').1.type = "RoadCondition") ∧
        (type = "PedestrianSensor" → (g.run cfg w c').1.type = "PedestrianCount") := by
  have hne := typeConfigOrRadar_generators type typeConfig htc
  have hlen : (0 : ℚ) < typeConfig.generators.length := by
    have : 0 < typeConfig.generators.length := List.length_pos.mpr hne
    exact_mod_cast this
  obtain ⟨g, hg, eg⟩ := index_mem typeConfig.generators (w.random c.draws)
    (hw _).1 (hw _).2 hne
  refine ⟨hne, Int.floor_nonneg.mpr (mul_nonneg (hw _).1 hlen.le), ?_, g, hg, ?_, ?_⟩
  · apply Int.floor_lt.mpr
    push_cast
    have := (hw c.draws).2
    nlinarith
  · rw [getRandomElement_fst, eg]
  · intro cfg c'
    rw [Generator.run_type]
    have known : ∀ t ∈ sensorTypes, ¬ SENSOR_TYPE_CONFIG.lookup t = none := fun t ht e => by
      obtain ⟨tc, h⟩ := lookup_of_mem_sensorTypes t ht
      rw [e] at h
      cases h
    rcases typeConfigOrRadar_generators_cases type typeConfig htc with
      ⟨ht, e⟩ | ⟨ht, e⟩ | ⟨ht, e⟩ | ⟨ht, e⟩ | ⟨ht, e⟩
    · rw [e] at hg
      simp only [List.mem_cons, List.mem_singleton, List.not_mem_nil, or_false] at hg
      have hn : ∀ t ∈ sensorTypes, t ≠ "Radar" → type ≠ t := by
        intro t hmem hr e'
        rcases ht with ht | ht
        · exact hr (e'.symm.trans ht)
        · exact known t hmem (e' ▸ ht)
      refine ⟨fun _ => ?_, fun e' => absurd e' (hn _ (by decide) (by decide)),
        fun e' => absurd e' (hn _ (by decide) (by decide)),
        fun e' => absurd e' (hn _ (by decide) (by decide)),
        fun e' => absurd e' (hn _ (by decide) (by decide))⟩
      rcases hg with e | e <;> subst e <;> decide
    · subst ht
      rw [e] at hg
      simp only [List.mem_cons, List.mem_singleton, List.not_mem_nil, or_false] at hg
      refine ⟨fun hh => hh.elim (fun e => absurd e (by decide))
          (fun e => absurd e (known _ (by decide))),
        fun _ => ?_, fun e => absurd e (by decide),
        fun e => absurd e (by decide), fun e => absurd e (by decide)⟩
      rcases hg with e | e | e <;> subst e <;> decide
    · subst ht
      rw [e] at hg
      simp only [List.mem_cons, List.mem_singleton, List.not_mem_nil, or_false] at hg
      subst hg
      exact ⟨fun hh => hh.elim (fun e => absurd e (by decide))
          (fun e => absurd e (known _ (by decide))),
        fun e => absurd e (by decide), fun _ => rfl,
        fun e => absurd e (by decide), fun e => absurd e (by decide)⟩
    · subst ht
      rw [e] at hg
      simp only [List.mem_cons, List.mem_singleton, List.not_mem_nil, or_false] at hg
      subst hg
      exact ⟨fun hh => hh.elim (fun e => absurd e (by decide))
          (fun e => absurd e (known _ (by decide))),
        fun e => absurd e (by decide), fun e => absurd e (by decide),
        fun _ => rfl, fun e => absurd e (by decide)⟩
    · subst ht
      rw [e] at hg
      simp only [List.mem_cons, List.mem_singleton, List.not_mem_nil, or_false] at hg
      subst hg
      exact ⟨fun hh => hh.elim (fun e => absurd e (by decide))
          (fun e => absurd e (known _ (by decide))),
        fun e => absurd e (by decide), fun e => absurd e (by decide),
        fun e => absurd e (by decide), fun _ => rfl⟩

/-- C26, a defect of the code: the fallback `|| SENSOR_TYPE_CONFIG['Radar']` is
taken only when the read `SENSOR_TYPE_CONFIG[sensor.type]` is falsy. For the
type `Lidar` the read is `undefined` and the generators are those of `Radar`;
for the type `constructor`, which is no key of the table, the read gives the
inherited function, there is no fallback and no generator list, and the turn
of a reporting sensor of that type throws instead of selecting a generator. -/
theorem inherited_type_has_no_generators :
    (typeConfigOrRadar "Lidar").map (fun typeConfig => typeConfig.generators) =
      some [.vehicleCount, .vehicleSpeed] ∧
    (SENSOR_TYPE_CONFIG.lookup "constructor").isSome = false ∧
    "constructor" ∈ objectPrototypeNames ∧
    (typeConfigOrRadar "constructor").isSome = false ∧
    demoConstructorSensor.type = "constructor" ∧
    demoWorld.random ({} : Cursor).draws = 0 ∧
    (reportSensor demoConfig ([], []) demoConstructorSensor demoWorld {}).1.isSome = false ∧
    (reportSensor demoConfig ([], []) demoUnknownSensor demoWorld {}).1.isSome = true :=
  ⟨by decide!, by decide!, by decide!, by decide!, rfl, rfl, by decide!, by decide!⟩

/-! ## What fault injection leaves alone -/

theorem isNumber_of_mem_numericFields (data : Packet) (f : String)
    (h : f ∈ numericFields data) : (data.get f).isNumber = true :=
  (List.mem_filter.mp h).2

theorem introduceFaults_mem_keys (data : Packet) (sensorType : String) (w : World)
    (c : Cursor) (k : String) (h : k ∈ data.keys) :
    k ∈ (introduceFaults data sensorType w c).1.keys := by
  by_cases hn : numericFields data = []
  · rw [introduceFaults_of_no_numeric data sensorType w c hn]
    exact h
  · obtain ⟨c', n, ts, e⟩ := introduceFaults_shape data sensorType w c hn
    rw [e]
    exact (Packet.mem_keys_set _ _ _ _).mpr (Or.inl ((Packet.mem_keys_set _ _ _ _).mpr
      (Or.inl ((Packet.mem_keys_set _ _ _ _).mpr
        (Or.inl (applyFault_mem_keys _ _ _ _ _ _ h))))))

theorem introduceFaults_get_of_not_number (data : Packet) (sensorType : String) (w : World)
    (c : Cursor) (hw : w.UnitDraws) (k : String) (hk : (data.get k).isNumber = false)
    (h2 : k ≠ "confidence_score") (h3 : k ≠ "fault_type") (h4 : k ≠ "fault_timestamp") :
    (introduceFaults data sensorType w c).1.get k = data.get k := by
  by_cases hn : numericFields data = []
  · rw [introduceFaults_of_no_numeric data sensorType w c hn]
  · obtain ⟨f, hf, hframe⟩ := introduceFaults_frame data sensorType w c hw hn
    refine hframe k (fun e => ?_) h2 h3 h4
    rw [e, isNumber_of_mem_numericFields data f hf] at hk
    cases hk

/-- C27: for every packet and all draws in `[0, 1)`, `introduceFaults` either
returns the packet as it is (it has no numeric field) or selects one of its
top-level numeric fields `f`, and every property other than `f`,
`confidence_score`, `fault_type` and `fault_timestamp` reads as in the input.
So every property whose value is not a number (strings, booleans, `null`,
nested objects and arrays) other than those three reads as in the input, and
every property name of the input is a property name of the result. -/
theorem introduceFaults_frame_effect (data : Packet) (sensorType : String) (w : World)
    (c : Cursor) (hw : w.UnitDraws) :
    ((numericFields data = [] ∧ (introduceFaults data sensorType w c).1 = data) ∨
     ∃ f ∈ numericFields data, ∀ k, k ≠ f → k ≠ "confidence_score" →
       k ≠ "fault_type" → k ≠ "fault_timestamp" →
       (introduceFaults data sensorType w c).1.get k = data.get k) ∧
    (∀ k, (data.get k).isNumber = false → k ≠ "confidence_score" →
       k ≠ "fault_type" → k ≠ "fault_timestamp" →
       (introduceFaults data sensorType w c).1.get k = data.get k) ∧
    (∀ k ∈ data.keys, k ∈ (introduceFaults data sensorType w c).1.keys) := by
  refine ⟨?_, fun k hk h2 h3 h4 =>
      introduceFaults_get_of_not_number data sensorType w c hw k hk h2 h3 h4,
    fun k hk => introduceFaults_mem_keys data sensorType w c k hk⟩
  by_cases hn : numericFields data = []
  · exact Or.inl ⟨hn, introduceFaults_of_no_numeric data sensorType w c hn⟩
  · exact Or.inr (introduceFaults_frame data sensorType w c hw hn)

theorem introduceFaults_frame_effect_witness :
    (introduceFaults demoSpeedPacket "Radar" zeroValueWorld {}).1.get "average_speed_kmh" =
      .num 0 ∧
    (introduceFaults demoSpeedPacket "Radar" zeroValueWorld {}).1.get "vehicle_speeds" =
      demoSpeedPacket.get "vehicle_speeds" ∧
    (introduceFaults demoSpeedPacket "Radar" zeroValueWorld {}).1.get "location" =
      demoSpeedPacket.get "location" ∧
    (introduceFaults demoSpeedPacket "Radar" zeroValueWorld {}).1.get "speed_limit_kmh" =
      demoSpeedPacket.get "speed_limit_kmh" ∧
    (((numericFields demoSpeedPacket = [] ∧
        (introduceFaults demoSpeedPacket "Radar" zeroValueWorld {}).1 = demoSpeedPacket) ∨
     ∃ f ∈ numericFields demoSpeedPacket, ∀ k, k ≠ f → k ≠ "confidence_score" →
       k ≠ "fault_type" → k ≠ "fault_timestamp" →
       (introduceFaults demoSpeedPacket "Radar" zeroValueWorld {}).1.get k =
         demoSpeedPacket.get k) ∧
    (∀ k, (demoSpeedPacket.get k).isNumber = false → k ≠ "confidence_score" →
       k ≠ "fault_type" → k ≠ "fault_timestamp" →
       (introduceFaults demoSpeedPacket "Radar" zeroValueWorld {}).1.get k =
         demoSpeedPacket.get k) ∧
    (∀ k ∈ demoSpeedPacket.keys,
      k ∈ (introduceFaults demoSpeedPacket "Radar" zeroValueWorld {}).1.keys)) :=
  ⟨(JSValue.same_iff _ _).mp (by decide!), (JSValue.same_iff _ _).mp (by decide!),
   (JSValue.same_iff _ _).mp (by decide!), (JSValue.same_iff _ _).mp (by decide!),
   introduceFaults_frame_effect demoSpeedPacket "Radar" zeroValueWorld {}
     (worldWithDraws_unitDraws _ (by decide!))⟩

/-! ## The confidence of a generated packet -/

theorem Packet.get_merge_of_not_mem (a b : Packet) (k : String) (h : k ∉ b.keys) :
    (Packet.merge a b).get k = a.get k := by
  unfold Packet.merge
  induction b generalizing a with
  | nil => rfl
  | cons kv rest ih =>
    simp only [Packet.keys, List.map_cons, List.mem_cons, not_or] at h
    rw [List.foldl_cons, ih _ h.2, Packet.get_set_ne _ _ _ _ h.1]

theorem Generator.run_keys_base (g : Generator) (config : GenerationConfig) (w : World)
    (c : Cursor) :
    "sensor_type" ∉ (g.run config w c).1.data.keys ∧
    "confidence_score" ∉ (g.run config w c).1.data.keys := by
  cases g
  · have : (Generator.run .vehicleCount config w c).1.data.keys =
      ["vehicle_count", "vehicle_class_counts", "measurement_interval_seconds"] := rfl
    rw [this]; decide
  · have : (Generator.run .vehicleSpeed config w c).1.data.keys =
      ["average_speed_kmh", "vehicle_speeds", "speed_limit_kmh",
       "measurement_interval_seconds"] := rfl
    rw [this]; decide
  · have : (Generator.run .incident config w c).1.data.keys =
      ["incident_id", "incident_type", "severity", "vehicles_involved",
       "incident_start_time", "incident_end_time", "lane_affected", "verified",
       "detection_method"] := rfl
    rw [this]; decide
  · have : (Generator.run .airQuality config w c).1.data.keys =
      ["co_ppm", "no2_ppb", "pm2_5_ug_per_m3", "pm10_ug_per_m3", "aqi",
       "sensor_height_meters", "measurement_interval_seconds"] := rfl
    rw [this]; decide
  · have : (Generator.run .roadCondition config w c).1.data.keys =
      ["road_condition", "surface_temperature_celsius", "pothole_detected",
       "icing_risk_level", "friction_index"] := rfl
    rw [this]; decide
  · have : (Generator.run .pedestrian config w c).1.data.keys =
      ["pedestrian_count", "cyclist_count", "group_count",
       "measurement_interval_seconds"] := rfl
    rw [this]; decide
  · have : (Generator.run .vehicleClassification config w c).1.data.keys =
      ["vehicle_id", "vehicle_type", "axle_count", "vehicle_length_meters"] := rfl
    rw [this]; decide

theorem base_confidence_bounds (u : ℚ) (h0 : 0 ≤ u) (h1 : u < 1) :
    85 / 100 ≤ toFixed (u * (99 / 100 - 85 / 100) + 85 / 100) 2 ∧
    toFixed (u * (99 / 100 - 85 / 100) + 85 / 100) 2 ≤ 99 / 100 := by
  have h := toFixed_bounds (u * (99 / 100 - 85 / 100) + 85 / 100) 2 85 99 (by linarith)
    (by push_cast; linarith) (by push_cast; linarith)
  norm_num at h ⊢
  exact h

theorem generateBaseMetadata_sensor_type (sensor : Sensor) (w : World) (c : Cursor) :
    (generateBaseMetadata sensor w c).1.get "sensor_type" = .str sensor.type := rfl

theorem generateBaseMetadata_confidence (sensor : Sensor) (w : World) (c : Cursor)
    (hw : w.UnitDraws) :
    ∃ q, (generateBaseMetadata sensor w c).1.get "confidence_score" = .num q ∧
      85 / 100 ≤ q ∧ q ≤ 99 / 100 := by
  have e : ∃ n, (generateBaseMetadata sensor w c).1.get "confidence_score" =
      .num (toFixed (w.random n * (99 / 100 - 85 / 100) + 85 / 100) 2) := ⟨_, rfl⟩
  obtain ⟨n, e⟩ := e
  exact ⟨_, e, base_confidence_bounds _ (hw n).1 (hw n).2⟩

theorem generated_packet_confidence (config : Config) (sensor : Sensor) (g : Generator)
    (w : World) (c₁ c₃ : Cursor) (hw : w.UnitDraws) :
    ∃ q, (generateBaseMetadata sensor w c₃).1.get "confidence_score" = .num q ∧
      (Packet.merge (generateBaseMetadata sensor w c₃).1
        (g.run (generationConfig config sensor) w c₁).1.data).get "confidence_score" =
          .num q ∧
      85 / 100 ≤ q ∧ q ≤ 99 / 100 ∧
      numericFields (Packet.merge (generateBaseMetadata sensor w c₃).1
        (g.run (generationConfig config sensor) w c₁).1.data) ≠ [] := by
  obtain ⟨q, e, h1, h2⟩ := generateBaseMetadata_confidence sensor w c₃ hw
  have em : (Packet.merge (generateBaseMetadata sensor w c₃).1
      (g.run (generationConfig config sensor) w c₁).1.data).get "confidence_score" =
        .num q := by
    rw [Packet.get_merge_of_not_mem _ _ _ (Generator.run_keys_base g _ w c₁).2, e]
  refine ⟨q, e, em, h1, h2, ?_⟩
  apply List.ne_nil_of_mem (a := "confidence_score")
  apply List.mem_filter.mpr
  refine ⟨?_, ?_⟩
  · rw [Packet.mem_keys_merge, generateBaseMetadata_keys]
    exact Or.inl (by decide)
  · rw [em]
    rfl

/-- C22: for all draws in `[0, 1)`, every packet a tick appends to the buffer
is built from the base metadata of one of the sensors, whose
`confidence_score` is a number `q₀` in `[0.85, 0.99]` that the merge with the
generated fields keeps; the packet is that merged packet when the fault draw is
not below `faultChance`, and otherwise the result of `introduceFaults` on it,
whose `confidence_score` is a number `q₁` in `[0.1, 0.4]`, strictly below `q₀`,
whichever field and fault kind the injection selects. -/
theorem injected_confidence_is_lower (config : Config) (s : AppState) (w : World)
    (c : Cursor) (hw : w.UnitDraws) :
    ∃ new, (generateData config s w c).1.dataBuffer = s.dataBuffer ++ new ∧
      ∀ p ∈ new, ∃ sensor ∈ s.sensors, ∃ typeConfig,
        typeConfigOrRadar sensor.type = some typeConfig ∧
        ∃ g ∈ typeConfig.generators, ∃ (c₁ c₂ c₃ : Cursor) (q₀ : ℚ),
          (generateBaseMetadata sensor w c₃).1.get "confidence_score" = .num q₀ ∧
          (Packet.merge (generateBaseMetadata sensor w c₃).1
            (g.run (generationConfig config sensor) w c₁).1.data).get "confidence_score" =
              .num q₀ ∧
          85 / 100 ≤ q₀ ∧ q₀ ≤ 99 / 100 ∧
          ((¬ w.random c₂.draws < config.faultChance ∧
            p = Packet.merge (generateBaseMetadata sensor w c₃).1
              (g.run (generationConfig config sensor) w c₁).1.data) ∨
           (w.random c₂.draws < config.faultChance ∧
            p = (introduceFaults
              (Packet.merge (generateBaseMetadata sensor w c₃).1
                (g.run (generationConfig config sensor) w c₁).1.data)
              sensor.type w (generateBaseMetadata sensor w c₃).2).1 ∧
            ∃ q₁, p.get "confidence_score" = .num q₁ ∧ 1 / 10 ≤ q₁ ∧ q₁ ≤ 4 / 10 ∧
              q₁ < q₀)) := by
  apply generateData_packets
  intro sensor hs acc c'
  rcases reportSensor_packets config acc sensor w c' with
    h | h | ⟨typeConfig, htc, g, hg, c₁, c₂, c₃, h⟩
  · exact Or.inl h
  · exact Or.inr (Or.inl h)
  · right; right
    obtain ⟨q₀, e0, em, h1, h2, hn⟩ := generated_packet_confidence config sensor g w c₁ c₃ hw
    refine ⟨_, ⟨sensor, (List.mem_filter.mp hs).1, typeConfig, htc, g, hg, c₁, c₂, c₃, q₀,
      e0, em, h1, h2, ?_⟩, h⟩
    by_cases hf : w.random c₂.draws < config.faultChance
    · right
      rw [if_pos hf]
      obtain ⟨⟨q₁, e1, l1, l2⟩, _⟩ := introduceFaults_tags _ sensor.type w
        (generateBaseMetadata sensor w c₃).2 hw hn
      exact ⟨hf, rfl, q₁, e1, l1, l2, by linarith⟩
    · left
      rw [if_neg hf]
      exact ⟨hf, rfl⟩

theorem injected_confidence_is_lower_witness :
    demoTicked.dataBuffer.map (fun p => JSValue.same (p.get "confidence_score")
      (.num (85 / 100))) = List.replicate 7 true ∧
    demoFaultyTicked.dataBuffer.map (fun p => JSValue.same (p.get "confidence_score")
      (.num (1 / 10))) = List.replicate 7 true ∧
    ∃ new, (generateData demoFaultyConfig demoStart demoWorld {}).1.dataBuffer =
        demoStart.dataBuffer ++ new ∧
      ∀ p ∈ new, ∃ sensor ∈ demoStart.sensors, ∃ typeConfig,
        typeConfigOrRadar sensor.type = some typeConfig ∧
        ∃ g ∈ typeConfig.generators, ∃ (c₁ c₂ c₃ : Cursor) (q₀ : ℚ),
          (generateBaseMetadata sensor demoWorld c₃).1.get "confidence_score" = .num q₀ ∧
          (Packet.merge (generateBaseMetadata sensor demoWorld c₃).1
            (g.run (generationConfig demoFaultyConfig sensor) demoWorld c₁).1.data).get
              "confidence_score" = .num q₀ ∧
          85 / 100 ≤ q₀ ∧ q₀ ≤ 99 / 100 ∧
          ((¬ demoWorld.random c₂.draws < demoFaultyConfig.faultChance ∧
            p = Packet.merge (generateBaseMetadata sensor demoWorld c₃).1
              (g.run (generationConfig demoFaultyConfig sensor) demoWorld c₁).1.data) ∨
           (demoWorld.random c₂.draws < demoFaultyConfig.faultChance ∧
            p = (introduceFaults
              (Packet.merge (generateBaseMetadata sensor demoWorld c₃).1
                (g.run (generationConfig demoFaultyConfig sensor) demoWorld c₁).1.data)
              sensor.type demoWorld (generateBaseMetadata sensor demoWorld c₃).2).1 ∧
            ∃ q₁, p.get "confidence_score" = .num q₁ ∧ 1 / 10 ≤ q₁ ∧ q₁ ≤ 4 / 10 ∧
              q₁ < q₀)) :=
  ⟨by decide!, by decide!,
   injected_confidence_is_lower demoFaultyConfig demoStart demoWorld {} demoWorld_unitDraws⟩

/-! ## The sensors that report in a tick -/

theorem reportSensor_cursor (config : Config) (acc : List Packet × List LogEntry)
    (sensor : Sensor) (w : World) (c : Cursor) :
    (reportSensor config acc sensor w c).2 = (reportSensor config ([], []) sensor w c).2 := by
  unfold reportSensor
  simp only [bind, pure]
  split
  · rfl
  · cases typeConfigOrRadar sensor.type with
    | none => rfl
    | some typeConfig =>
      dsimp only
      generalize (getRandomElement typeConfig.generators w (mathRandom w c).2).1 = selected
      cases selected with
      | none => rfl
      | some g => rfl

theorem reportSensor_skipped (config : Config) (acc : List Packet × List LogEntry)
    (sensor : Sensor) (w : World) (c : Cursor) (h : w.random c.draws > 8 / 10) :
    (reportSensor config acc sensor w c).1 = some acc := by
  unfold reportSensor
  simp only [bind, pure]
  rw [if_pos (show (mathRandom w c).1 > 8 / 10 from h)]

theorem reportSensor_throws (config : Config) (acc : List Packet × List LogEntry)
    (sensor : Sensor) (w : World) (c : Cursor) (h : ¬ w.random c.draws > 8 / 10)
    (htc : typeConfigOrRadar sensor.type = none) :
    (reportSensor config acc sensor w c).1 = none := by
  unfold reportSensor
  simp only [bind, pure]
  rw [if_neg (show ¬ (mathRandom w c).1 > 8 / 10 from h), htc]

theorem reportSensor_reported (config : Config) (acc : List Packet × List LogEntry)
    (sensor : Sensor) (typeConfig : TypeConfig) (w : World) (c : Cursor) (hw : w.UnitDraws)
    (h : ¬ w.random c.draws > 8 / 10) (htc : typeConfigOrRadar sensor.type = some typeConfig) :
    ∃ g ∈ typeConfig.generators, ∃ c₁ c₂ c₃ : Cursor,
      (reportSensor config acc sensor w c).1.map Prod.fst = some (acc.1 ++
        [if w.random c₂.draws < config.faultChance then
          (introduceFaults
            (Packet.merge (generateBaseMetadata sensor w c₃).1
              (g.run (generationConfig config sensor) w c₁).1.data)
            sensor.type w (generateBaseMetadata sensor w c₃).2).1
         else
          Packet.merge (generateBaseMetadata sensor w c₃).1
            (g.run (generationConfig config sensor) w c₁).1.data]) := by
  obtain ⟨g, hg, eg⟩ := index_mem typeConfig.generators
    (w.random (mathRandom w c).2.draws) (hw _).1 (hw _).2
    (typeConfigOrRadar_generators sensor.type typeConfig htc)
  have hsel : (getRandomElement typeConfig.generators w (mathRandom w c).2).1 = some g := by
    rw [getRandomElement_fst, eg]
  unfold reportSensor
  simp only [bind, pure]
  rw [if_neg (show ¬ (mathRandom w c).1 > 8 / 10 from h), htc]
  dsimp only
  rw [hsel]
  refine ⟨g, hg,
    (getRandomElement typeConfig.generators w (mathRandom w c).2).2,
    (g.run (generationConfig config sensor) w
      (getRandomElement typeConfig.generators w (mathRandom w c).2).2).2,
    (mathRandom w (g.run (generationConfig config sensor) w
      (getRandomElement typeConfig.generators w (mathRandom w c).2).2).2).2, ?_⟩
  dsimp only [Option.map]
  congr 3
  split
  · rename_i h'
    exact (if_pos (of_decide_eq_true h')).symm
  · rename_i h'
    exact (if_neg (fun h'' => h' (decide_eq_true h''))).symm

theorem generated_packet_sensor_type (config : Config) (sensor : Sensor) (g : Generator)
    (w : World) (c₁ c₂ c₃ : Cursor) (hw : w.UnitDraws) :
    (if w.random c₂.draws < config.faultChance then
      (introduceFaults
        (Packet.merge (generateBaseMetadata sensor w c₃).1
          (g.run (generationConfig config sensor) w c₁).1.data)
        sensor.type w (generateBaseMetadata sensor w c₃).2).1
     else
      Packet.merge (generateBaseMetadata sensor w c₃).1
        (g.run (generationConfig config sensor) w c₁).1.data).get "sensor_type" =
      .str sensor.type := by
  have em : (Packet.merge (generateBaseMetadata sensor w c₃).1
      (g.run (generationConfig config sensor) w c₁).1.data).get "sensor_type" =
        .str sensor.type := by
    rw [Packet.get_merge_of_not_mem _ _ _ (Generator.run_keys_base g _ w c₁).1,
      generateBaseMetadata_sensor_type]
  split
  · rw [introduceFaults_get_of_not_number _ _ _ _ hw _ (by rw [em]; rfl) (by decide)
      (by decide) (by decide), em]
  · exact em

theorem forall₂_mem_right {α β : Type} {R : α → β → Prop} {l : List α} {m : List β}
    (h : List.Forall₂ R l m) : ∀ p ∈ m, ∃ t ∈ l, R t p := by
  induction h with
  | nil => exact fun p hp => absurd hp (List.not_mem_nil p)
  | cons hr _ ih =>
    intro p hp
    rcases List.mem_cons.mp hp with e | e
    · exact ⟨_, List.mem_cons_self _ _, e ▸ hr⟩
    · obtain ⟨t, ht, hR⟩ := ih p e
      exact ⟨t, List.mem_cons_of_mem _ ht, hR⟩

theorem reportingDraws_sensors (config : Config) (w : World) (sensors : List Sensor) :
    ∀ c, (reportingDraws config w sensors c).map Prod.fst = sensors := by
  induction sensors with
  | nil => exact fun _ => rfl
  | cons sensor rest ih =>
    intro c
    simp only [reportingDraws, List.map_cons, ih]

theorem reportSensors_reporting (config : Config) (w : World) (R : Sensor → Packet → Prop)
    (sensors : List Sensor)
    (hR : ∀ sensor ∈ sensors, ∀ acc c, ¬ w.random c.draws > 8 / 10 →
      ∃ p, R sensor p ∧
        (reportSensor config acc sensor w c).1.map Prod.fst = some (acc.1 ++ [p])) :
    ∀ acc c, ∃ new, (reportSensors config sensors acc w c).1.1 = some (acc.1 ++ new) ∧
      List.Forall₂ (fun t p => R t.1 p)
        ((reportingDraws config w sensors c).filter (fun t => decide (t.2 ≤ 8 / 10))) new := by
  induction sensors with
  | nil => exact fun acc c => ⟨[], by simp [reportSensors, pure], List.Forall₂.nil⟩
  | cons sensor rest ih =>
    intro acc c
    rw [reportSensors_cons]
    by_cases hskip : w.random c.draws > 8 / 10
    · have hr := reportSensor_skipped config acc sensor w c hskip
      obtain ⟨new, e, hnew⟩ := ih (fun s hs => hR s (List.mem_cons_of_mem _ hs))
        acc (reportSensor config acc sensor w c).2
      rw [reportSensor_cursor] at hnew
      rw [hr]
      refine ⟨new, e, ?_⟩
      have hd : decide (w.random c.draws ≤ 8 / 10) = false :=
        decide_eq_false (not_le.mpr hskip)
      simp only [reportingDraws, List.filter_cons, hd]
      exact hnew
    · obtain ⟨p, hp, h⟩ := hR sensor (List.mem_cons_self _ _) acc c hskip
      cases hr : (reportSensor config acc sensor w c).1 with
      | none => rw [hr] at h; cases h
      | some next =>
        rw [hr] at h
        have hn : next.1 = acc.1 ++ [p] := Option.some.inj h
        obtain ⟨new, e, hnew⟩ := ih (fun s hs => hR s (List.mem_cons_of_mem _ hs))
          next (reportSensor config acc sensor w c).2
        rw [reportSensor_cursor] at hnew
        refine ⟨p :: new, by rw [e, hn, List.append_assoc]; rfl, ?_⟩
        have hd : decide (w.random c.draws ≤ 8 / 10) = true :=
          decide_eq_true (not_lt.mp hskip)
        simp only [reportingDraws, List.filter_cons, hd]
        exact List.Forall₂.cons hp hnew

/-- The tick when the table value of every allow-listed sensor is an entry (no
allow-listed sensor has a type that names an inherited property), for draws in
`[0, 1)`: the buffer after the tick is the buffer before it followed by new
packets that correspond one to one, in order, to the turns of the sensors that
report. The turns are those of the sensors whose type is in the allow-list, in
sensor order, and a sensor reports when the first draw `u` of its turn
satisfies `u ≤ 0.8`. The packet of a reporting sensor is the base metadata of
that sensor merged with the fields of a generator of its type, fault-injected
or not, and its `sensor_type` is the type of the sensor, a member of the
allow-list. -/
theorem tick_appends_reporting_sensors (config : Config) (s : AppState) (w : World)
    (c : Cursor) (hw : w.UnitDraws)
    (hown : ∀ sensor ∈ s.sensors, sensor.type ∈ s.selectedSensorTypes →
      ∃ typeConfig, typeConfigOrRadar sensor.type = some typeConfig) :
    ∃ new, (generateData config s w c).1.dataBuffer = s.dataBuffer ++ new ∧
      (reportingDraws config w
          (s.sensors.filter (fun sensor => s.selectedSensorTypes.contains sensor.type))
          (dateNow w c).2).map Prod.fst =
        s.sensors.filter (fun sensor => s.selectedSensorTypes.contains sensor.type) ∧
      List.Forall₂
        (fun t p => t.1.type ∈ s.selectedSensorTypes ∧ p.get "sensor_type" = .str t.1.type ∧
          ∃ typeConfig, typeConfigOrRadar t.1.type = some typeConfig ∧
          ∃ g ∈ typeConfig.generators, ∃ c₁ c₂ c₃ : Cursor,
            p = if w.random c₂.draws < config.faultChance then
                (introduceFaults
                  (Packet.merge (generateBaseMetadata t.1 w c₃).1
                    (g.run (generationConfig config t.1) w c₁).1.data)
                  t.1.type w (generateBaseMetadata t.1 w c₃).2).1
              else
                Packet.merge (generateBaseMetadata t.1 w c₃).1
                  (g.run (generationConfig config t.1) w c₁).1.data)
        ((reportingDraws config w
            (s.sensors.filter (fun sensor => s.selectedSensorTypes.contains sensor.type))
            (dateNow w c).2).filter (fun t => decide (t.2 ≤ 8 / 10)))
        new ∧
      ∀ p ∈ new, ∃ type ∈ s.selectedSensorTypes, p.get "sensor_type" = .str type := by
  rw [generateData_dataBuffer]
  obtain ⟨new, e, hnew⟩ := reportSensors_reporting config w
    (fun sensor p => sensor.type ∈ s.selectedSensorTypes ∧
      p.get "sensor_type" = .str sensor.type ∧
      ∃ typeConfig, typeConfigOrRadar sensor.type = some typeConfig ∧
      ∃ g ∈ typeConfig.generators, ∃ c₁ c₂ c₃ : Cursor,
        p = if w.random c₂.draws < config.faultChance then
            (introduceFaults
              (Packet.merge (generateBaseMetadata sensor w c₃).1
                (g.run (generationConfig config sensor) w c₁).1.data)
              sensor.type w (generateBaseMetadata sensor w c₃).2).1
          else
            Packet.merge (generateBaseMetadata sensor w c₃).1
              (g.run (generationConfig config sensor) w c₁).1.data)
    (s.sensors.filter (fun sensor => s.selectedSensorTypes.contains sensor.type))
    (fun sensor hs acc c' hskip => by
      have hsel : sensor.type ∈ s.selectedSensorTypes := by
        simpa using (List.mem_filter.mp hs).2
      obtain ⟨typeConfig, htc⟩ := hown sensor (List.mem_filter.mp hs).1 hsel
      obtain ⟨g, hg, c₁, c₂, c₃, h⟩ :=
        reportSensor_reported config acc sensor typeConfig w c' hw hskip htc
      exact ⟨_, ⟨hsel, generated_packet_sensor_type config sensor g w c₁ c₂ c₃ hw,
        typeConfig, htc, g, hg, c₁, c₂, c₃, rfl⟩, h⟩)
    ([], s.log) (dateNow w c).2
  refine ⟨new, by rw [e]; rfl, reportingDraws_sensors config w _ _, hnew, ?_⟩
  intro p hp
  obtain ⟨t, _, h1, h2, _⟩ := forall₂_mem_right hnew p hp
  exact ⟨t.1.type, h1, h2⟩

/-- Two ticks of that kind: on a platform whose first draw is `0.9` the first
of seven road sensors is skipped and the six others report, in order; and with
a camera between two road sensors and `RoadSensor` alone selected, the two
road sensors report. -/
theorem tick_appends_reporting_sensors_example :
    (reportingDraws demoConfig demoSkipWorld demoStart.sensors
      (dateNow demoSkipWorld {}).2).map Prod.snd = [9 / 10, 0, 0, 0, 0, 0, 0] ∧
    List.zipWith (fun p n => JSValue.same (p.get "sensor_id") (demoSensor n).id)
      (generateData demoConfig demoStart demoSkipWorld {}).1.dataBuffer [1, 2, 3, 4, 5, 6] =
      List.replicate 6 true ∧
    (generateData demoConfig demoStart demoSkipWorld {}).1.dataBuffer.length = 6 ∧
    List.zipWith (fun p n => JSValue.same (p.get "sensor_id") (demoSensor n).id)
      (generateData demoConfig demoMixedStart demoWorld {}).1.dataBuffer [0, 1] =
      [true, true] ∧
    (generateData demoConfig demoMixedStart demoWorld {}).1.dataBuffer.length = 2 :=
  ⟨by decide!, by decide!, by decide!, by decide!, by decide!⟩

theorem generateData_of_throw (config : Config) (s : AppState) (w : World) (c : Cursor)
    (h : (reportSensors config
      (s.sensors.filter (fun sensor => s.selectedSensorTypes.contains sensor.type))
      ([], s.log) w (dateNow w c).2).1.1 = none) :
    (generateData config s w c).1.dataBuffer = s.dataBuffer := by
  rw [generateData_dataBuffer, h]
  simp

/-- C24, a defect of the code: a run is entered with a road sensor and a sensor
of type `constructor` loaded and both types selected. In the tick both sensors
have the reporting draw `0`, so both report; the turn of the second one throws
when it reads `sensorTypeConfig.generators.length`, the exception leaves
`generateData`, and the buffer stays empty: not even the packet of the road
sensor is appended. With the road sensor alone the same tick appends its
packet. -/
theorem tick_with_inherited_type_appends_nothing :
    demoStartedInherited.map (fun t => t.isRunning) = some true ∧
    demoStartedInherited.map (fun t => t.sensors.map (fun sensor => sensor.type)) =
      some ["RoadSensor", "constructor"] ∧
    demoStartedInherited.map (fun t => t.selectedSensorTypes) =
      some ["RoadSensor", "constructor"] ∧
    demoStartedInherited.map (fun t => t.dataBuffer.length) = some 0 ∧
    demoStartedInherited.map (fun t =>
      (reportingDraws demoLoadConfig demoWorld
        (t.sensors.filter (fun sensor => t.selectedSensorTypes.contains sensor.type))
        (dateNow demoWorld {}).2).map Prod.snd) = some [0, 0] ∧
    demoStartedInherited.map (fun t =>
      (generateData demoLoadConfig t demoWorld {}).1.dataBuffer.length) = some 0 ∧
    demoStartedRoadOnly.map (fun t =>
      (generateData demoLoadConfig t demoWorld {}).1.dataBuffer.length) = some 1 :=
  ⟨by decide!, by decide!, by decide!, by decide!, by decide!, by decide!, by decide!⟩

theorem digitChar_step (k : Nat) (hk : k < 10) (acc : Nat) :
    digitStep acc (Nat.digitChar k) = 10 * acc + k := by
  interval_cases k <;> rfl

theorem digitChar_isDigit (k : Nat) (hk : k < 10) : (Nat.digitChar k).isDigit = true := by
  interval_cases k <;> rfl

theorem foldl_toDigitsCore (fuel : Nat) : ∀ (n : Nat) (ds : List Char), n < fuel →
    (Nat.toDigitsCore 10 fuel n ds).foldl digitStep 0 = ds.foldl digitStep n := by
  induction fuel with
  | zero => intro n ds h; omega
  | succ fuel ih =>
    intro n ds h
    unfold Nat.toDigitsCore
    simp only []
    split
    · rename_i h0
      rw [List.foldl_cons, digitChar_step _ (Nat.mod_lt _ (by decide))]
      congr 1
      omega
    · rename_i h0
      rw [ih (n / 10) _ (by omega), List.foldl_cons, digitChar_step _ (Nat.mod_lt _ (by decide))]
      congr 1
      omega

theorem mem_toDigitsCore (fuel : Nat) : ∀ (n : Nat) (ds : List Char) (ch : Char),
    ch ∈ Nat.toDigitsCore 10 fuel n ds → ch.isDigit = true ∨ ch ∈ ds := by
  induction fuel with
  | zero => intro n ds ch h; exact Or.inr h
  | succ fuel ih =>
    intro n ds ch h
    unfold Nat.toDigitsCore at h
    simp only [] at h
    split at h
    · rcases List.mem_cons.mp h with e | e
      · exact Or.inl (e ▸ digitChar_isDigit _ (Nat.mod_lt _ (by decide)))
      · exact Or.inr e
    · rcases ih _ _ _ h with e | e
      · exact Or.inl e
      · rcases List.mem_cons.mp e with e | e
        · exact Or.inl (e ▸ digitChar_isDigit _ (Nat.mod_lt _ (by decide)))
        · exact Or.inr e

theorem foldl_digits (n : Nat) : (toString n).data.foldl digitStep 0 = n :=
  foldl_toDigitsCore (n + 1) n [] (Nat.lt_succ_self n)

theorem count_dash_digits (n : Nat) : (toString n).data.count '-' = 0 := by
  apply List.count_eq_zero.mpr
  intro h
  rcases mem_toDigitsCore (n + 1) n [] '-' h with e | e
  · exact absurd e (by decide)
  · exact absurd e (List.not_mem_nil _)

theorem foldl_zeros (k : Nat) : (List.replicate k '0').foldl digitStep 0 = 0 := by
  induction k with
  | zero => rfl
  | succ k ih => rw [List.replicate_succ, List.foldl_cons]; exact ih

theorem trailingNumber_padded (pre : String) (n targetLength : Nat) :
    trailingNumber (pre ++ "-" ++ padStart (toString n) targetLength '0') = n := by
  unfold trailingNumber padStart
  rw [String.data_append, String.data_append, String.data_append, List.foldl_append,
    List.foldl_append, List.foldl_append]
  have hdash : ∀ a, List.foldl digitStep a "-".data = 0 := fun a => rfl
  rw [hdash, foldl_zeros]
  exact foldl_digits n

theorem trailingNumber_incident (t : Int) :
    trailingNumber ("INC-" ++ toString t) = t.natAbs ∧
    dashCount ("INC-" ++ toString t) = if 0 ≤ t then 1 else 2 := by
  cases t with
  | ofNat m =>
    have e : toString (Int.ofNat m) = toString m := rfl
    rw [e]
    unfold trailingNumber dashCount
    rw [String.data_append, List.foldl_append, List.count_append, count_dash_digits]
    exact ⟨foldl_digits m, by simp⟩
  | negSucc m =>
    have e : toString (Int.negSucc m) = "-" ++ toString (m + 1) := rfl
    rw [e]
    unfold trailingNumber dashCount
    rw [String.data_append, String.data_append, List.foldl_append, List.foldl_append,
      List.count_append, List.count_append, count_dash_digits]
    have hdash : ∀ a, List.foldl digitStep a "-".data = 0 := fun a => rfl
    rw [hdash]
    refine ⟨foldl_digits (m + 1), ?_⟩
    have : ¬ (0 : Int) ≤ Int.negSucc m := by
      have := Int.negSucc_lt_zero m
      omega
    rw [if_neg this]
    rfl

theorem incident_text_injective (t t' : Int)
    (h : "INC-" ++ toString t = "INC-" ++ toString t') : t = t' := by
  have h1 := (trailingNumber_incident t).1
  have h2 := (trailingNumber_incident t).2
  rw [h, (trailingNumber_incident t').1] at h1
  rw [h, (trailingNumber_incident t').2] at h2
  split_ifs at h2 <;> omega

/-! ## Incident ids -/

theorem generateIncidentData_incident_id (w : World) (c : Cursor) :
    (generateIncidentData w c).1.data.get "incident_id" =
      .str ("INC-" ++ toString (w.clock c.reads)) := rfl

/-- C21, refuted as stated: the incident id is the text of one clock reading,
so two incident readings made at the same clock value carry the same id. On a
platform whose clock stands still, two successive calls of
`generateIncidentData` both give `INC-1700000000000`, and the two packets that
two different cameras put in the buffer in one tick carry that same id. -/
theorem incident_ids_collide :
    (generateIncidentData demoWorld {}).1.data.get "incident_id" =
      .str "INC-1700000000000" ∧
    (generateIncidentData demoWorld (generateIncidentData demoWorld {}).2).1.data.get
      "incident_id" = .str "INC-1700000000000" ∧
    demoCamerasTicked.dataBuffer.map (fun p => JSValue.same (p.get "incident_id")
      (.str "INC-1700000000000")) = [true, true] ∧
    demoCamerasTicked.dataBuffer.map (fun p => JSValue.same (p.get "sensor_id")
      (.str "SENSOR-ROAD-2")) = [true, false] :=
  ⟨(JSValue.same_iff _ _).mp (by decide!), (JSValue.same_iff _ _).mp (by decide!),
   by decide!, by decide!⟩

/-- C21, amended: the incident id of a reading is `INC-` followed by the
decimal text of the clock value read at its creation, so two incident readings
carry distinct ids exactly when their clock values differ, whatever the random
draws; readings made at the same clock value share their id. -/
theorem incident_ids_differ_iff_clocks_differ (w w' : World) (c c' : Cursor) :
    (generateIncidentData w c).1.data.get "incident_id" =
      .str ("INC-" ++ toString (w.clock c.reads)) ∧
    ((generateIncidentData w c).1.data.get "incident_id" ≠
        (generateIncidentData w' c').1.data.get "incident_id" ↔
      w.clock c.reads ≠ w'.clock c'.reads) := by
  refine ⟨rfl, ?_⟩
  rw [generateIncidentData_incident_id, generateIncidentData_incident_id]
  constructor
  · intro h e
    exact h (by rw [e])
  · intro h e
    exact h (incident_text_injective _ _ (JSValue.str.inj e))

theorem incident_ids_differ_iff_clocks_differ_witness :
    (generateIncidentData demoWorld {}).1.data.get "incident_id" =
      .str ("INC-" ++ toString (demoWorld.clock ({} : Cursor).reads)) ∧
    ((generateIncidentData demoWorld {}).1.data.get "incident_id" ≠
        (generateIncidentData demoLaterWorld {}).1.data.get "incident_id" ↔
      demoWorld.clock ({} : Cursor).reads ≠ demoLaterWorld.clock ({} : Cursor).reads) :=
  incident_ids_differ_iff_clocks_differ demoWorld demoLaterWorld {} {}

/-! ## The ids of synthesized sensors -/

theorem generateRandomSensor_id (i : Nat) (w : World) (c : Cursor) (sensor : Sensor)
    (h : (generateRandomSensor i w c).1 = some sensor) :
    sensor.id = .str ("SENSOR-" ++ (sensor.type.take 4).toUpper ++ "-" ++
      padStart (toString (i + 1)) 4 '0') := by
  unfold generateRandomSensor at h
  simp only [bind, pure] at h
  generalize ((getRandomElement sensorTypes w c).1.bind
    (fun t => (SENSOR_TYPE_CONFIG.lookup t).map (fun tc => (t, tc)))) = selected at h
  cases selected with
  | none => cases h
  | some pair =>
    obtain ⟨type, typeConfig⟩ := pair
    have e := Option.some.inj h
    rw [← e]

theorem generateSensorsFrom_ids (w : World) (n : Nat) :
    ∀ (i : Nat) (c : Cursor) (l : List Sensor), (generateSensorsFrom i n w c).1 = some l →
      ∀ (k : Nat) (hk : k < l.length),
        l[k].id = .str ("SENSOR-" ++ (l[k].type.take 4).toUpper ++ "-" ++
          padStart (toString (i + k + 1)) 4 '0') := by
  induction n with
  | zero =>
    intro i c l h k hk
    have e : l = [] := (Option.some.inj h).symm
    subst e
    exact absurd hk (Nat.not_lt_zero k)
  | succ n ih =>
    intro i c l h k hk
    simp only [generateSensorsFrom, bind, pure] at h
    cases hs : (generateRandomSensor i w c).1 with
    | none =>
      rw [hs] at h
      cases h
    | some sensor =>
      rw [hs] at h
      simp only [] at h
      cases hr : (generateSensorsFrom (i + 1) n w (generateRandomSensor i w c).2).1 with
      | none =>
        rw [hr] at h
        cases h
      | some rest =>
        rw [hr] at h
        have e : sensor :: rest = l := Option.some.inj h
        subst e
        cases k with
        | zero => exact generateRandomSensor_id i w c sensor hs
        | succ k =>
          have hk' : k < rest.length := Nat.lt_of_succ_lt_succ hk
          have := ih (i + 1) _ rest hr k hk'
          rw [show i + (k + 1) + 1 = i + 1 + k + 1 by omega]
          exact this

/-- C23: for every `maxSensors` and all draws in `[0, 1)`,
`generateRandomSensors` completes, and the sensor at position `k` (from 0) of
the sensors it synthesizes has the id `SENSOR-`, the first four characters of
its type in upper case, `-`, and the number `k + 1` padded with zeros on the
left to at least four digits. The number can be read back off the end of the
id, so the ids are pairwise distinct, whatever types were drawn. -/
theorem generateRandomSensors_distinct_ids (config : Config) (s : AppState) (w : World)
    (c : Cursor) (hw : w.UnitDraws) :
    ∃ t, (generateRandomSensors config s w c).1 = some t ∧
      t.sensors.length = (if config.maxSensors = 0 then 100 else config.maxSensors) ∧
      (∀ (k : Nat) (hk : k < t.sensors.length),
        t.sensors[k].id = .str ("SENSOR-" ++ (t.sensors[k].type.take 4).toUpper ++ "-" ++
          padStart (toString (k + 1)) 4 '0')) ∧
      List.Pairwise (fun a b => a.id ≠ b.id) t.sensors := by
  obtain ⟨l, el, hl, _⟩ := generateSensorsFrom_some w hw
    (if config.maxSensors = 0 then 100 else config.maxSensors) 0 c
  have hid : ∀ (k : Nat) (hk : k < l.length),
      l[k].id = .str ("SENSOR-" ++ (l[k].type.take 4).toUpper ++ "-" ++
        padStart (toString (k + 1)) 4 '0') := by
    intro k hk
    have := generateSensorsFrom_ids w _ 0 c l el k hk
    rw [Nat.zero_add] at this
    exact this
  simp only [generateRandomSensors, bind, pure]
  rw [el]
  refine ⟨_, rfl, hl, hid, ?_⟩
  apply List.pairwise_iff_getElem.mpr
  intro i j hi hj hij e
  have hi' : i < l.length := hi
  have hj' : j < l.length := hj
  have e' : l[i].id = l[j].id := e
  rw [hid i hi', hid j hj'] at e'
  have h := congrArg trailingNumber (JSValue.str.inj e')
  rw [trailingNumber_padded, trailingNumber_padded] at h
  omega

theorem generateRandomSensors_distinct_ids_witness :
    (generateRandomSensors demoFetchConfig demoIdle demoWorld {}).1.map
      (fun t => List.zipWith (fun sensor id => JSValue.same sensor.id (.str id)) t.sensors
        ["SENSOR-RADA-0001", "SENSOR-RADA-0002"]) = some [true, true] ∧
    padStart (toString 12345) 4 '0' = "12345" ∧
    ∃ t, (generateRandomSensors demoFetchConfig demoIdle demoWorld {}).1 = some t ∧
      t.sensors.length =
        (if demoFetchConfig.maxSensors = 0 then 100 else demoFetchConfig.maxSensors) ∧
      (∀ (k : Nat) (hk : k < t.sensors.length),
        t.sensors[k].id = .str ("SENSOR-" ++ (t.sensors[k].type.take 4).toUpper ++ "-" ++
          padStart (toString (k + 1)) 4 '0')) ∧
      List.Pairwise (fun a b => a.id ≠ b.id) t.sensors :=
  ⟨by decide!, by decide!,
   generateRandomSensors_distinct_ids demoFetchConfig demoIdle demoWorld {}
     demoWorld_unitDraws⟩

end App
